import Mathlib

/-!
# HAA Installer: network provisioning and connection supervision

A shallow embedding of `HAA/HAA_Installer/main/setup.c`.

Conventions of the embedding:

* a byte is a `Nat`, a C string is the `List Nat` of its bytes without the
  terminating zero, a fixed-size `char` array is the `List Nat` of its bytes;
* `int8_t` / `int` values are `Int`; wraparound is written out with `%` where
  the source can overflow (`uint8_t check_counter`, `uint16_t body_size`);
* the persistent parameter store (sysparam), the radio and the RTOS are
  external: the store is a finite map, the radio is a small record, and every
  call into the SDK / RTOS is appended to a log in program order;
* `malloc` of a list entry and the `xTaskCreate` calls whose result the source
  ignores are taken to succeed; `task_ok` is the result of the `xTaskCreate`
  calls whose result the source tests, and the log entry `xTaskCreate` stands
  for a task that was created;
* delays (`vTaskDelay`) and log output (`INFO`, `ERROR`, `printf`) are left out.
-/

namespace HAA

/-! ## C library -/

/-- Byte at the head of a C buffer; reading the terminator of a string yields 0. -/
def peek (s : List Nat) : Nat := s.headD 0

/-- The C function `memcmp(a, b, n)`: sign-carrying difference of the first differing byte. -/
def memcmp : List Nat → List Nat → Nat → Int
  | _, _, 0 => 0
  | a, b, n + 1 =>
    if peek a = peek b then memcmp a.tail b.tail n else (peek a : Int) - (peek b : Int)

/-- The C function `strcmp(a, b)` on zero-terminated strings; `fuel` bounds the walk
(any fuel above the length of `a` is enough). -/
def strcmp_fuel : Nat → List Nat → List Nat → Int
  | 0, _, _ => 0
  | fuel + 1, a, b =>
    if peek a ≠ peek b then (peek a : Int) - (peek b : Int)
    else if peek a = 0 then 0
    else strcmp_fuel fuel a.tail b.tail

/-- The C function `strcmp(a, b)`. -/
def strcmp (a b : List Nat) : Int := strcmp_fuel (a.length + 1) a b

/-- The C function `strncmp(a, b, n)`: compares at most `n` bytes and stops at a terminator. -/
def strncmp : List Nat → List Nat → Nat → Int
  | _, _, 0 => 0
  | a, b, n + 1 =>
    if peek a ≠ peek b then (peek a : Int) - (peek b : Int)
    else if peek a = 0 then 0
    else strncmp a.tail b.tail n

/-- Length of the C string stored at the start of a buffer (`strlen`). -/
def strlen : List Nat → Nat
  | [] => 0
  | c :: rest => if c = 0 then 0 else strlen rest + 1

/-- The `n` bytes written by `strncpy(dst, src, n)`: the string, cut at `n` bytes,
zero-padded up to `n`. -/
def strncpy (src : List Nat) (n : Nat) : List Nat :=
  ((src.take (strlen src)).take n) ++ List.replicate (n - min (strlen src) n) 0

/-- Decimal digits of a natural number as ASCII bytes. -/
def utoa (v : Nat) : List Nat := (Nat.toDigits 10 v).map Char.toNat

/-- The text written by `itoa(value, str, 10)`, terminator not included. -/
def itoa (value : Int) : List Nat :=
  if value < 0 then 45 :: utoa value.natAbs else utoa value.toNat

/-- Contents of a zeroed `n`-byte `char` field after a string and its terminator
were written at its start; bytes that do not fit land in the following field. -/
def field (n : Nat) (text : List Nat) : List Nat :=
  (text ++ List.replicate n 0).take n

/-! ## Data model -/

/-- Six-byte hardware address, `uint8_t bssid[6]`. -/
structure Bssid where
  b0 : Nat
  b1 : Nat
  b2 : Nat
  b3 : Nat
  b4 : Nat
  b5 : Nat
  deriving DecidableEq, Repr

/-- The six bytes in memory order. -/
def Bssid.bytes (b : Bssid) : List Nat := [b.b0, b.b1, b.b2, b.b3, b.b4, b.b5]

/-- The SDK constant `AUTH_OPEN`. -/
def AUTH_OPEN : Nat := 0

/-- One scan result of the radio driver (`struct sdk_bss_info`, without its link).
`ssid` is the C string read at `bss->ssid`. -/
structure sdk_bss_info where
  bssid : Bssid
  ssid : List Nat
  channel : Nat
  rssi : Int
  authmode : Nat
  deriving DecidableEq, Repr

/-- The list handed to a scan callback: `arg` points at a head element, whose
successors are the results. -/
structure scan_list where
  head : sdk_bss_info
  next : List sdk_bss_info
  deriving DecidableEq, Repr

/-- Scan completion status (`sdk_scan_status_t`). -/
inductive sdk_scan_status_t where
  | SCAN_OK
  | SCAN_FAIL
  | SCAN_PENDING
  | SCAN_BUSY
  | SCAN_CANCEL
  deriving DecidableEq, Repr

/-- One discovered network (`wifi_network_info_t`, without its link): the byte
contents of `ssid[33]`, `bssid[6]`, `rssi[4]`, `channel[3]` and `secure`. -/
structure wifi_network_info_t where
  ssid : List Nat
  bssid : Bssid
  rssi : List Nat
  channel : List Nat
  secure : Bool
  deriving DecidableEq, Repr

/-- The tasks of the program; a task handle names its task. -/
inductive Task where
  | ota_task
  | wifi_config_station_connect
  | wifi_config_sta_connect_timeout_task
  | wifi_smart_connect_task (best_bssid : Bssid)
  | wifi_scan_sc_task
  | wifi_scan_task
  | http_task
  | wifi_config_server_on_settings_update_task (body : Option (List Nat))
  deriving DecidableEq, Repr

/-- The timer periods of `header.h`, by name. -/
inductive TimerPeriod where
  | AUTO_REBOOT_TIMEOUT
  | AUTO_REBOOT_LONG_TIMEOUT
  | AUTO_REBOOT_ON_HANG_OTA_TIMEOUT
  deriving DecidableEq, Repr

/-- A timer made by `esp_timer_create(period, false, NULL, auto_reboot_run)`. -/
structure Timer where
  period : TimerPeriod
  deriving DecidableEq, Repr

/-- The supervisor context (`wifi_config_context_t`). -/
structure wifi_config_context_t where
  ssid_prefix : List Nat
  auto_reboot_timer : Option Timer
  sta_connect_timeout : Option Task
  ota_task : Option Task
  wifi_networks : List wifi_network_info_t
  check_counter : Nat
  end_setup : Bool
  deriving DecidableEq, Repr

/-! ## Scan engine -/

/-- The function `wifi_networks_free`: every entry is released and the list is emptied. -/
def wifi_networks_free (context : wifi_config_context_t) : wifi_config_context_t :=
  { context with wifi_networks := [] }

/-- Inner loop of `wifi_scan_done_cb`: first entry whose six address bytes compare equal. -/
def find_net : List wifi_network_info_t → Bssid → Option wifi_network_info_t
  | [], _ => none
  | net :: rest, bssid =>
    if memcmp net.bssid.bytes bssid.bytes 6 = 0 then some net else find_net rest bssid

/-- The entry that `wifi_scan_done_cb` allocates and fills for a scan result. -/
def new_net (bss : sdk_bss_info) : wifi_network_info_t :=
  { ssid := strncpy bss.ssid 33
    bssid := bss.bssid
    rssi := field 4 (itoa bss.rssi)
    channel := field 3 (itoa bss.channel)
    secure := bss.authmode ≠ AUTH_OPEN }

/-- Outer loop of `wifi_scan_done_cb` over the results, threading the list head. -/
def scan_loop : List sdk_bss_info → List wifi_network_info_t → List wifi_network_info_t
  | [], nets => nets
  | bss :: rest, nets =>
    match find_net nets bss.bssid with
    | some _ => scan_loop rest nets
    | none => scan_loop rest (new_net bss :: nets)

/-- The function `wifi_scan_done_cb`; `context` is the global pointer, `none` when null. -/
def wifi_scan_done_cb (arg : scan_list) (status : sdk_scan_status_t)
    (context : Option wifi_config_context_t) : Option wifi_config_context_t :=
  match context with
  | none => none
  | some ctx =>
    if status ≠ sdk_scan_status_t.SCAN_OK then some ctx
    else
      let freed := wifi_networks_free ctx
      some { freed with wifi_networks := scan_loop arg.next freed.wifi_networks }

/-- Spec side of the deduplication: the results whose address occurs neither in
`seen` nor earlier in the list, in scan order. -/
def first_occurrences_from : List Bssid → List sdk_bss_info → List sdk_bss_info
  | _, [] => []
  | seen, bss :: rest =>
    if bss.bssid ∈ seen then first_occurrences_from seen rest
    else bss :: first_occurrences_from (bss.bssid :: seen) rest

/-- Spec side: the first occurrence of every hardware address, in scan order. -/
def first_occurrences (results : List sdk_bss_info) : List sdk_bss_info :=
  first_occurrences_from [] results

/-! ## Persistent store, radio and call log -/

/-- Keys of the persistent parameter store (the `*_SYSPARAM` names of `header.h`). -/
inductive Key where
  | WIFI_SSID_SYSPARAM
  | WIFI_PASSWORD_SYSPARAM
  | WIFI_BSSID_SYSPARAM
  | WIFI_MODE_SYSPARAM
  | WIFI_LAST_WORKING_PHY_SYSPARAM
  | HAA_SETUP_MODE_SYSPARAM
  | INSTALLER_VERSION_SYSPARAM
  | HAAMAIN_VERSION_SYSPARAM
  | LAST_CONFIG_NUMBER_SYSPARAM
  | HOMEKIT_PAIRING_COUNT_SYSPARAM
  | CUSTOM_REPO_SYSPARAM
  | PORT_NUMBER_SYSPARAM
  | PORT_SECURE_SYSPARAM
  | HAA_SCRIPT_SYSPARAM
  | TOTAL_SERV_SYSPARAM
  | saved_state (id : Nat)
  deriving DecidableEq, Repr

/-- A stored value: an integer, a string or binary data. -/
inductive Value where
  | int (v : Int)
  | str (s : List Nat)
  | data (d : List Nat)
  deriving DecidableEq, Repr

/-- The persistent parameter store: a map from keys to values. -/
abbrev Store := Key → Option Value

/-- Store with the entry of `key` replaced (`none` deletes it). -/
def Store.put (store : Store) (key : Key) (value : Option Value) : Store :=
  fun k => if k = key then value else store k

/-- The call `sysparam_get_string(key, &dest)` with `dest` initialised to NULL. -/
def sysparam_get_string (store : Store) (key : Key) : Option (List Nat) :=
  match store key with
  | some (Value.str s) => some s
  | _ => none

/-- The call `sysparam_get_int8(key, &dest)` with `dest` initialised to `dflt`. -/
def sysparam_get_int8 (store : Store) (key : Key) (dflt : Int) : Int :=
  match store key with
  | some (Value.int v) => v
  | _ => dflt

/-- The call `sysparam_get_data(key, &dest, &len, &is_binary)` with `dest` initialised to NULL. -/
def sysparam_get_data (store : Store) (key : Key) : Option (List Nat) :=
  match store key with
  | some (Value.data d) => some d
  | some (Value.str s) => some s
  | _ => none

/-- Physical-layer modes of the radio. -/
inductive PhyMode where
  | PHY_MODE_11B
  | PHY_MODE_11G
  | PHY_MODE_11N
  deriving DecidableEq, Repr

/-- Operating modes of the radio. -/
inductive OpMode where
  | NULL_MODE
  | STATION_MODE
  | SOFTAP_MODE
  | STATIONAP_MODE
  deriving DecidableEq, Repr

/-- Station configuration (`struct sdk_station_config`): `ssid[32]`, `password[64]`,
`bssid_set`, `bssid[6]`. -/
structure sdk_station_config where
  ssid : List Nat
  password : List Nat
  bssid_set : Nat
  bssid : List Nat
  deriving DecidableEq, Repr

/-- Access-point configuration (`struct sdk_softap_config`); `ssid` holds the text
that `snprintf` left in the 32-byte field. -/
structure sdk_softap_config where
  ssid : List Nat
  ssid_len : Nat
  ssid_hidden : Nat
  channel : Nat
  authmode : Nat
  max_connection : Nat
  beacon_interval : Nat
  deriving DecidableEq, Repr

/-- Calls into the SDK, the RTOS and the store, as logged in program order. -/
inductive Call where
  | sysparam_set (key : Key) (value : Option Value)
  | sdk_wifi_station_disconnect
  | sdk_wifi_station_set_config (config : sdk_station_config)
  | sdk_wifi_station_set_auto_connect (set : Bool)
  | sdk_wifi_station_connect
  | sdk_wifi_set_opmode (mode : OpMode)
  | sdk_wifi_set_phy_mode (mode : PhyMode)
  | sdk_wifi_set_ip_info (ip : List Nat) (netmask : List Nat) (gw : List Nat)
  | sdk_wifi_softap_set_config (config : sdk_softap_config)
  | dhcpserver_start (first_client_ip : List Nat) (max_leases : Nat)
  | etharp_gratuitous
  | xTaskCreate (task : Task)
  | vTaskDelete (task : Option Task)
  | vTaskResume (task : Option Task)
  | esp_timer_create (period : TimerPeriod)
  | esp_timer_start_forced (timer : Option Timer)
  | esp_timer_change_period_forced (timer : Option Timer) (period : TimerPeriod)
  | client_send_redirect (code : Nat) (redirect_url : List Nat)
  | client_send_settings_page (networks : Option (List wifi_network_info_t))
  | free_body
  | wifi_config_context_free
  | sdk_system_restart
  | null_dereference
  | uninitialised_read
  | setup_mode_reset_sysparam
  | spiflash_erase_sector (addr : Nat)
  | spiflash_write (addr : Nat) (byte2 : Nat)
  | rboot_set_temp_rom (rom : Nat)
  deriving DecidableEq, Repr

/-- Everything outside the context that the functions read or change. -/
structure World where
  store : Store
  opmode : OpMode
  phy_mode : PhyMode
  got_ip : Bool
  netif_up : Bool
  softap_macaddr : Bssid
  calls : List Call

/-- Append a call to the log. -/
def World.log (w : World) (c : Call) : World :=
  { w with calls := w.calls ++ [c] }

/-- A store write (`sysparam_set_*`): the entry is replaced and the write is logged. -/
def sysparam_set (key : Key) (value : Option Value) (w : World) : World :=
  { w with store := w.store.put key value, calls := w.calls ++ [Call.sysparam_set key value] }

/-- The call `sysparam_set_string(key, value)`. -/
def sysparam_set_string (key : Key) (value : List Nat) (w : World) : World :=
  sysparam_set key (some (Value.str value)) w

/-- The call `sysparam_set_int8(key, value)`. -/
def sysparam_set_int8 (key : Key) (value : Int) (w : World) : World :=
  sysparam_set key (some (Value.int value)) w

/-- The call `sysparam_set_data(key, value, len, binary)`; a NULL value deletes the entry. -/
def sysparam_set_data (key : Key) (value : Option (List Nat)) (w : World) : World :=
  sysparam_set key (value.map Value.data) w

/-- The call `sdk_wifi_set_phy_mode(mode)`. -/
def sdk_wifi_set_phy_mode (mode : PhyMode) (w : World) : World :=
  { w with phy_mode := mode, calls := w.calls ++ [Call.sdk_wifi_set_phy_mode mode] }

/-- The call `sdk_wifi_set_opmode(mode)`. -/
def sdk_wifi_set_opmode (mode : OpMode) (w : World) : World :=
  { w with opmode := mode, calls := w.calls ++ [Call.sdk_wifi_set_opmode mode] }

/-- Conversion of an `int8_t` argument to a `uint8_t` parameter. -/
def to_uint8 (v : Int) : Nat := (v % 256).toNat

/-! ## Connection set-up -/

/-- The function `wifi_config_got_ip`. -/
def wifi_config_got_ip (w : World) : Bool := w.got_ip

/-- The function `wifi_config_resend_arp`. -/
def wifi_config_resend_arp (w : World) : World :=
  if w.netif_up then w.log Call.etharp_gratuitous else w

/-- The function `wifi_config_toggle_phy_mode`. -/
def wifi_config_toggle_phy_mode (phy : Nat) (w : World) : World :=
  match phy with
  | 1 => sdk_wifi_set_phy_mode PhyMode.PHY_MODE_11B w
  | 2 => sdk_wifi_set_phy_mode PhyMode.PHY_MODE_11G w
  | 3 => sdk_wifi_set_phy_mode PhyMode.PHY_MODE_11N w
  | 4 =>
    if w.phy_mode = PhyMode.PHY_MODE_11N then sdk_wifi_set_phy_mode PhyMode.PHY_MODE_11G w
    else sdk_wifi_set_phy_mode PhyMode.PHY_MODE_11N w
  | _ => w

/-- A station configuration after `memset(&sta_config, 0, sizeof(sta_config))`. -/
def sta_config_zero : sdk_station_config :=
  { ssid := List.replicate 32 0
    password := List.replicate 64 0
    bssid_set := 0
    bssid := List.replicate 6 0 }

/-- The two statements that fill `sta_config.ssid`: `strncpy` of 32 bytes, then a
zero in the last byte. -/
def sta_config_ssid (wifi_ssid : List Nat) : List Nat :=
  (strncpy wifi_ssid 32).set 31 0

/-- The statements that fill `sta_config.password` when a passphrase is stored. -/
def sta_config_password (wifi_password : Option (List Nat)) : List Nat :=
  match wifi_password with
  | some p => strncpy p 64
  | none => List.replicate 64 0

/-- The function `wifi_smart_connect_task`, run with `best_bssid` as its argument. -/
def wifi_smart_connect_task (best_bssid : Bssid) (w : World) : World :=
  let w := sysparam_set_data Key.WIFI_BSSID_SYSPARAM (some best_bssid.bytes) w
  let w := w.log Call.sdk_wifi_station_disconnect
  match sysparam_get_string w.store Key.WIFI_SSID_SYSPARAM with
  | none => w.log Call.null_dereference
  | some wifi_ssid =>
    let wifi_password := sysparam_get_string w.store Key.WIFI_PASSWORD_SYSPARAM
    let sta_config : sdk_station_config :=
      { ssid := sta_config_ssid wifi_ssid
        password := sta_config_password wifi_password
        bssid_set := 1
        bssid := best_bssid.bytes }
    let w := w.log (Call.sdk_wifi_station_set_config sta_config)
    let w := w.log (Call.sdk_wifi_station_set_auto_connect true)
    let phy_mode := sysparam_get_int8 w.store Key.WIFI_LAST_WORKING_PHY_SYSPARAM 3
    let w := wifi_config_toggle_phy_mode (to_uint8 phy_mode) w
    w.log Call.sdk_wifi_station_connect

/-- The constant `INT8_MIN`. -/
def INT8_MIN : Int := -128

/-- Local variables of the selection loop of `wifi_scan_sc_done`; `best_bssid` is
`none` while the six allocated bytes have not been written. -/
structure sc_state where
  best_rssi : Int
  best_bssid : Option Bssid
  found : Bool
  deriving DecidableEq, Repr

/-- The locals of `wifi_scan_sc_done` before its loop. -/
def sc_init : sc_state :=
  { best_rssi := INT8_MIN, best_bssid := none, found := false }

/-- One pass through the body of the selection loop of `wifi_scan_sc_done`. -/
def sc_step (wifi_ssid : List Nat) (BEST_RSSI_MARGIN : Int) (st : sc_state)
    (bss : sdk_bss_info) : sc_state :=
  if strcmp wifi_ssid bss.ssid = 0 then
    if bss.rssi > st.best_rssi + BEST_RSSI_MARGIN then
      { best_rssi := bss.rssi, best_bssid := some bss.bssid, found := true }
    else st
  else st

/-- The selection loop of `wifi_scan_sc_done`, from the given locals. -/
def sc_loop (wifi_ssid : List Nat) (BEST_RSSI_MARGIN : Int) :
    List sdk_bss_info → sc_state → sc_state
  | [], st => st
  | bss :: rest, st => sc_loop wifi_ssid BEST_RSSI_MARGIN rest (sc_step wifi_ssid BEST_RSSI_MARGIN st bss)

/-- The return statement through which `wifi_scan_sc_done` leaves. -/
inductive sc_exit where
  | no_ssid
  | no_best
  | same_bssid (best_bssid : Bssid)
  | task_created (best_bssid : Bssid)
  | plain_connect
  deriving DecidableEq, Repr

/-- The part of `wifi_scan_sc_done` after its loop. -/
def sc_finish (st : sc_state) (task_ok : Bool) (w : World) : sc_exit × World :=
  if st.best_rssi = INT8_MIN then
    (sc_exit.no_best, w.log Call.sdk_wifi_station_connect)
  else
    let wifi_bssid := sysparam_get_data w.store Key.WIFI_BSSID_SYSPARAM
    match st.found, st.best_bssid with
    | true, none => (sc_exit.plain_connect, w.log Call.uninitialised_read)
    | true, some best_bssid =>
      if wifi_bssid.isSome ∧ memcmp best_bssid.bytes (wifi_bssid.getD []) 6 = 0 then
        (sc_exit.same_bssid best_bssid,
          if wifi_config_got_ip w then w else w.log Call.sdk_wifi_station_connect)
      else if task_ok then
        (sc_exit.task_created best_bssid,
          w.log (Call.xTaskCreate (Task.wifi_smart_connect_task best_bssid)))
      else
        (sc_exit.plain_connect, w.log Call.sdk_wifi_station_connect)
    | false, _ => (sc_exit.plain_connect, w.log Call.sdk_wifi_station_connect)

/-- The function `wifi_scan_sc_done`; `task_ok` tells whether `xTaskCreate` returns `pdPASS`. -/
def wifi_scan_sc_done (BEST_RSSI_MARGIN : Int) (arg : scan_list) (status : sdk_scan_status_t)
    (task_ok : Bool) (w : World) : sc_exit × World :=
  let w :=
    if status ≠ sdk_scan_status_t.SCAN_OK then
      (if wifi_config_got_ip w then w else w.log Call.sdk_wifi_station_connect)
    else w
  match sysparam_get_string w.store Key.WIFI_SSID_SYSPARAM with
  | none => (sc_exit.no_ssid, w)
  | some wifi_ssid =>
    sc_finish (sc_loop wifi_ssid BEST_RSSI_MARGIN arg.next sc_init) task_ok w

/-- The function `wifi_config_smart_connect`. -/
def wifi_config_smart_connect (task_ok : Bool) (w : World) : World :=
  let wifi_mode := sysparam_get_int8 w.store Key.WIFI_MODE_SYSPARAM 0
  if wifi_mode < 2 then
    (if wifi_config_got_ip w then w else w.log Call.sdk_wifi_station_connect)
  else if task_ok then w.log (Call.xTaskCreate Task.wifi_scan_sc_task)
  else (if wifi_config_got_ip w then w else w.log Call.sdk_wifi_station_connect)

/-- The bytes of the string literal "none". -/
def str_none : List Nat := [110, 111, 110, 101]

/-- The function `wifi_config_reset`. -/
def wifi_config_reset (w : World) : World :=
  let w := w.log Call.sdk_wifi_station_disconnect
  let sta_config := { sta_config_zero with ssid := sta_config_ssid str_none }
  let w := w.log (Call.sdk_wifi_station_set_config sta_config)
  let w := w.log (Call.sdk_wifi_station_set_auto_connect false)
  w.log Call.sdk_wifi_station_connect

/-- The function `wifi_config_connect`; the result pairs the returned value with the
world it leaves. `INSTALLER_VERSION` is the string constant of `header.h`. -/
def wifi_config_connect (INSTALLER_VERSION : List Nat) (task_ok : Bool) (phy : Nat)
    (w : World) : Nat × World :=
  let w := sysparam_set_string Key.INSTALLER_VERSION_SYSPARAM INSTALLER_VERSION w
  match sysparam_get_string w.store Key.WIFI_SSID_SYSPARAM with
  | none => (0, w)
  | some wifi_ssid =>
    let w := wifi_config_reset w
    let w := w.log Call.sdk_wifi_station_disconnect
    let wifi_password := sysparam_get_string w.store Key.WIFI_PASSWORD_SYSPARAM
    let sta_config : sdk_station_config :=
      { sta_config_zero with
        ssid := sta_config_ssid wifi_ssid
        password := sta_config_password wifi_password }
    let wifi_mode := sysparam_get_int8 w.store Key.WIFI_MODE_SYSPARAM 0
    let wifi_bssid := sysparam_get_data w.store Key.WIFI_BSSID_SYSPARAM
    if wifi_mode < 2 then
      let sta_config :=
        match wifi_mode, wifi_bssid with
        | 1, some b => { sta_config with bssid_set := 1, bssid := b.take 6 }
        | _, _ => { sta_config with bssid_set := 0 }
      let w := sdk_wifi_set_opmode OpMode.STATION_MODE w
      let w := w.log (Call.sdk_wifi_station_set_config sta_config)
      let w := w.log (Call.sdk_wifi_station_set_auto_connect true)
      let w := wifi_config_toggle_phy_mode phy w
      (1, w.log Call.sdk_wifi_station_connect)
    else
      let w := sysparam_set_data Key.WIFI_BSSID_SYSPARAM none w
      let w := sdk_wifi_set_opmode OpMode.STATION_MODE w
      let w := w.log (Call.sdk_wifi_station_set_config sta_config)
      let w := w.log (Call.sdk_wifi_station_set_auto_connect true)
      let w := wifi_config_toggle_phy_mode phy w
      if wifi_mode = 4 then (1, w.log (Call.xTaskCreate Task.wifi_scan_sc_task))
      else (1, wifi_config_smart_connect task_ok w)

/-- Upper-case hexadecimal digit as an ASCII byte. -/
def hex_digit (d : Nat) : Nat := if d < 10 then 48 + d else 55 + d

/-- Text produced by the conversion `%02X` for a byte. -/
def fmt_02X (b : Nat) : List Nat :=
  if b < 16 then [48, hex_digit b] else (Nat.toDigits 16 b).map (fun c => c.toUpper.toNat)

/-- Text that the format "%s-%02X%02X%02X" of `wifi_config_softap_start` produces. -/
def softap_ssid_text (ssid_pfx : List Nat) (macaddr : Bssid) : List Nat :=
  ssid_pfx.take (strlen ssid_pfx) ++ [45] ++ fmt_02X macaddr.b3 ++ fmt_02X macaddr.b4
    ++ fmt_02X macaddr.b5

/-- The function `wifi_config_softap_start`. `snprintf` stores at most 31 bytes of the
text and returns the length of the whole text, which is narrowed to the `uint8_t`
field `ssid_len`. -/
def wifi_config_softap_start (context : wifi_config_context_t) (w : World) : World :=
  let w := sdk_wifi_set_opmode OpMode.STATIONAP_MODE w
  let macaddr := w.softap_macaddr
  let text := softap_ssid_text (wifi_config_context_t.ssid_prefix context) macaddr
  let softap_config : sdk_softap_config :=
    { ssid := text.take 31
      ssid_len := text.length % 256
      ssid_hidden := 0
      channel := 6
      authmode := AUTH_OPEN
      max_connection := 2
      beacon_interval := 100 }
  let w := w.log (Call.sdk_wifi_set_ip_info [192, 168, 4, 1] [255, 255, 255, 0] [0, 0, 0, 0])
  let w := w.log (Call.sdk_wifi_softap_set_config softap_config)
  let w := w.log (Call.dhcpserver_start [192, 168, 4, 2] 4)
  w.log (Call.xTaskCreate Task.http_task)

/-- The function `auto_reboot_run`. -/
def auto_reboot_run (w : World) : World := w.log Call.sdk_system_restart

/-- The function `wifi_config_station_connect`. -/
def wifi_config_station_connect (INSTALLER_VERSION : List Nat) (task_ok : Bool)
    (context : wifi_config_context_t) (w : World) : wifi_config_context_t × World :=
  let setup_mode := sysparam_get_int8 w.store Key.HAA_SETUP_MODE_SYSPARAM 3
  let phy_mode := sysparam_get_int8 w.store Key.WIFI_LAST_WORKING_PHY_SYSPARAM 0
  let r := wifi_config_connect INSTALLER_VERSION task_ok (to_uint8 phy_mode) w
  let w := r.2
  if r.1 = 1 ∧ setup_mode = 0 then
    let w := sysparam_set_int8 Key.HAA_SETUP_MODE_SYSPARAM 1 w
    let w := w.log (Call.xTaskCreate Task.wifi_config_sta_connect_timeout_task)
    ({ context with sta_connect_timeout := some Task.wifi_config_sta_connect_timeout_task }, w)
  else
    let w := w.log (Call.vTaskDelete context.ota_task)
    let w := sysparam_set_int8 Key.HAA_SETUP_MODE_SYSPARAM 0 w
    if setup_mode = 1 then
      let timer : Timer := { period := TimerPeriod.AUTO_REBOOT_TIMEOUT }
      let w := w.log (Call.esp_timer_create TimerPeriod.AUTO_REBOOT_TIMEOUT)
      let context := { context with auto_reboot_timer := some timer }
      let w := w.log (Call.esp_timer_start_forced context.auto_reboot_timer)
      (context, wifi_config_softap_start context w)
    else
      (context, wifi_config_softap_start context w)

/-- The function `wifi_config_init`: the zeroed context with the retained name and the
handle of the OTA task; the caller then creates the task `wifi_config_station_connect`. -/
def wifi_config_init (ssid_pfx : List Nat) (xHandle : Option Task) : wifi_config_context_t :=
  { ssid_prefix := (ssid_pfx.take (strlen ssid_pfx)).take (33 - 7)
    auto_reboot_timer := none
    sta_connect_timeout := none
    ota_task := xHandle
    wifi_networks := []
    check_counter := 0
    end_setup := false }

/-! ## Connect-timeout supervisor -/

/-- The branch that one pass of the loop of `wifi_config_sta_connect_timeout_task` takes. -/
inductive poll_branch where
  | got_ip
  | forced_reconnect
  | resend_arp
  | reboot
  | idle
  | not_station
  deriving DecidableEq, Repr

/-- One pass through the loop body of `wifi_config_sta_connect_timeout_task`;
`status_got_ip` tells whether `sdk_wifi_station_get_connect_status()` is `STATION_GOT_IP`. -/
def sta_connect_timeout_poll (INSTALLER_VERSION : List Nat) (task_ok : Bool)
    (status_got_ip : Bool) (context : wifi_config_context_t) (w : World) :
    poll_branch × wifi_config_context_t × World :=
  if status_got_ip then
    let phy_mode : Int := if w.phy_mode = PhyMode.PHY_MODE_11G then 2 else 3
    let w := sysparam_set_int8 Key.WIFI_LAST_WORKING_PHY_SYSPARAM phy_mode w
    let w := w.log (Call.vTaskResume context.ota_task)
    let w := w.log Call.wifi_config_context_free
    let context := wifi_networks_free context
    let w := w.log (Call.esp_timer_create TimerPeriod.AUTO_REBOOT_ON_HANG_OTA_TIMEOUT)
    let w := w.log (Call.esp_timer_start_forced
      (some { period := TimerPeriod.AUTO_REBOOT_ON_HANG_OTA_TIMEOUT }))
    (poll_branch.got_ip, context, w)
  else if w.opmode = OpMode.STATION_MODE then
    let context := { context with check_counter := (context.check_counter + 1) % 256 }
    if context.check_counter % 32 = 0 then
      (poll_branch.forced_reconnect, context,
        (wifi_config_connect INSTALLER_VERSION task_ok 4 w).2)
    else if context.check_counter % 5 = 0 then
      (poll_branch.resend_arp, context, wifi_config_resend_arp w)
    else if context.check_counter > 240 then
      (poll_branch.reboot, context, auto_reboot_run w)
    else (poll_branch.idle, context, w)
  else (poll_branch.not_station, context, w)

/-- The function `wifi_config_sta_connect_timeout_task` for at most `fuel` passes of its
loop: pass `k` reads the connection status `status k`. The loop ends when an IP was
obtained (`break`) and the device restarts when the reboot branch is taken. The
result lists the branch of every pass. -/
def wifi_config_sta_connect_timeout_task (INSTALLER_VERSION : List Nat) (task_ok : Bool)
    (status : Nat → Bool) : Nat → Nat → wifi_config_context_t → World →
    List poll_branch × wifi_config_context_t × World
  | 0, _, context, w => ([], context, w)
  | fuel + 1, k, context, w =>
    let r := sta_connect_timeout_poll INSTALLER_VERSION task_ok (status k) context w
    if r.1 = poll_branch.got_ip ∨ r.1 = poll_branch.reboot then ([r.1], r.2.1, r.2.2)
    else
      let rest := wifi_config_sta_connect_timeout_task INSTALLER_VERSION task_ok status
        fuel (k + 1) r.2.1 r.2.2
      (r.1 :: rest.1, rest.2.1, rest.2.2)

/-! ## Captive-portal HTTP server -/

/-- Routes of the portal (`endpoint_t`). -/
inductive endpoint_t where
  | ENDPOINT_UNKNOWN
  | ENDPOINT_INDEX
  | ENDPOINT_SETTINGS
  | ENDPOINT_SETTINGS_UPDATE
  deriving DecidableEq, Repr

/-- Request methods of the HTTP tokenizer (`enum http_method`). -/
inductive http_method where
  | HTTP_DELETE
  | HTTP_GET
  | HTTP_HEAD
  | HTTP_POST
  | HTTP_PUT
  | HTTP_OTHER (code : Nat)
  deriving DecidableEq, Repr

/-- One client session (`client_t`); `method` is `parser.method`, `body` the heap block
behind the `body` pointer (`none` when the pointer is NULL). -/
structure client_t where
  fd : Int
  method : http_method
  endpoint : endpoint_t
  body : Option (List Nat)
  body_length : Nat
  deriving DecidableEq, Repr

/-- Memory faults of the embedded code. -/
inductive Fault where
  | null_pointer
  | out_of_bounds (size : Nat) (index : Nat)
  deriving DecidableEq, Repr

/-- The loop of `body_malloc`, for at most `fuel` rounds: `malloc_ok size` tells whether
`malloc(size)` succeeds; `body_size` is a `uint16_t`. The result is the size of the
block obtained. -/
def body_malloc_loop (malloc_ok : Nat → Bool) : Nat → Nat → Option Nat
  | 0, _ => none
  | fuel + 1, body_size =>
    if malloc_ok body_size then some body_size
    else body_malloc_loop malloc_ok fuel ((body_size + 65536 - 200) % 65536)

/-- The function `body_malloc`; `MAX_BODY_LEN` is the constant of `header.h`. -/
def body_malloc (MAX_BODY_LEN : Nat) (malloc_ok : Nat → Bool) (fuel : Nat) : Option Nat :=
  body_malloc_loop malloc_ok fuel (MAX_BODY_LEN % 65536)

/-- The function `client_new`: a zeroed session with a body block (whose bytes read
as zero here, the source leaves them unspecified). -/
def client_new (MAX_BODY_LEN : Nat) (malloc_ok : Nat → Bool) (fuel : Nat) : Option client_t :=
  match body_malloc MAX_BODY_LEN malloc_ok fuel with
  | none => none
  | some size =>
    some { fd := 0
           method := http_method.HTTP_DELETE
           endpoint := endpoint_t.ENDPOINT_UNKNOWN
           body := some (List.replicate size 0)
           body_length := 0 }

/-- The bytes of the string literal "/sn". -/
def str_sn : List Nat := [47, 115, 110]

/-- The bytes of the string literal "/". -/
def str_slash : List Nat := [47]

/-- The function `wifi_config_server_on_url`; `data` holds the `length` bytes of the URL. -/
def wifi_config_server_on_url (client : client_t) (data : List Nat) : client_t :=
  let length := data.length
  let client := { client with endpoint := endpoint_t.ENDPOINT_UNKNOWN }
  if client.method = http_method.HTTP_GET then
    if strncmp data str_sn length = 0 then
      { client with endpoint := endpoint_t.ENDPOINT_SETTINGS }
    else if strncmp data str_slash length = 0 then
      { client with endpoint := endpoint_t.ENDPOINT_INDEX }
    else client
  else if client.method = http_method.HTTP_POST then
    if strncmp data str_sn length = 0 then
      { client with endpoint := endpoint_t.ENDPOINT_SETTINGS_UPDATE }
    else client
  else client

/-- Bytes of a block after `memcpy(block + offset, data, data.length)`. -/
def memcpy_at (block : List Nat) (offset : Nat) (data : List Nat) : List Nat :=
  block.take offset ++ data ++ block.drop (offset + data.length)

/-- The function `wifi_config_server_on_body`; `data` holds the `length` bytes of the
chunk. A write outside the body block is reported as a fault. -/
def wifi_config_server_on_body (client : client_t) (data : List Nat) : Except Fault client_t :=
  match client.body with
  | none => Except.error Fault.null_pointer
  | some block =>
    if client.body_length + data.length > block.length then
      Except.error (Fault.out_of_bounds block.length (client.body_length + data.length - 1))
    else
      let block := memcpy_at block client.body_length data
      let body_length := client.body_length + data.length
      if body_length < block.length then
        Except.ok { client with body := some (block.set body_length 0), body_length := body_length }
      else Except.error (Fault.out_of_bounds block.length body_length)

/-- The parser feeding a sequence of body chunks to `wifi_config_server_on_body`. -/
def on_body_chunks : client_t → List (List Nat) → Except Fault client_t
  | client, [] => Except.ok client
  | client, data :: rest =>
    match wifi_config_server_on_body client data with
    | Except.ok client => on_body_chunks client rest
    | Except.error e => Except.error e

/-- The function `wifi_config_server_on_settings`; `mutex_taken` tells whether the list
mutex was obtained within the bounded wait. -/
def wifi_config_server_on_settings (mutex_taken : Bool) (context : wifi_config_context_t)
    (w : World) : World :=
  let w := w.log (Call.esp_timer_change_period_forced context.auto_reboot_timer
    TimerPeriod.AUTO_REBOOT_LONG_TIMEOUT)
  let w := w.log (Call.xTaskCreate Task.wifi_scan_task)
  w.log (Call.client_send_settings_page
    (if mutex_taken then some context.wifi_networks else none))

/-- The function `wifi_config_server_on_message_complete`. -/
def wifi_config_server_on_message_complete (mutex_taken : Bool) (client : client_t)
    (context : wifi_config_context_t) (w : World) : client_t × World :=
  let free_body (client : client_t) (w : World) : client_t × World :=
    match client.body with
    | some _ => ({ client with body := none, body_length := 0 }, w.log Call.free_body)
    | none => (client, w)
  match client.endpoint with
  | endpoint_t.ENDPOINT_INDEX => free_body client (w.log (Call.client_send_redirect 301 str_sn))
  | endpoint_t.ENDPOINT_UNKNOWN => free_body client (w.log (Call.client_send_redirect 301 str_sn))
  | endpoint_t.ENDPOINT_SETTINGS =>
    free_body client (wifi_config_server_on_settings mutex_taken context w)
  | endpoint_t.ENDPOINT_SETTINGS_UPDATE =>
    let w := w.log (Call.esp_timer_change_period_forced context.auto_reboot_timer
      TimerPeriod.AUTO_REBOOT_LONG_TIMEOUT)
    let w := if context.sta_connect_timeout.isSome
      then w.log (Call.vTaskDelete context.sta_connect_timeout) else w
    (client, w.log (Call.xTaskCreate
      (Task.wifi_config_server_on_settings_update_task client.body)))

/-! ## Concrete inputs -/

/-- The bytes of the name "Home". -/
def name_home : List Nat := [72, 111, 109, 101]

/-- The bytes of the passphrase "secret123". -/
def pass_secret123 : List Nat := [115, 101, 99, 114, 101, 116, 49, 50, 51]

/-- A hardware address. -/
def bssid_a : Bssid := ⟨0x10, 0x20, 0x30, 0x40, 0x50, 0x60⟩

/-- Another hardware address. -/
def bssid_b : Bssid := ⟨0x10, 0x20, 0x30, 0x40, 0x50, 0x61⟩

/-- A scan result named "Home" with the weakest representable signal. -/
def bss_home_weakest : sdk_bss_info :=
  { bssid := bssid_a, ssid := name_home, channel := 6, rssi := -128, authmode := 3 }

/-- A scan result named "Home" with an ordinary signal. -/
def bss_home : sdk_bss_info :=
  { bssid := bssid_b, ssid := name_home, channel := 11, rssi := -60, authmode := 3 }

/-- The head element that the radio driver puts in front of the results. -/
def bss_head : sdk_bss_info :=
  { bssid := ⟨0, 0, 0, 0, 0, 0⟩, ssid := [], channel := 0, rssi := 0, authmode := 0 }

/-- A radio in station mode with an empty call log, over the given store. -/
def world_of (store : Store) : World :=
  { store := store
    opmode := OpMode.STATION_MODE
    phy_mode := PhyMode.PHY_MODE_11N
    got_ip := false
    netif_up := true
    softap_macaddr := ⟨0xA0, 0xB1, 0xC2, 0xD3, 0xE4, 0xF5⟩
    calls := [] }

/-- A store that holds the name "Home" and nothing else. -/
def store_home_only : Store :=
  fun k => if k = Key.WIFI_SSID_SYSPARAM then some (Value.str name_home) else none

/-- The calls that were logged between two worlds of one run. -/
def new_calls (before after : World) : List Call :=
  after.calls.drop before.calls.length

/-- Spec side of the escalation: the branch expected on the unconnected poll number `n`
taken in station mode. -/
def branch_at (n : Nat) : poll_branch :=
  if n % 32 = 0 then poll_branch.forced_reconnect
  else if n % 5 = 0 then poll_branch.resend_arp
  else if n > 240 then poll_branch.reboot
  else poll_branch.idle

/-- A store that holds nothing. -/
def store_empty : Store := fun _ => none

/-- A store with name "Home", passphrase "secret123", connection mode normal (0), no
preferred BSSID and the given setup-state. -/
def store_home (setup_mode : Int) : Store :=
  fun k =>
    if k = Key.WIFI_SSID_SYSPARAM then some (Value.str name_home)
    else if k = Key.WIFI_PASSWORD_SYSPARAM then some (Value.str pass_secret123)
    else if k = Key.WIFI_MODE_SYSPARAM then some (Value.int 0)
    else if k = Key.HAA_SETUP_MODE_SYSPARAM then some (Value.int setup_mode)
    else none

/-- The C function `isspace`. -/
def isspace (c : Nat) : Bool := c = 32 ∨ (9 ≤ c ∧ c ≤ 13)

/-- Value of a character as a digit of `strtol`, letters counting from 10. -/
def digit_value (c : Nat) : Option Nat :=
  if 48 ≤ c ∧ c ≤ 57 then some (c - 48)
  else if 97 ≤ c ∧ c ≤ 122 then some (c - 87)
  else if 65 ≤ c ∧ c ≤ 90 then some (c - 55)
  else none

/-- The digits that `strtol` consumes, accumulated from the left. -/
def strtol_digits (base : Nat) : List Nat → Nat → Nat
  | [], acc => acc
  | c :: rest, acc =>
    match digit_value c with
    | some d => if d < base then strtol_digits base rest (acc * base + d) else acc
    | none => acc

/-- The text after an optional "0x" or "0X" that a base-16 `strtol` skips when a
hexadecimal digit follows. -/
def strtol_skip_0x (base : Nat) (s : List Nat) : List Nat :=
  match s with
  | 48 :: x :: d :: rest =>
    if base = 16 ∧ (x = 120 ∨ x = 88) ∧ (digit_value d).any (fun v => decide (v < 16))
    then d :: rest else s
  | _ => s

/-- The C function `strtol(s, NULL, base)` for a 32-bit `long`: white space, an optional
sign, the digits; the result saturates at the ends of the `long` range. -/
def strtol (s : List Nat) (base : Nat) : Int :=
  let s := s.dropWhile isspace
  let neg := decide (s.head? = some 45)
  let s := if s.head? = some 45 ∨ s.head? = some 43 then s.tail else s
  let magnitude := strtol_digits base (strtol_skip_0x base s) 0
  if neg then max (-(magnitude : Int)) (-2147483648) else min (magnitude : Int) 2147483647

/-- Conversion of a wider integer to `int8_t`. -/
def to_int8 (v : Int) : Int := (v + 128) % 256 - 128

/-- The call `sysparam_get_int32(key, &dest)` with `dest` initialised to `dflt`. -/
def sysparam_get_int32 (store : Store) (key : Key) (dflt : Int) : Int :=
  match store key with
  | some (Value.int v) => v
  | _ => dflt

/-- The call `sysparam_set_int32(key, value)`. -/
def sysparam_set_int32 (key : Key) (value : Int) (w : World) : World :=
  sysparam_set key (some (Value.int value)) w

/-- The function `setup_mode_reset_sysparam`: the store area is created anew, empty. -/
def setup_mode_reset_sysparam (w : World) : World :=
  { w with store := fun _ => none, calls := w.calls ++ [Call.setup_mode_reset_sysparam] }

/-- One field of a parsed form (`form_param_t`, without its link); `value` is `none`
when the pointer is NULL. -/
structure form_param_t where
  name : List Nat
  value : Option (List Nat)
  deriving DecidableEq, Repr

/-- Modelled from the spec: `form_params_find` of `form_urlencoded.c`, which is not among
the sources; the form-field lookup by name returns the first field of the parsed form
that carries the name, or NULL. -/
def form_params_find : List form_param_t → List Nat → Option form_param_t
  | [], _ => none
  | param :: rest, name =>
    if strcmp param.name name = 0 then some param else form_params_find rest name

/-- The bytes of the field name "rsy". -/
def str_rsy : List Nat := [114, 115, 121]

/-- The bytes of the field name "now". -/
def str_now : List Nat := [110, 111, 119]

/-- The bytes of the field name "fm". -/
def str_fm : List Nat := [102, 109]

/-- The bytes of the field name "sid". -/
def str_sid : List Nat := [115, 105, 100]

/-- The bytes of the field name "bid". -/
def str_bid : List Nat := [98, 105, 100]

/-- The bytes of the field name "psw". -/
def str_psw : List Nat := [112, 115, 119]

/-- The bytes of the field name "ser". -/
def str_ser : List Nat := [115, 101, 114]

/-- The bytes of the field name "prt". -/
def str_prt : List Nat := [112, 114, 116]

/-- The bytes of the field name "ssl". -/
def str_ssl : List Nat := [115, 115, 108]

/-- The bytes of the field name "cnf". -/
def str_cnf : List Nat := [99, 110, 102]

/-- The bytes of the field name "wm". -/
def str_wm : List Nat := [119, 109]

/-- What the commit step takes from its build and from the flash chip: whether `HAABOOT`
is defined, the constant `HIGH_HOMEKIT_CH_NUMBER`, and byte 2 of flash sector 0 as read
into the allocated copy (`none` when that `malloc` fails). -/
structure update_env where
  HAABOOT : Bool
  HIGH_HOMEKIT_CH_NUMBER : Nat
  sector_byte2 : Option Nat
  deriving DecidableEq, Repr

/-- The identifiers `(serv * 100) + ch` of the saved states that the commit step removes. -/
def saved_state_ids (hk_total_serv : Int) (HIGH_HOMEKIT_CH_NUMBER : Nat) : List Nat :=
  (List.range' 1 hk_total_serv.toNat).flatMap
    (fun serv => (List.range (HIGH_HOMEKIT_CH_NUMBER + 1)).map (fun ch => serv * 100 + ch))

/-- The loop of the commit step that removes the saved states. -/
def remove_saved_states : List Nat → World → World
  | [], w => w
  | id :: rest, w => remove_saved_states rest (sysparam_set_data (Key.saved_state id) none w)

/-- The six bytes that the commit step reads from the twelve hexadecimal characters of
the "bid" field. -/
def parse_bssid (value : List Nat) : List Nat :=
  (List.range 6).map
    (fun i => to_uint8 (strtol [value.getD (i * 2) 0, value.getD (i * 2 + 1) 0] 16))

/-- The branch of `wifi_config_server_on_settings_update_task` taken when the form
carries the field "rsy". -/
def settings_update_reset (w : World) : World :=
  let last_config_number := sysparam_get_int32 w.store Key.LAST_CONFIG_NUMBER_SYSPARAM 0
  let installer_version_string := sysparam_get_string w.store Key.INSTALLER_VERSION_SYSPARAM
  let haamain_version_string := sysparam_get_string w.store Key.HAAMAIN_VERSION_SYSPARAM
  let saved_pairing_count := sysparam_get_int8 w.store Key.HOMEKIT_PAIRING_COUNT_SYSPARAM (-1)
  let w := setup_mode_reset_sysparam w
  let w := if last_config_number > 0
    then sysparam_set_int32 Key.LAST_CONFIG_NUMBER_SYSPARAM last_config_number w else w
  let w := match installer_version_string with
    | some v => sysparam_set_string Key.INSTALLER_VERSION_SYSPARAM v w
    | none => w
  let w := match haamain_version_string with
    | some v => sysparam_set_string Key.HAAMAIN_VERSION_SYSPARAM v w
    | none => w
  if saved_pairing_count > -1
  then sysparam_set_int8 Key.HOMEKIT_PAIRING_COUNT_SYSPARAM saved_pairing_count w else w

/-- The statements of `wifi_config_server_on_settings_update_task` that store the network
name, the preferred BSSID and the passphrase. The read of `password_param->value` through
a NULL `password_param` is reported as a fault. -/
def settings_update_wifi (form : List form_param_t) (w : World) : Except Fault World :=
  let ssid_param := form_params_find form str_sid
  let bssid_param := form_params_find form str_bid
  let password_param := form_params_find form str_psw
  match ssid_param with
  | none => Except.ok w
  | some ssid_param =>
    match ssid_param.value with
    | none => Except.ok w
    | some ssid_value =>
      let w := sysparam_set_string Key.WIFI_SSID_SYSPARAM ssid_value w
      let w :=
        match bssid_param with
        | none => sysparam_set_data Key.WIFI_BSSID_SYSPARAM none w
        | some bssid_param =>
          match bssid_param.value with
          | none => sysparam_set_data Key.WIFI_BSSID_SYSPARAM none w
          | some bssid_value =>
            if strlen bssid_value = 12
            then sysparam_set_data Key.WIFI_BSSID_SYSPARAM (some (parse_bssid bssid_value)) w
            else sysparam_set_data Key.WIFI_BSSID_SYSPARAM none w
      match password_param with
      | none => Except.error Fault.null_pointer
      | some password_param =>
        match password_param.value with
        | some password_value =>
          Except.ok (sysparam_set_string Key.WIFI_PASSWORD_SYSPARAM password_value w)
        | none => Except.ok (sysparam_set_string Key.WIFI_PASSWORD_SYSPARAM [] w)

/-- The statements of `wifi_config_server_on_settings_update_task` that rewrite the flash
mode byte for the field "fm". -/
def settings_update_flash_mode (env : update_env) (form : List form_param_t) (w : World) :
    World :=
  match form_params_find form str_fm with
  | none => w
  | some fm_param =>
    match fm_param.value with
    | none => w
    | some fm_value =>
      let new_fm := to_int8 (strtol fm_value 10)
      if 0 ≤ new_fm ∧ new_fm ≤ 3 then
        match env.sector_byte2 with
        | none => w
        | some byte2 =>
          if (byte2 : Int) ≠ new_fm then
            (w.log (Call.spiflash_erase_sector 0)).log (Call.spiflash_write 0 new_fm.toNat)
          else w
      else w

/-- The statements of `wifi_config_server_on_settings_update_task` that a `HAABOOT` build
runs first: the saved states are removed and the script is stored or removed. -/
def settings_update_script (env : update_env) (form : List form_param_t) (w : World) : World :=
  let hk_total_serv := sysparam_get_int32 w.store Key.TOTAL_SERV_SYSPARAM 0
  let w := remove_saved_states (saved_state_ids hk_total_serv env.HIGH_HOMEKIT_CH_NUMBER) w
  match form_params_find form str_cnf with
  | none => sysparam_set_data Key.HAA_SCRIPT_SYSPARAM none w
  | some conf_param =>
    match conf_param.value with
    | none => sysparam_set_data Key.HAA_SCRIPT_SYSPARAM none w
    | some conf_value => sysparam_set_string Key.HAA_SCRIPT_SYSPARAM conf_value w

/-- The statements of `wifi_config_server_on_settings_update_task` between the write of the
setup-state and the network name: the fields "now", "ser", "prt" and "ssl". -/
def settings_update_repo (form : List form_param_t) (w : World) : World :=
  let w :=
    match form_params_find form str_now with
    | none => w
    | some _ =>
      let w := sysparam_set_data Key.WIFI_SSID_SYSPARAM none w
      let w := sysparam_set_data Key.WIFI_PASSWORD_SYSPARAM none w
      let w := sysparam_set_data Key.WIFI_BSSID_SYSPARAM none w
      let w := sysparam_set_data Key.WIFI_MODE_SYSPARAM none w
      sysparam_set_data Key.WIFI_LAST_WORKING_PHY_SYSPARAM none w
  let w :=
    match form_params_find form str_ser with
    | none => sysparam_set_data Key.CUSTOM_REPO_SYSPARAM none w
    | some reposerver_param =>
      match reposerver_param.value with
      | none => sysparam_set_data Key.CUSTOM_REPO_SYSPARAM none w
      | some v => sysparam_set_string Key.CUSTOM_REPO_SYSPARAM v w
  let w :=
    match form_params_find form str_prt with
    | none => sysparam_set_int32 Key.PORT_NUMBER_SYSPARAM 80 w
    | some repoport_param =>
      match repoport_param.value with
      | none => sysparam_set_int32 Key.PORT_NUMBER_SYSPARAM 80 w
      | some v => sysparam_set_int32 Key.PORT_NUMBER_SYSPARAM (strtol v 10) w
  match form_params_find form str_ssl with
  | some _ => sysparam_set_int8 Key.PORT_SECURE_SYSPARAM 1 w
  | none => sysparam_set_int8 Key.PORT_SECURE_SYSPARAM 0 w

/-- The statements of `wifi_config_server_on_settings_update_task` that a `HAABOOT` build
runs for the field "wm". -/
def settings_update_wifi_mode (form : List form_param_t) (w : World) : World :=
  match form_params_find form str_wm with
  | none => w
  | some wifimode_param =>
    match wifimode_param.value with
    | none => w
    | some v => sysparam_set_int8 Key.WIFI_MODE_SYSPARAM (to_int8 (strtol v 10)) w

/-- The end of `wifi_config_server_on_settings_update_task`: the temporary boot image is
selected unless `HAABOOT` is defined, and the device restarts. -/
def settings_update_reboot (env : update_env) (w : World) : World :=
  let w := if env.HAABOOT then w else w.log (Call.rboot_set_temp_rom 1)
  w.log Call.sdk_system_restart

/-- The function `wifi_config_server_on_settings_update_task`, from the point where the
HTTP task has cleared `end_setup`; `form` is what `form_params_parse` returns for the
request body, the empty list standing for NULL. -/
def wifi_config_server_on_settings_update_task (env : update_env) (form : List form_param_t)
    (w : World) : Except Fault World :=
  let w := w.log Call.sdk_wifi_station_disconnect
  let w := w.log Call.wifi_config_context_free
  let w := w.log Call.free_body
  match form with
  | [] => Except.ok (settings_update_reboot env w)
  | _ :: _ =>
    match form_params_find form str_rsy with
    | some _ => Except.ok (settings_update_reboot env (settings_update_reset w))
    | none =>
      let w := if env.HAABOOT then settings_update_script env form w else w
      let w := sysparam_set_int8 Key.HAA_SETUP_MODE_SYSPARAM 0 w
      let w := settings_update_repo form w
      match settings_update_wifi form w with
      | Except.error e => Except.error e
      | Except.ok w =>
        let w := settings_update_flash_mode env form w
        let w := if env.HAABOOT then settings_update_wifi_mode form w else w
        let w := wifi_config_reset w
        Except.ok (settings_update_reboot env w)

/-- The bytes of the name "Cafe". -/
def name_cafe : List Nat := [67, 97, 102, 101]

/-- The parsed form of the body "sid=Cafe&psw=": the passphrase field is present and
empty, so its value pointer is NULL. -/
def form_cafe : List form_param_t :=
  [{ name := str_psw, value := none }, { name := str_sid, value := some name_cafe }]

/-- The parsed form of the body "sid=Cafe": no passphrase field at all. -/
def form_cafe_no_psw : List form_param_t :=
  [{ name := str_sid, value := some name_cafe }]

/-- The parsed form of the body "rsy=1". -/
def form_reset : List form_param_t :=
  [{ name := str_rsy, value := some [49] }]

/-- A build without `HAABOOT`, flash mode byte 0. -/
def env_installer : update_env :=
  { HAABOOT := false, HIGH_HOMEKIT_CH_NUMBER := 4, sector_byte2 := some 0 }

/-- A store that holds only a pairing counter. -/
def store_pairing (count : Int) : Store :=
  fun k => if k = Key.HOMEKIT_PAIRING_COUNT_SYSPARAM then some (Value.int count) else none

/-- The log of `w1` continues the log of `w`: a run from `w` to `w1` only appended calls. -/
def log_extends (w w1 : World) : Prop := ∃ l, w1.calls = w.calls ++ l

/-- A fresh session of the portal whose request line carried the given method. -/
def client_of (method : http_method) : client_t :=
  { fd := 3
    method := method
    endpoint := endpoint_t.ENDPOINT_UNKNOWN
    body := some (List.replicate 8 0)
    body_length := 0 }

/-- The context as `wifi_config_init` leaves it for the name "HAA" and the OTA task. -/
def context_init : wifi_config_context_t :=
  wifi_config_init [72, 65, 65] (some Task.ota_task)

/-- The context of a setup session whose auto-reboot timer exists. -/
def context_with_timer : wifi_config_context_t :=
  { context_init with auto_reboot_timer := some { period := TimerPeriod.AUTO_REBOOT_TIMEOUT } }

/-- The bytes of the URL "/x". -/
def url_x : List Nat := [47, 120]

/-- A station whose radio runs in the mode 11B, over a store with the name "Home". -/
def world_11b : World :=
  { world_of store_home_only with phy_mode := PhyMode.PHY_MODE_11B }

/-- A name of 26 bytes, the longest that `wifi_config_init` retains. -/
def pfx_26 : List Nat := List.replicate 26 65

/-- A scan result named "Home" at signal -100 on channel 6. -/
def bss_home_minus_100 : sdk_bss_info :=
  { bssid := bssid_a, ssid := name_home, channel := 6, rssi := -100, authmode := 3 }

/-! ## Advanced PWM driver (`libs/adv_pwm/adv_pwm.c`) -/

/-- The constant `UINT16_MAX`. -/
def UINT16_MAX : Nat := 65535

/-- Conversion of an `int` value to `uint16_t`. -/
def to_uint16 (v : Int) : Nat := (v % 65536).toNat

/-- An `int` result, wrapped to 32 bits. -/
def to_int32 (v : Int) : Int := (v + 2147483648) % 4294967296 - 2147483648

/-- One PWM channel (`adv_pwm_channel_t`, without its link): the eight per-cycle duty
slots, the dithering, the pin and the two flags. -/
structure adv_pwm_channel_t where
  duty : List Nat
  dithering : Nat
  gpio : Nat
  inverted : Bool
  leading : Bool
  deriving DecidableEq, Repr

/-- The driver state (`adv_pwm_config_t`). -/
structure adv_pwm_config_t where
  current_duty : Nat
  cycle : Nat
  is_running : Bool
  zc_status : Nat
  max_load : Nat
  adv_pwm_channels : List adv_pwm_channel_t
  deriving DecidableEq, Repr

/-- The loop of `adv_pwm_channel_find_by_gpio` over the channel list. -/
def find_by_gpio : List adv_pwm_channel_t → Nat → Option adv_pwm_channel_t
  | [], _ => none
  | adv_pwm_channel :: rest, gpio =>
    if adv_pwm_channel.gpio ≠ gpio then find_by_gpio rest gpio else some adv_pwm_channel

/-- The function `adv_pwm_channel_find_by_gpio`; `adv_pwm_config` is `none` when NULL. -/
def adv_pwm_channel_find_by_gpio (adv_pwm_config : Option adv_pwm_config_t) (gpio : Nat) :
    Option adv_pwm_channel_t :=
  match adv_pwm_config with
  | none => none
  | some config => find_by_gpio config.adv_pwm_channels gpio

/-- The body of `adv_pwm_set_duty` on the channel found: the eight slots are filled. -/
def adv_pwm_set_duty_channel (adv_pwm_channel : adv_pwm_channel_t) (duty : Nat) :
    adv_pwm_channel_t :=
  let duty := if adv_pwm_channel.leading then to_uint16 ((UINT16_MAX : Int) - duty) else duty
  let _dithering := adv_pwm_channel.dithering
  if _dithering = 0 ∨ duty = 0 ∨ duty = UINT16_MAX then
    { adv_pwm_channel with duty := List.replicate 8 duty }
  else
    let _dithering :=
      if (duty : Int) ≥ (UINT16_MAX : Int) - _dithering then
        to_uint16 ((UINT16_MAX : Int) - duty)
      else if duty ≤ _dithering then 0
      else to_uint16 (Int.tdiv (to_int32 ((_dithering : Int) * duty)) UINT16_MAX)
    let duty_0 := to_uint16 ((duty : Int) + _dithering)
    let duty_1 := to_uint16 ((duty : Int) + (_dithering / 2 : Nat))
    let duty_2 := duty
    let duty_3 := to_uint16 ((duty : Int) - (_dithering / 2 : Nat))
    let duty_4 := to_uint16 ((duty : Int) - _dithering)
    { adv_pwm_channel with
      duty := [duty_0, duty_1, duty_2, duty_3, duty_4, duty_3, duty_2, duty_1] }

/-- The channel list after `adv_pwm_set_duty` changed the channel found for the pin. -/
def channels_set_duty : List adv_pwm_channel_t → Nat → Nat → List adv_pwm_channel_t
  | [], _, _ => []
  | adv_pwm_channel :: rest, gpio, duty =>
    if adv_pwm_channel.gpio ≠ gpio then adv_pwm_channel :: channels_set_duty rest gpio duty
    else adv_pwm_set_duty_channel adv_pwm_channel duty :: rest

/-- The function `adv_pwm_set_duty`; `duty` is the `uint16_t` argument. -/
def adv_pwm_set_duty (adv_pwm_config : Option adv_pwm_config_t) (gpio : Nat) (duty : Nat) :
    Option adv_pwm_config_t :=
  match adv_pwm_config with
  | none => none
  | some config =>
    some { config with
      adv_pwm_channels := channels_set_duty config.adv_pwm_channels gpio duty }

/-- A channel on pin 5 with the given dithering, as `adv_pwm_new_channel` creates it. -/
def channel_pin5 (dithering : Nat) : adv_pwm_channel_t :=
  { duty := List.replicate 8 0, dithering := dithering, gpio := 5, inverted := false,
    leading := false }

/-- A driver state with the single channel `channel_pin5 dithering`. -/
def config_pin5 (dithering : Nat) : adv_pwm_config_t :=
  { current_duty := 0, cycle := 0, is_running := false, zc_status := 0, max_load := 0,
    adv_pwm_channels := [channel_pin5 dithering] }

/-! ## Further concrete inputs -/

/-- An open network named "Cafe" on channel 1 at signal -70. -/
def bss_cafe_open : sdk_bss_info :=
  { bssid := bssid_a, ssid := [67, 97, 102, 101], channel := 1, rssi := -70, authmode := 0 }

/-- A later result with the hardware address of `bss_home` and other data. -/
def bss_home_again : sdk_bss_info :=
  { bssid := bssid_b, ssid := [88], channel := 3, rssi := -40, authmode := 0 }

/-- The calls that `wifi_config_connect` makes, by kind. -/
def is_connect_call : Call → Bool
  | Call.sysparam_set _ _ => true
  | Call.sdk_wifi_station_disconnect => true
  | Call.sdk_wifi_station_set_config _ => true
  | Call.sdk_wifi_station_set_auto_connect _ => true
  | Call.sdk_wifi_station_connect => true
  | Call.sdk_wifi_set_opmode _ => true
  | Call.sdk_wifi_set_phy_mode _ => true
  | Call.xTaskCreate Task.wifi_scan_sc_task => true
  | _ => false

/-- The log of `w1` continues the log of `w` with calls that all satisfy `p`. -/
def log_within (p : Call → Bool) (w w1 : World) : Prop :=
  ∃ l, w1.calls = w.calls ++ l ∧ ∀ c ∈ l, p c = true

/-- The world after `n` passes of the supervisor loop from a poll counter of 0. -/
def world_after (INSTALLER_VERSION : List Nat) (task_ok : Bool) (status : Nat → Bool)
    (context : wifi_config_context_t) (w : World) (n : Nat) : World :=
  (wifi_config_sta_connect_timeout_task INSTALLER_VERSION task_ok status n 0 context w).2.2

/-! ## Shared lemmas -/

theorem strcmp_fuel_eq_zero_iff (a : List Nat) :
    ∀ (b : List Nat) (fuel : Nat), a.length < fuel → 0 ∉ a → 0 ∉ b →
      (strcmp_fuel fuel a b = 0 ↔ a = b) := by
  induction a with
  | nil =>
    intro b fuel hf _ hb
    cases fuel with
    | zero => omega
    | succ f =>
      cases b with
      | nil => simp [strcmp_fuel, peek]
      | cons c rest =>
        have hc : c ≠ 0 := fun h => hb (by simp [h])
        have hc2 : ¬ (0 = c) := fun h => hc h.symm
        simp [strcmp_fuel, peek, hc, hc2]
  | cons x rest ih =>
    intro b fuel hf ha hb
    have hx : x ≠ 0 := fun h => ha (by simp [h])
    cases fuel with
    | zero => omega
    | succ f =>
      cases b with
      | nil => simp [strcmp_fuel, peek, hx]
      | cons y rest2 =>
        by_cases hxy : x = y
        · subst hxy
          have := ih rest2 f (by simpa using hf) (fun h => ha (by simp [h]))
            (fun h => hb (by simp [h]))
          simp [strcmp_fuel, peek, hx, this]
        · simp only [strcmp_fuel, peek, List.headD_cons, ne_eq, hxy, not_false_eq_true,
            if_true, List.cons.injEq, false_and, iff_false]
          omega

/-- For names without a zero byte, `strcmp` returns 0 exactly on equal names. -/
theorem strcmp_eq_zero_iff (a b : List Nat) (ha : 0 ∉ a) (hb : 0 ∉ b) :
    strcmp a b = 0 ↔ a = b :=
  strcmp_fuel_eq_zero_iff a b (a.length + 1) (by omega) ha hb

theorem memcmp_bytes_eq_zero_iff (a b : Bssid) : memcmp a.bytes b.bytes 6 = 0 ↔ a = b := by
  cases a; cases b
  simp only [Bssid.bytes, memcmp, peek, List.headD_cons, List.tail_cons, Bssid.mk.injEq]
  split_ifs <;> simp_all <;> omega

theorem find_net_eq_none_iff (nets : List wifi_network_info_t) (b : Bssid) :
    find_net nets b = none ↔ b ∉ nets.map (fun n => n.bssid) := by
  induction nets with
  | nil => simp [find_net]
  | cons net rest ih =>
    simp only [find_net, memcmp_bytes_eq_zero_iff, List.map_cons, List.mem_cons, not_or]
    by_cases h : net.bssid = b
    · simp [h]
    · simp [h, ih, Ne.symm h]

theorem find_net_isSome_iff (nets : List wifi_network_info_t) (b : Bssid) :
    (find_net nets b).isSome ↔ b ∈ nets.map (fun n => n.bssid) := by
  rw [← not_iff_not, ← find_net_eq_none_iff]
  cases find_net nets b <;> simp

theorem scan_loop_eq (results : List sdk_bss_info) (nets : List wifi_network_info_t) :
    scan_loop results nets =
      ((first_occurrences_from (nets.map (fun n => n.bssid)) results).reverse.map new_net)
        ++ nets := by
  induction results generalizing nets with
  | nil => simp [scan_loop, first_occurrences_from]
  | cons bss rest ih =>
    simp only [scan_loop, first_occurrences_from]
    by_cases h : bss.bssid ∈ nets.map (fun n => n.bssid)
    · have h1 := (find_net_isSome_iff nets bss.bssid).2 h
      cases hf : find_net nets bss.bssid with
      | none => simp [hf] at h1
      | some n => simp only [if_pos h]; exact ih nets
    · have h1 := (find_net_eq_none_iff nets bss.bssid).2 h
      simp only [h1, if_neg h]
      rw [ih]
      simp [new_net]

theorem mem_first_occurrences_from (seen : List Bssid) (results : List sdk_bss_info)
    (b : Bssid) :
    b ∈ (first_occurrences_from seen results).map (fun r => r.bssid) ↔
      b ∈ results.map (fun r => r.bssid) ∧ b ∉ seen := by
  induction results generalizing seen with
  | nil => simp [first_occurrences_from]
  | cons bss rest ih =>
    simp only [first_occurrences_from]
    by_cases h : bss.bssid ∈ seen
    · simp only [if_pos h, ih, List.map_cons, List.mem_cons]
      constructor
      · rintro ⟨h1, h2⟩; exact ⟨Or.inr h1, h2⟩
      · rintro ⟨h1 | h1, h2⟩
        · exact absurd (h1 ▸ h) h2
        · exact ⟨h1, h2⟩
    · simp only [if_neg h, ih, List.map_cons, List.mem_cons, not_or]
      constructor
      · rintro (h1 | ⟨h1, h2, h3⟩)
        · exact ⟨Or.inl h1, h1 ▸ h⟩
        · exact ⟨Or.inr h1, h3⟩
      · rintro ⟨h1 | h1, h2⟩
        · exact Or.inl h1
        · by_cases hb : b = bss.bssid
          · exact Or.inl hb
          · exact Or.inr ⟨h1, hb, h2⟩

theorem nodup_first_occurrences_from (seen : List Bssid) (results : List sdk_bss_info) :
    ((first_occurrences_from seen results).map (fun r => r.bssid)).Nodup := by
  induction results generalizing seen with
  | nil => simp [first_occurrences_from]
  | cons bss rest ih =>
    simp only [first_occurrences_from]
    by_cases h : bss.bssid ∈ seen
    · simp only [if_pos h]; exact ih seen
    · simp only [if_neg h, List.map_cons, List.nodup_cons]
      refine ⟨?_, ih _⟩
      rw [mem_first_occurrences_from]
      simp

theorem first_occurrences_from_cons_mem (seen : List Bssid) (bss : sdk_bss_info)
    (rest : List sdk_bss_info) (h : bss.bssid ∈ seen) :
    first_occurrences_from seen (bss :: rest) = first_occurrences_from seen rest := by
  simp [first_occurrences_from, h]

theorem first_occurrences_from_cons_not_mem (seen : List Bssid) (bss : sdk_bss_info)
    (rest : List sdk_bss_info) (h : bss.bssid ∉ seen) :
    first_occurrences_from seen (bss :: rest) =
      bss :: first_occurrences_from (bss.bssid :: seen) rest := by
  simp [first_occurrences_from, h]

theorem first_occurrences_from_append (seen : List Bssid) (pre : List sdk_bss_info)
    (x : sdk_bss_info) :
    first_occurrences_from seen (pre ++ [x]) =
      if x.bssid ∈ seen ∨ x.bssid ∈ pre.map (fun r => r.bssid)
      then first_occurrences_from seen pre
      else first_occurrences_from seen pre ++ [x] := by
  induction pre generalizing seen with
  | nil => by_cases h : x.bssid ∈ seen <;> simp [first_occurrences_from, h]
  | cons bss rest ih =>
    rw [List.cons_append]
    by_cases h : bss.bssid ∈ seen
    · rw [first_occurrences_from_cons_mem _ _ _ h, first_occurrences_from_cons_mem _ _ _ h, ih]
      by_cases h2 : x.bssid ∈ seen ∨ x.bssid ∈ rest.map (fun r => r.bssid)
      · have h3 : x.bssid ∈ seen ∨ x.bssid ∈ (bss :: rest).map (fun r => r.bssid) := by
          rw [List.map_cons, List.mem_cons]; tauto
        rw [if_pos h2, if_pos h3]
      · by_cases hx : x.bssid = bss.bssid
        · exact absurd (Or.inl (hx ▸ h)) h2
        · have h3 : ¬ (x.bssid ∈ seen ∨ x.bssid ∈ (bss :: rest).map (fun r => r.bssid)) := by
            rw [List.map_cons, List.mem_cons]; tauto
          rw [if_neg h2, if_neg h3]
    · rw [first_occurrences_from_cons_not_mem _ _ _ h,
        first_occurrences_from_cons_not_mem _ _ _ h, ih]
      by_cases h2 : x.bssid ∈ bss.bssid :: seen ∨ x.bssid ∈ rest.map (fun r => r.bssid)
      · have h3 : x.bssid ∈ seen ∨ x.bssid ∈ (bss :: rest).map (fun r => r.bssid) := by
          rw [List.map_cons, List.mem_cons]; rw [List.mem_cons] at h2; tauto
        rw [if_pos h2, if_pos h3]
      · have h3 : ¬ (x.bssid ∈ seen ∨ x.bssid ∈ (bss :: rest).map (fun r => r.bssid)) := by
          rw [List.map_cons, List.mem_cons]; rw [List.mem_cons] at h2; tauto
        rw [if_neg h2, if_neg h3, List.cons_append]

theorem sc_loop_append (wifi_ssid : List Nat) (margin : Int) (pre : List sdk_bss_info)
    (x : sdk_bss_info) (st : sc_state) :
    sc_loop wifi_ssid margin (pre ++ [x]) st =
      sc_step wifi_ssid margin (sc_loop wifi_ssid margin pre st) x := by
  induction pre generalizing st with
  | nil => simp [sc_loop]
  | cons bss rest ih => simp [sc_loop, ih]

/-! ## Scan engine: deduplication -/

/-- C1: after `wifi_scan_done_cb` ran with status `SCAN_OK`, whatever the scan list and
the prior network list, the stored list holds exactly one entry for every hardware
address that occurs among the results after the skipped head, and none for any other. -/
theorem C1_scan_done_one_entry_per_bssid (arg : scan_list) (ctx : wifi_config_context_t) :
    ∃ ctx1, wifi_scan_done_cb arg sdk_scan_status_t.SCAN_OK (some ctx) = some ctx1 ∧
      ∀ b : Bssid, (ctx1.wifi_networks.map (fun n => n.bssid)).count b =
        if b ∈ arg.next.map (fun r => r.bssid) then 1 else 0 := by
  refine ⟨_, rfl, ?_⟩
  intro b
  have hmap : ((scan_loop arg.next []).map (fun n => n.bssid)) =
      ((first_occurrences_from [] arg.next).map (fun r => r.bssid)).reverse := by
    rw [scan_loop_eq]
    simp [List.map_reverse, Function.comp_def, new_net]
  simp only [wifi_networks_free]
  rw [hmap, List.count_reverse]
  have hnd := nodup_first_occurrences_from [] arg.next
  have hmem := mem_first_occurrences_from [] arg.next b
  by_cases h : b ∈ arg.next.map (fun r => r.bssid)
  · rw [if_pos h]
    exact List.count_eq_one_of_mem hnd (hmem.2 ⟨h, by simp⟩)
  · rw [if_neg h]
    exact List.count_eq_zero_of_not_mem (fun hc => h (hmem.1 hc).1)

theorem take_strlen_eq_takeWhile (s : List Nat) :
    s.take (strlen s) = s.takeWhile (fun c => decide (c ≠ 0)) := by
  induction s with
  | nil => simp [strlen]
  | cons c rest ih =>
    unfold strlen
    by_cases h : c = 0
    · simp [h]
    · simp [h, ih]

theorem strlen_eq_length_takeWhile (s : List Nat) :
    strlen s = (s.takeWhile (fun c => decide (c ≠ 0))).length := by
  induction s with
  | nil => simp [strlen]
  | cons c rest ih =>
    unfold strlen
    by_cases h : c = 0
    · simp [h]
    · simp [h, ih]

theorem strncpy_eq_takeWhile (s : List Nat) (n : Nat) :
    strncpy s n = (s.takeWhile (fun c => decide (c ≠ 0))).take n
      ++ List.replicate (n - (s.takeWhile (fun c => decide (c ≠ 0))).length) 0 := by
  unfold strncpy
  rw [take_strlen_eq_takeWhile, strlen_eq_length_takeWhile]
  congr 2
  omega

/-- C2: the list built by a successful scan pass does not depend on the prior list; its
entries correspond one to one, in reverse scan order, to the first occurrences of the
hardware addresses among the results, and each entry holds the address, the name (cut
to 33 bytes, zero padded), the signal and channel texts and the security flag of that
first occurrence; in the walk a result whose address is already listed leaves the list
untouched while a new address is prepended. -/
theorem C2_scan_done_first_occurrences_reversed (arg : scan_list)
    (ctx : wifi_config_context_t) (prior : List wifi_network_info_t) :
    (∃ nets : List wifi_network_info_t,
      wifi_scan_done_cb arg sdk_scan_status_t.SCAN_OK (some { ctx with wifi_networks := prior })
        = some { ctx with wifi_networks := nets } ∧
      nets = (first_occurrences arg.next).reverse.map new_net ∧
      List.Forall₂
        (fun (net : wifi_network_info_t) (bss : sdk_bss_info) =>
          net.bssid = bss.bssid ∧
          net.ssid = (bss.ssid.takeWhile (fun c => decide (c ≠ 0))).take 33
            ++ List.replicate (33 - (bss.ssid.takeWhile (fun c => decide (c ≠ 0))).length) 0 ∧
          net.rssi =
            ((if bss.rssi < 0 then 45 :: (Nat.toDigits 10 bss.rssi.natAbs).map Char.toNat
              else (Nat.toDigits 10 bss.rssi.toNat).map Char.toNat)
              ++ List.replicate 4 0).take 4 ∧
          net.channel =
            ((Nat.toDigits 10 bss.channel).map Char.toNat ++ List.replicate 3 0).take 3 ∧
          (net.secure = true ↔ bss.authmode ≠ 0))
        nets (first_occurrences arg.next).reverse) ∧
      (∀ (bss : sdk_bss_info) (rest : List sdk_bss_info) (nets : List wifi_network_info_t),
        scan_loop (bss :: rest) nets =
          scan_loop rest
            (if bss.bssid ∈ nets.map (fun n => n.bssid) then nets else new_net bss :: nets)) ∧
      first_occurrences [] = [] ∧
      (∀ (pre : List sdk_bss_info) (x : sdk_bss_info),
        first_occurrences (pre ++ [x]) =
          if x.bssid ∈ pre.map (fun r => r.bssid) then first_occurrences pre
          else first_occurrences pre ++ [x]) ∧
      wifi_scan_done_cb { head := bss_head, next := [bss_home, bss_cafe_open, bss_home_again] }
          sdk_scan_status_t.SCAN_OK (some { ctx with wifi_networks := prior })
        = some { ctx with wifi_networks :=
            [{ ssid := [67, 97, 102, 101] ++ List.replicate 29 0
               bssid := bssid_a
               rssi := [45, 55, 48, 0]
               channel := [49, 0, 0]
               secure := false },
             { ssid := [72, 111, 109, 101] ++ List.replicate 29 0
               bssid := bssid_b
               rssi := [45, 54, 48, 0]
               channel := [49, 49, 0]
               secure := true }] } := by
  refine ⟨⟨_, ?_, rfl, ?_⟩, ?_, rfl, ?_, ?_⟩
  · simp [wifi_scan_done_cb, wifi_networks_free, scan_loop_eq, first_occurrences]
  · rw [List.forall₂_map_left_iff, List.forall₂_same]
    intro bss _
    refine ⟨rfl, ?_, ?_, ?_, ?_⟩
    · simp only [new_net]; exact strncpy_eq_takeWhile bss.ssid 33
    · simp only [new_net, field, itoa, utoa]
    · have hc : ¬ ((bss.channel : Int) < 0) := by omega
      simp [new_net, field, itoa, utoa, hc]
    · simp [new_net, AUTH_OPEN]
  · intro bss rest nets
    by_cases h : bss.bssid ∈ nets.map (fun n => n.bssid)
    · have h1 := (find_net_isSome_iff nets bss.bssid).2 h
      cases hf : find_net nets bss.bssid with
      | none => simp [hf] at h1
      | some n => simp only [scan_loop, hf, if_pos h]
    · have h1 := (find_net_eq_none_iff nets bss.bssid).2 h
      simp only [scan_loop, h1, if_neg h]
  · intro pre x
    simp [first_occurrences, first_occurrences_from_append]
  · simp only [wifi_scan_done_cb, wifi_networks_free, ne_eq, not_true, if_false]
    have : scan_loop [bss_home, bss_cafe_open, bss_home_again] [] =
        [{ ssid := [67, 97, 102, 101] ++ List.replicate 29 0
           bssid := bssid_a
           rssi := [45, 55, 48, 0]
           channel := [49, 0, 0]
           secure := false },
         { ssid := [72, 111, 109, 101] ++ List.replicate 29 0
           bssid := bssid_b
           rssi := [45, 54, 48, 0]
           channel := [49, 49, 0]
           secure := true }] := by decide
    simp only [this]

/-! ## Smart-Connect selection -/

/-- C3: in the walk of `wifi_scan_sc_done` the best starts at -128; a result whose name
matches the configured name replaces the current best when its signal is strictly
greater than the current best plus the margin (integer sum, no 8-bit wraparound), and
otherwise, like every result whose name does not match, leaves the best unchanged. -/
theorem C3_best_replaced_iff_above_margin (wifi_ssid : List Nat) (BEST_RSSI_MARGIN : Int)
    (pre : List sdk_bss_info) (x : sdk_bss_info) :
    (sc_loop wifi_ssid BEST_RSSI_MARGIN [] sc_init).best_rssi = -128 ∧
      ((strcmp wifi_ssid x.ssid = 0 ∧
          x.rssi > (sc_loop wifi_ssid BEST_RSSI_MARGIN pre sc_init).best_rssi + BEST_RSSI_MARGIN) →
        sc_loop wifi_ssid BEST_RSSI_MARGIN (pre ++ [x]) sc_init =
          { best_rssi := x.rssi, best_bssid := some x.bssid, found := true }) ∧
      (¬ (strcmp wifi_ssid x.ssid = 0 ∧
          x.rssi > (sc_loop wifi_ssid BEST_RSSI_MARGIN pre sc_init).best_rssi + BEST_RSSI_MARGIN) →
        sc_loop wifi_ssid BEST_RSSI_MARGIN (pre ++ [x]) sc_init =
          sc_loop wifi_ssid BEST_RSSI_MARGIN pre sc_init) := by
  refine ⟨rfl, ?_, ?_⟩
  · rintro ⟨h1, h2⟩
    rw [sc_loop_append]
    simp [sc_step, h1, h2]
  · intro h
    rw [sc_loop_append]
    unfold sc_step
    by_cases h1 : strcmp wifi_ssid x.ssid = 0
    · have h2 : ¬ x.rssi > (sc_loop wifi_ssid BEST_RSSI_MARGIN pre sc_init).best_rssi
          + BEST_RSSI_MARGIN := fun hc => h ⟨h1, hc⟩
      simp [h1, h2]
    · simp [h1]

theorem sc_loop_inv (wifi_ssid : List Nat) (margin : Int) (h0 : 0 ≤ margin)
    (l : List sdk_bss_info) :
    ((sc_loop wifi_ssid margin l sc_init).found = false ∧
        (sc_loop wifi_ssid margin l sc_init).best_rssi = INT8_MIN ∧
        (sc_loop wifi_ssid margin l sc_init).best_bssid = none ∧
        ∀ bss ∈ l, strcmp wifi_ssid bss.ssid = 0 → bss.rssi ≤ INT8_MIN + margin) ∨
      ((sc_loop wifi_ssid margin l sc_init).found = true ∧
        (sc_loop wifi_ssid margin l sc_init).best_rssi > INT8_MIN + margin ∧
        ∃ bss ∈ l, strcmp wifi_ssid bss.ssid = 0 ∧
          (sc_loop wifi_ssid margin l sc_init).best_bssid = some bss.bssid ∧
          (sc_loop wifi_ssid margin l sc_init).best_rssi = bss.rssi) := by
  induction l using List.reverseRecOn with
  | nil => left; simp [sc_loop, sc_init]
  | append_singleton pre x ih =>
    rw [sc_loop_append]
    generalize sc_loop wifi_ssid margin pre sc_init = st at ih
    unfold sc_step
    by_cases h1 : strcmp wifi_ssid x.ssid = 0
    · by_cases h2 : x.rssi > st.best_rssi + margin
      · simp only [h1, h2, if_true]
        right
        refine ⟨by simp, ?_, x, by simp, h1, by simp, by simp⟩
        rcases ih with ⟨_, hb, _, _⟩ | ⟨_, hb, _⟩
        · show x.rssi > INT8_MIN + margin
          omega
        · show x.rssi > INT8_MIN + margin
          omega
      · simp only [h1, h2, if_true, if_false]
        rcases ih with ⟨hf, hb, hn, hall⟩ | ⟨hf, hb, bss, hmem, hrest⟩
        · left
          refine ⟨hf, hb, hn, ?_⟩
          intro bss hmem hm
          rcases List.mem_append.1 hmem with hm1 | hm1
          · exact hall bss hm1 hm
          · have : bss = x := by simpa using hm1
            subst this; omega
        · right
          exact ⟨hf, hb, bss, List.mem_append_left _ hmem, hrest⟩
    · simp only [h1, if_false]
      rcases ih with ⟨hf, hb, hn, hall⟩ | ⟨hf, hb, bss, hmem, hrest⟩
      · left
        refine ⟨hf, hb, hn, ?_⟩
        intro bss hmem hm
        rcases List.mem_append.1 hmem with hm1 | hm1
        · exact hall bss hm1 hm
        · have : bss = x := by simpa using hm1
          subst this; exact absurd hm h1
      · right
        exact ⟨hf, hb, bss, List.mem_append_left _ hmem, hrest⟩

theorem sc_finish_no_best (st : sc_state) (task_ok : Bool) (w : World) :
    (sc_finish st task_ok w).1 = sc_exit.no_best ↔ st.best_rssi = INT8_MIN := by
  unfold sc_finish
  by_cases h : st.best_rssi = INT8_MIN
  · simp [h]
  · simp only [h, if_false, iff_false]
    rcases st with ⟨r, b, f⟩
    cases f <;> cases b <;> simp
    split_ifs <;> simp

/-- C4 (as stated, refuted): a scan list whose only result carries the configured name
"Home" at signal -128 sends `wifi_scan_sc_done` into the unconstrained fallback, one
plain station connect with nothing selected, and no value of the margin avoids it. -/
theorem C4_counterexample_matching_result_falls_back :
    sysparam_get_string (world_of store_home_only).store Key.WIFI_SSID_SYSPARAM
        = some name_home ∧
      strcmp name_home bss_home_weakest.ssid = 0 ∧
      ¬ ∃ margin : Int,
        (wifi_scan_sc_done margin { head := bss_head, next := [bss_home_weakest] }
            sdk_scan_status_t.SCAN_OK true (world_of store_home_only)).1 ≠ sc_exit.no_best ∨
          (wifi_scan_sc_done margin { head := bss_head, next := [bss_home_weakest] }
            sdk_scan_status_t.SCAN_OK true (world_of store_home_only)).2.calls
            ≠ [Call.sdk_wifi_station_connect] := by
  refine ⟨by decide, by decide, ?_⟩
  rintro ⟨margin, h⟩
  have hs : sysparam_get_string (world_of store_home_only).store Key.WIFI_SSID_SYSPARAM
      = some name_home := by decide
  have hm : strcmp name_home bss_home_weakest.ssid = 0 := by decide
  have hb : (sc_loop name_home margin [bss_home_weakest] sc_init).best_rssi = INT8_MIN := by
    simp only [sc_loop, sc_step, hm, if_true, sc_init]
    split_ifs <;> rfl
  have hfin : sc_finish (sc_loop name_home margin [bss_home_weakest] sc_init) true
      (world_of store_home_only)
      = (sc_exit.no_best, (world_of store_home_only).log Call.sdk_wifi_station_connect) := by
    simp [sc_finish, hb]
  rcases h with h | h
  · apply h
    simp only [wifi_scan_sc_done, hs, ne_eq, not_true, if_false, hfin]
  · apply h
    simp only [wifi_scan_sc_done, hs, ne_eq, not_true, if_false, hfin]
    rfl

/-- C4 (amended): for a non-negative margin, `wifi_scan_sc_done` takes the unconstrained
fallback exactly when no result carrying the configured name has a signal above -128
plus the margin, and the run is then one plain station connect with the store
untouched. When such a result exists, one result carrying the configured name and such
a signal is selected (the walk leaves its BSSID and signal in the best), the store is
untouched, and the calls are: none or one plain station connect (as no IP was obtained)
when the stored preferred BSSID equals the selected one; otherwise the creation of the
connect task for the selected BSSID, or, when that task cannot be created, one plain
station connect. A connect task is created only when such a result exists and the task
can be created. -/
theorem C4_fallback_iff_no_candidate_above_floor (margin : Int) (h0 : 0 ≤ margin)
    (arg : scan_list) (task_ok : Bool) (w : World) (wifi_ssid : List Nat)
    (hs : sysparam_get_string w.store Key.WIFI_SSID_SYSPARAM = some wifi_ssid) :
    ((wifi_scan_sc_done margin arg sdk_scan_status_t.SCAN_OK task_ok w).1 = sc_exit.no_best ↔
        ∀ bss ∈ arg.next, strcmp wifi_ssid bss.ssid = 0 → bss.rssi ≤ -128 + margin) ∧
      ((∀ bss ∈ arg.next, strcmp wifi_ssid bss.ssid = 0 → bss.rssi ≤ -128 + margin) →
        (wifi_scan_sc_done margin arg sdk_scan_status_t.SCAN_OK task_ok w).2.store = w.store ∧
        new_calls w (wifi_scan_sc_done margin arg sdk_scan_status_t.SCAN_OK task_ok w).2
          = [Call.sdk_wifi_station_connect]) ∧
      ((∃ bss ∈ arg.next, strcmp wifi_ssid bss.ssid = 0 ∧ bss.rssi > -128 + margin) →
        ∃ bss ∈ arg.next, strcmp wifi_ssid bss.ssid = 0 ∧ bss.rssi > -128 + margin ∧
          (sc_loop wifi_ssid margin arg.next sc_init).best_bssid = some bss.bssid ∧
          (sc_loop wifi_ssid margin arg.next sc_init).best_rssi = bss.rssi ∧
          (wifi_scan_sc_done margin arg sdk_scan_status_t.SCAN_OK task_ok w).2.store
            = w.store ∧
          new_calls w (wifi_scan_sc_done margin arg sdk_scan_status_t.SCAN_OK task_ok w).2 =
            if (sysparam_get_data w.store Key.WIFI_BSSID_SYSPARAM).isSome = true ∧
                memcmp bss.bssid.bytes
                  ((sysparam_get_data w.store Key.WIFI_BSSID_SYSPARAM).getD []) 6 = 0 then
              (if w.got_ip = true then [] else [Call.sdk_wifi_station_connect])
            else if task_ok = true then
              [Call.xTaskCreate (Task.wifi_smart_connect_task bss.bssid)]
            else [Call.sdk_wifi_station_connect]) ∧
      ((∃ t, Call.xTaskCreate t ∈
          new_calls w (wifi_scan_sc_done margin arg sdk_scan_status_t.SCAN_OK task_ok w).2) →
        task_ok = true ∧
          ∃ bss ∈ arg.next, strcmp wifi_ssid bss.ssid = 0 ∧ bss.rssi > -128 + margin) := by
  have hinv := sc_loop_inv wifi_ssid margin h0 arg.next
  simp only [wifi_scan_sc_done, hs, ne_eq, not_true, if_false]
  generalize sc_loop wifi_ssid margin arg.next sc_init = st at hinv
  simp only [INT8_MIN] at hinv
  have hnew : ∀ c, new_calls w (w.log c) = [c] := fun c => by simp [new_calls, World.log]
  have hnil : new_calls w w = [] := by simp [new_calls]
  rcases hinv with ⟨_, hb, _, hall⟩ | ⟨hf, hb, bss, hmem, hm, hbb, hr⟩
  · have hfin : sc_finish st task_ok w = (sc_exit.no_best, w.log Call.sdk_wifi_station_connect) := by
      simp [sc_finish, hb, INT8_MIN]
    rw [hfin]
    refine ⟨⟨fun _ => hall, fun _ => rfl⟩, fun _ => ⟨rfl, hnew _⟩, ?_, ?_⟩
    · rintro ⟨bss, hmem, hm, hgt⟩
      have := hall bss hmem hm; omega
    · rintro ⟨t, ht⟩
      rw [hnew] at ht
      simp at ht
  · have hne : st.best_rssi ≠ INT8_MIN := by simp only [INT8_MIN]; omega
    have hex : ∃ bss ∈ arg.next, strcmp wifi_ssid bss.ssid = 0 ∧ bss.rssi > -128 + margin :=
      ⟨bss, hmem, hm, by omega⟩
    have hno : ¬ ∀ bss ∈ arg.next, strcmp wifi_ssid bss.ssid = 0 → bss.rssi ≤ -128 + margin := by
      intro h; have := h bss hmem hm; omega
    by_cases hsame : (sysparam_get_data w.store Key.WIFI_BSSID_SYSPARAM).isSome = true ∧
        memcmp bss.bssid.bytes ((sysparam_get_data w.store Key.WIFI_BSSID_SYSPARAM).getD []) 6
          = 0
    · by_cases hg : w.got_ip = true
      · have hfin : sc_finish st task_ok w = (sc_exit.same_bssid bss.bssid, w) := by
          unfold sc_finish
          simp only [hne, if_false, hf, hbb, hsame, and_self, if_true, wifi_config_got_ip, hg]
        rw [hfin]
        refine ⟨⟨(fun h => by simp at h), (fun h => absurd h hno)⟩, fun h => absurd h hno, ?_, ?_⟩
        · intro _
          exact ⟨bss, hmem, hm, by omega, hbb, hr, rfl, by rw [hnil, if_pos hsame, if_pos hg]⟩
        · rintro ⟨t, ht⟩
          rw [hnil] at ht
          simp at ht
      · have hfin : sc_finish st task_ok w
            = (sc_exit.same_bssid bss.bssid, w.log Call.sdk_wifi_station_connect) := by
          unfold sc_finish
          simp only [hne, if_false, hf, hbb, hsame, and_self, if_true, wifi_config_got_ip, hg]
          simp
        rw [hfin]
        refine ⟨⟨(fun h => by simp at h), (fun h => absurd h hno)⟩, fun h => absurd h hno, ?_, ?_⟩
        · intro _
          exact ⟨bss, hmem, hm, by omega, hbb, hr, rfl, by rw [hnew, if_pos hsame, if_neg hg]⟩
        · rintro ⟨t, ht⟩
          rw [hnew] at ht
          simp at ht
    · cases task_ok
      · have hfin : sc_finish st false w
            = (sc_exit.plain_connect, w.log Call.sdk_wifi_station_connect) := by
          unfold sc_finish
          simp only [hne, if_false, hf, hbb, hsame]
          simp
        rw [hfin]
        refine ⟨⟨(fun h => by simp at h), (fun h => absurd h hno)⟩, fun h => absurd h hno, ?_, ?_⟩
        · intro _
          exact ⟨bss, hmem, hm, by omega, hbb, hr, rfl, by rw [hnew, if_neg hsame]; simp⟩
        · rintro ⟨t, ht⟩
          rw [hnew] at ht
          simp at ht
      · have hfin : sc_finish st true w
            = (sc_exit.task_created bss.bssid,
                w.log (Call.xTaskCreate (Task.wifi_smart_connect_task bss.bssid))) := by
          unfold sc_finish
          simp only [hne, if_false, hf, hbb, hsame]
          simp
        rw [hfin]
        refine ⟨⟨(fun h => by simp at h), (fun h => absurd h hno)⟩, fun h => absurd h hno, ?_, ?_⟩
        · intro _
          exact ⟨bss, hmem, hm, by omega, hbb, hr, rfl, by rw [hnew, if_neg hsame]; simp⟩
        · intro _
          exact ⟨rfl, hex⟩

/-- Witness for C4 (amended): margin 1, one result named "Home" at -60, no preferred BSSID
stored: the connect task is created for that result. -/
theorem C4_fallback_iff_no_candidate_above_floor_witness :
    (0 : Int) ≤ 1 ∧
      sysparam_get_string (world_of store_home_only).store Key.WIFI_SSID_SYSPARAM
        = some name_home ∧
      ((∃ t, Call.xTaskCreate t ∈
          new_calls (world_of store_home_only)
            (wifi_scan_sc_done 1 { head := bss_head, next := [bss_home] }
              sdk_scan_status_t.SCAN_OK true (world_of store_home_only)).2) →
        true = true ∧
          ∃ bss ∈ [bss_home], strcmp name_home bss.ssid = 0 ∧ bss.rssi > -128 + 1) ∧
      new_calls (world_of store_home_only)
          (wifi_scan_sc_done 1 { head := bss_head, next := [bss_home] }
            sdk_scan_status_t.SCAN_OK true (world_of store_home_only)).2
        = [Call.xTaskCreate (Task.wifi_smart_connect_task bssid_b)] :=
  ⟨by decide, by decide,
    (C4_fallback_iff_no_candidate_above_floor 1 (by decide)
      { head := bss_head, next := [bss_home] } true (world_of store_home_only) name_home
      (by decide)).2.2.2,
    by decide⟩

@[simp] theorem log_store (w : World) (c : Call) : (w.log c).store = w.store := rfl
@[simp] theorem log_calls (w : World) (c : Call) : (w.log c).calls = w.calls ++ [c] := rfl
@[simp] theorem log_opmode (w : World) (c : Call) : (w.log c).opmode = w.opmode := rfl
@[simp] theorem log_phy_mode (w : World) (c : Call) : (w.log c).phy_mode = w.phy_mode := rfl
@[simp] theorem log_got_ip (w : World) (c : Call) : (w.log c).got_ip = w.got_ip := rfl

theorem new_calls_append (w w1 : World) (l : List Call) (h : w1.calls = w.calls ++ l) :
    new_calls w w1 = l := by
  simp [new_calls, h]

theorem sc_finish_cases (st : sc_state) (task_ok : Bool) (w : World) :
    ((sc_finish st task_ok w).2 = w ∧ ∀ b, (sc_finish st task_ok w).1 ≠ sc_exit.task_created b) ∨
    ((sc_finish st task_ok w).2 = w.log Call.sdk_wifi_station_connect ∧
      ∀ b, (sc_finish st task_ok w).1 ≠ sc_exit.task_created b) ∨
    ((sc_finish st task_ok w).2 = w.log Call.uninitialised_read ∧
      ∀ b, (sc_finish st task_ok w).1 ≠ sc_exit.task_created b) ∨
    (∃ b, sc_finish st task_ok w =
        (sc_exit.task_created b, w.log (Call.xTaskCreate (Task.wifi_smart_connect_task b))) ∧
      st.best_bssid = some b ∧
      sysparam_get_data w.store Key.WIFI_BSSID_SYSPARAM ≠ some b.bytes) := by
  unfold sc_finish
  by_cases h : st.best_rssi = INT8_MIN
  · right; left; simp [h]
  · rcases st with ⟨r, b, f⟩
    simp only [h, if_false]
    cases f
    · right; left; simp
    · cases b with
      | none => right; right; left; simp
      | some b =>
        by_cases hsame : (sysparam_get_data w.store Key.WIFI_BSSID_SYSPARAM).isSome = true ∧
          memcmp b.bytes ((sysparam_get_data w.store Key.WIFI_BSSID_SYSPARAM).getD []) 6 = 0
        · simp only [hsame, and_self, if_true]
          by_cases hg : wifi_config_got_ip w = true
          · left; simp [hg]
          · right; left; simp [hg]
        · cases task_ok
          · right; left; simp [hsame]
          · right; right; right
            refine ⟨b, by simp [hsame], rfl, ?_⟩
            intro hc
            apply hsame
            rw [hc]
            refine ⟨rfl, ?_⟩
            simp [memcmp_bytes_eq_zero_iff]

theorem toggle_phy_mode_store (phy : Nat) (w : World) :
    (wifi_config_toggle_phy_mode phy w).store = w.store := by
  unfold wifi_config_toggle_phy_mode
  split <;> (try split_ifs) <;> rfl

theorem toggle_phy_mode_opmode (phy : Nat) (w : World) :
    (wifi_config_toggle_phy_mode phy w).opmode = w.opmode := by
  unfold wifi_config_toggle_phy_mode
  split <;> (try split_ifs) <;> rfl

theorem toggle_phy_mode_got_ip (phy : Nat) (w : World) :
    (wifi_config_toggle_phy_mode phy w).got_ip = w.got_ip := by
  unfold wifi_config_toggle_phy_mode
  split <;> (try split_ifs) <;> rfl

theorem toggle_phy_mode_calls (phy : Nat) (w : World) :
    ∃ l, (wifi_config_toggle_phy_mode phy w).calls = w.calls ++ l ∧
      ∀ c ∈ l, ∃ m, c = Call.sdk_wifi_set_phy_mode m := by
  unfold wifi_config_toggle_phy_mode
  split <;> (try split_ifs) <;>
    first
      | exact ⟨[_], rfl, by simp⟩
      | exact ⟨[], (List.append_nil _).symm, by simp⟩

theorem smart_connect_task_store (b : Bssid) (w : World) :
    (wifi_smart_connect_task b w).store
      = w.store.put Key.WIFI_BSSID_SYSPARAM (some (Value.data b.bytes)) := by
  unfold wifi_smart_connect_task
  simp only [sysparam_set_data, sysparam_set, Option.map_some', World.log]
  split <;> simp [toggle_phy_mode_store]

theorem smart_connect_task_first_call (b : Bssid) (w : World) :
    (new_calls w (wifi_smart_connect_task b w)).head?
      = some (Call.sysparam_set Key.WIFI_BSSID_SYSPARAM (some (Value.data b.bytes))) := by
  unfold wifi_smart_connect_task
  simp only [sysparam_set_data, sysparam_set, Option.map_some', World.log]
  split
  · simp [new_calls]
  · rename_i wifi_ssid _
    obtain ⟨l, hl, _⟩ := toggle_phy_mode_calls
      (to_uint8 (sysparam_get_int8 (w.store.put Key.WIFI_BSSID_SYSPARAM
        (some (Value.data b.bytes))) Key.WIFI_LAST_WORKING_PHY_SYSPARAM 3))
      { store := w.store.put Key.WIFI_BSSID_SYSPARAM (some (Value.data b.bytes)),
        opmode := w.opmode, phy_mode := w.phy_mode, got_ip := w.got_ip,
        netif_up := w.netif_up, softap_macaddr := w.softap_macaddr,
        calls := w.calls ++ [Call.sysparam_set Key.WIFI_BSSID_SYSPARAM
          (some (Value.data b.bytes))] ++ [Call.sdk_wifi_station_disconnect] ++
          [Call.sdk_wifi_station_set_config
            { ssid := sta_config_ssid wifi_ssid,
              password := sta_config_password (sysparam_get_string
                (w.store.put Key.WIFI_BSSID_SYSPARAM (some (Value.data b.bytes)))
                Key.WIFI_PASSWORD_SYSPARAM),
              bssid_set := 1, bssid := b.bytes }] ++
          [Call.sdk_wifi_station_set_auto_connect true] }
    simp only [new_calls]
    rw [hl]
    simp

theorem sc_finish_props (st : sc_state) (task_ok : Bool) (w w0 : World) (pre : List Call)
    (hst : w0.store = w.store) (hc : w0.calls = w.calls ++ pre)
    (hp : ∀ c ∈ pre, c = Call.sdk_wifi_station_connect) :
    (sc_finish st task_ok w0).2.store = w.store ∧
    (∀ k v, Call.sysparam_set k v ∉ new_calls w (sc_finish st task_ok w0).2) ∧
    (∀ (b : Bssid) (rssi : Int),
      st = { best_rssi := rssi, best_bssid := some b, found := true } →
      rssi ≠ INT8_MIN →
      sysparam_get_data w.store Key.WIFI_BSSID_SYSPARAM = some b.bytes →
      (sc_finish st task_ok w0).1 = sc_exit.same_bssid b ∧
        ∀ t, Call.xTaskCreate t ∉ new_calls w (sc_finish st task_ok w0).2) ∧
    (∀ b, Call.xTaskCreate (Task.wifi_smart_connect_task b)
        ∈ new_calls w (sc_finish st task_ok w0).2 →
      (sc_finish st task_ok w0).1 = sc_exit.task_created b ∧
        sysparam_get_data w.store Key.WIFI_BSSID_SYSPARAM ≠ some b.bytes ∧
        (wifi_smart_connect_task b (sc_finish st task_ok w0).2).store
          = w.store.put Key.WIFI_BSSID_SYSPARAM (some (Value.data b.bytes)) ∧
        (new_calls (sc_finish st task_ok w0).2
            (wifi_smart_connect_task b (sc_finish st task_ok w0).2)).head?
          = some (Call.sysparam_set Key.WIFI_BSSID_SYSPARAM (some (Value.data b.bytes)))) := by
  have hpre1 : ∀ k v, Call.sysparam_set k v ∉ pre := fun k v hm => by
    have := hp _ hm; cases this
  have hpre2 : ∀ t, Call.xTaskCreate t ∉ pre := fun t hm => by
    have := hp _ hm; cases this
  refine ⟨?_, ?_, ?_, ?_⟩
  · rcases sc_finish_cases st task_ok w0 with ⟨h, _⟩ | ⟨h, _⟩ | ⟨h, _⟩ | ⟨b, h, _⟩ <;>
      simp [h, hst]
  · intro k v
    rcases sc_finish_cases st task_ok w0 with ⟨h, _⟩ | ⟨h, _⟩ | ⟨h, _⟩ | ⟨b, h, _⟩
    · rw [h, new_calls_append w w0 pre hc]; exact hpre1 k v
    · rw [h, new_calls_append w _ (pre ++ [Call.sdk_wifi_station_connect]) (by simp [hc])]
      simp [hpre1]
    · rw [h, new_calls_append w _ (pre ++ [Call.uninitialised_read]) (by simp [hc])]
      simp [hpre1]
    · rw [h, new_calls_append w _
        (pre ++ [Call.xTaskCreate (Task.wifi_smart_connect_task b)]) (by simp [hc])]
      simp [hpre1]
  · intro b rssi hs hr hd
    subst hs
    have hd0 : sysparam_get_data w0.store Key.WIFI_BSSID_SYSPARAM = some b.bytes := by
      rw [hst]; exact hd
    have hsame : memcmp b.bytes b.bytes 6 = 0 := (memcmp_bytes_eq_zero_iff b b).2 rfl
    unfold sc_finish
    simp only [hr, if_false, hd0, Option.isSome_some, Option.getD_some, hsame, and_self, if_true]
    refine ⟨by simp, ?_⟩
    intro t
    by_cases hg : wifi_config_got_ip w0 = true
    · simp only [hg, if_true]
      rw [new_calls_append w w0 pre hc]; exact hpre2 t
    · simp only [hg, if_false]
      rw [new_calls_append w _ (pre ++ [Call.sdk_wifi_station_connect]) (by simp [hc])]
      simp [hpre2]
  · intro b hmem
    rcases sc_finish_cases st task_ok w0 with ⟨h, _⟩ | ⟨h, _⟩ | ⟨h, _⟩ | ⟨b1, h, _, hne⟩
    · rw [h, new_calls_append w w0 pre hc] at hmem; exact absurd hmem (hpre2 _)
    · rw [h, new_calls_append w _ (pre ++ [Call.sdk_wifi_station_connect]) (by simp [hc])] at hmem
      simp [hpre2] at hmem
    · rw [h, new_calls_append w _ (pre ++ [Call.uninitialised_read]) (by simp [hc])] at hmem
      simp [hpre2] at hmem
    · rw [h, new_calls_append w _
        (pre ++ [Call.xTaskCreate (Task.wifi_smart_connect_task b1)]) (by simp [hc])] at hmem
      have hb : b = b1 := by simpa [hpre2] using hmem
      subst hb
      rw [h]
      refine ⟨rfl, ?_, ?_, ?_⟩
      · rw [← hst]; exact hne
      · rw [smart_connect_task_store]; simp [hst]
      · exact smart_connect_task_first_call _ _

theorem wifi_scan_sc_done_eq (margin : Int) (arg : scan_list)
    (status : sdk_scan_status_t) (task_ok : Bool) (w : World) :
    ∃ (w0 : World) (pre : List Call), w0.store = w.store ∧
      w0.calls = w.calls ++ pre ∧ (∀ c ∈ pre, c = Call.sdk_wifi_station_connect) ∧
      wifi_scan_sc_done margin arg status task_ok w =
        (match sysparam_get_string w0.store Key.WIFI_SSID_SYSPARAM with
          | none => (sc_exit.no_ssid, w0)
          | some wifi_ssid =>
            sc_finish (sc_loop wifi_ssid margin arg.next sc_init) task_ok w0) := by
  by_cases hok : status ≠ sdk_scan_status_t.SCAN_OK
  · by_cases hg : wifi_config_got_ip w = true
    · exact ⟨w, [], rfl, by simp, by simp, by simp [wifi_scan_sc_done, hok, hg]⟩
    · exact ⟨w.log Call.sdk_wifi_station_connect, [Call.sdk_wifi_station_connect], rfl,
        rfl, by simp, by simp [wifi_scan_sc_done, hok, hg]⟩
  · exact ⟨w, [], rfl, by simp, by simp, by simp [wifi_scan_sc_done, hok]⟩

/-- C5: `wifi_scan_sc_done` itself never writes the store. When the access point it
selects has the stored preferred BSSID it leaves through the same-BSSID path, creating
no task, so nothing is written at all. The smart-connect task, whose first action is
the write of the preferred BSSID, is created only for a selected BSSID that differs
from the stored one (or when none is stored), and after it the stored value is exactly
the six selected bytes, every other entry being as before. -/
theorem C5_preferred_bssid_written_only_when_changed (margin : Int) (arg : scan_list)
    (status : sdk_scan_status_t) (task_ok : Bool) (w : World) :
    (wifi_scan_sc_done margin arg status task_ok w).2.store = w.store ∧
    (∀ k v, Call.sysparam_set k v ∉
      new_calls w (wifi_scan_sc_done margin arg status task_ok w).2) ∧
    (∀ (b : Bssid) (wifi_ssid : List Nat) (rssi : Int),
      sysparam_get_string w.store Key.WIFI_SSID_SYSPARAM = some wifi_ssid →
      sc_loop wifi_ssid margin arg.next sc_init
        = { best_rssi := rssi, best_bssid := some b, found := true } →
      rssi ≠ INT8_MIN →
      sysparam_get_data w.store Key.WIFI_BSSID_SYSPARAM = some b.bytes →
      (wifi_scan_sc_done margin arg status task_ok w).1 = sc_exit.same_bssid b ∧
        ∀ t, Call.xTaskCreate t ∉
          new_calls w (wifi_scan_sc_done margin arg status task_ok w).2) ∧
    (∀ b, Call.xTaskCreate (Task.wifi_smart_connect_task b)
        ∈ new_calls w (wifi_scan_sc_done margin arg status task_ok w).2 →
      (wifi_scan_sc_done margin arg status task_ok w).1 = sc_exit.task_created b ∧
        sysparam_get_data w.store Key.WIFI_BSSID_SYSPARAM ≠ some b.bytes ∧
        (wifi_smart_connect_task b (wifi_scan_sc_done margin arg status task_ok w).2).store
          = w.store.put Key.WIFI_BSSID_SYSPARAM (some (Value.data b.bytes)) ∧
        (new_calls (wifi_scan_sc_done margin arg status task_ok w).2
            (wifi_smart_connect_task b
              (wifi_scan_sc_done margin arg status task_ok w).2)).head?
          = some (Call.sysparam_set Key.WIFI_BSSID_SYSPARAM (some (Value.data b.bytes)))) := by
  obtain ⟨w0, pre, hst, hc, hp, heq⟩ := wifi_scan_sc_done_eq margin arg status task_ok w
  rw [heq]
  cases hs : sysparam_get_string w0.store Key.WIFI_SSID_SYSPARAM with
  | none =>
    have hs1 : sysparam_get_string w.store Key.WIFI_SSID_SYSPARAM = none := by
      rw [← hst]; exact hs
    have hn : new_calls w w0 = pre := new_calls_append w w0 pre hc
    refine ⟨hst, ?_, ?_, ?_⟩
    · intro k v hm
      simp only [hn] at hm
      have := hp _ hm; cases this
    · intro b wifi_ssid rssi h1
      rw [hs1] at h1; cases h1
    · intro b hm
      simp only [hn] at hm
      have := hp _ hm; cases this
  | some wifi_ssid =>
    have hs1 : sysparam_get_string w.store Key.WIFI_SSID_SYSPARAM = some wifi_ssid := by
      rw [← hst]; exact hs
    obtain ⟨p1, p2, p3, p4⟩ := sc_finish_props
      (sc_loop wifi_ssid margin arg.next sc_init) task_ok w w0 pre hst hc hp
    refine ⟨p1, p2, ?_, p4⟩
    intro b s rssi h1 h2 h3 h4
    rw [hs1] at h1
    cases h1
    exact p3 b rssi h2 h3 h4

theorem wifi_config_smart_connect_opmode (task_ok : Bool) (w : World) :
    (wifi_config_smart_connect task_ok w).opmode = w.opmode := by
  unfold wifi_config_smart_connect
  simp only []
  split_ifs <;> rfl

theorem wifi_config_connect_opmode (iv : List Nat) (task_ok : Bool) (phy : Nat) (w : World)
    (h : w.opmode = OpMode.STATION_MODE) :
    (wifi_config_connect iv task_ok phy w).2.opmode = OpMode.STATION_MODE := by
  unfold wifi_config_connect
  simp only []
  split
  · exact h
  · split_ifs <;>
      simp [toggle_phy_mode_opmode, wifi_config_smart_connect_opmode, sdk_wifi_set_opmode]

/-- The branch that the supervisor takes on an unconnected poll in station mode, as a
function of the value of the poll counter after its increment. -/
theorem sta_connect_timeout_poll_unconnected (iv : List Nat) (task_ok : Bool)
    (context : wifi_config_context_t) (w : World) (h : w.opmode = OpMode.STATION_MODE)
    (hc : context.check_counter ≤ 240) :
    (sta_connect_timeout_poll iv task_ok false context w).1
        = branch_at (context.check_counter + 1) ∧
      (sta_connect_timeout_poll iv task_ok false context w).2.1.check_counter
        = context.check_counter + 1 ∧
      (sta_connect_timeout_poll iv task_ok false context w).2.2.opmode
        = OpMode.STATION_MODE := by
  have hm : (context.check_counter + 1) % 256 = context.check_counter + 1 := by omega
  unfold sta_connect_timeout_poll branch_at
  simp only [Bool.false_eq_true, if_false, h, if_true, hm]
  split_ifs <;>
    simp [wifi_config_connect_opmode, h, wifi_config_resend_arp, auto_reboot_run]
  split_ifs <;> simp [h]

theorem sta_connect_timeout_trace (iv : List Nat) (task_ok : Bool) (status : Nat → Bool)
    (hs : ∀ k, status k = false) (fuel : Nat) :
    ∀ (k : Nat) (context : wifi_config_context_t) (w : World),
      w.opmode = OpMode.STATION_MODE → context.check_counter ≤ 240 →
      (wifi_config_sta_connect_timeout_task iv task_ok status fuel k context w).1 =
        (List.range' (context.check_counter + 1)
          (min fuel (241 - context.check_counter))).map branch_at := by
  induction fuel with
  | zero => intro k context w _ _; simp [wifi_config_sta_connect_timeout_task]
  | succ fuel ih =>
    intro k context w hop hc
    obtain ⟨h1, h2, h3⟩ := sta_connect_timeout_poll_unconnected iv task_ok context w hop hc
    unfold wifi_config_sta_connect_timeout_task
    simp only [hs k, h1]
    by_cases hlast : context.check_counter = 240
    · have hb : branch_at (context.check_counter + 1) = poll_branch.reboot := by
        rw [hlast]; decide
      rw [hb]
      simp [hlast]
      decide
    · have hlt : context.check_counter + 1 ≤ 240 := by omega
      have hb1 : branch_at (context.check_counter + 1) ≠ poll_branch.got_ip := by
        unfold branch_at; split_ifs <;> simp
      have hb2 : branch_at (context.check_counter + 1) ≠ poll_branch.reboot := by
        unfold branch_at; split_ifs <;> simp
        omega
      have hmin : min (fuel + 1) (241 - context.check_counter)
          = min fuel (241 - (context.check_counter + 1)) + 1 := by omega
      simp only [hb1, hb2, or_self, if_false]
      rw [ih (k + 1) _ _ h3 (by rw [h2]; exact hlt), h2, hmin, List.range'_succ]
      simp

set_option maxRecDepth 100000 in
theorem branch_at_trace_facts :
    ((List.range' 1 241).map branch_at).length = 241 ∧
      ((List.range' 1 241).map branch_at)[31]? = some poll_branch.forced_reconnect ∧
      (∀ i, i < 31 →
        ((List.range' 1 241).map branch_at)[i]? ≠ some poll_branch.forced_reconnect) ∧
      ((List.range' 1 241).map branch_at)[240]? = some poll_branch.reboot ∧
      (∀ i, i < 240 → ((List.range' 1 241).map branch_at)[i]? ≠ some poll_branch.reboot) := by
  refine ⟨by simp, by decide, by decide, by decide, by decide⟩

theorem get_string_put_of_ne (store : Store) (k k1 : Key) (v : Option Value) (h : k1 ≠ k) :
    sysparam_get_string (store.put k v) k1 = sysparam_get_string store k1 := by
  simp [sysparam_get_string, Store.put, h]

theorem softap_start_calls (context : wifi_config_context_t) (w : World) :
    (wifi_config_softap_start context w).calls = w.calls ++
      [Call.sdk_wifi_set_opmode OpMode.STATIONAP_MODE,
        Call.sdk_wifi_set_ip_info [192, 168, 4, 1] [255, 255, 255, 0] [0, 0, 0, 0],
        Call.sdk_wifi_softap_set_config
          { ssid := (softap_ssid_text (wifi_config_context_t.ssid_prefix context)
              w.softap_macaddr).take 31
            ssid_len := (softap_ssid_text (wifi_config_context_t.ssid_prefix context)
              w.softap_macaddr).length % 256
            ssid_hidden := 0
            channel := 6
            authmode := AUTH_OPEN
            max_connection := 2
            beacon_interval := 100 },
        Call.dhcpserver_start [192, 168, 4, 2] 4,
        Call.xTaskCreate Task.http_task] := by
  simp [wifi_config_softap_start, sdk_wifi_set_opmode, World.log]

theorem wifi_config_connect_no_ssid (iv : List Nat) (task_ok : Bool) (phy : Nat) (w : World)
    (h : sysparam_get_string w.store Key.WIFI_SSID_SYSPARAM = none) :
    wifi_config_connect iv task_ok phy w
      = (0, sysparam_set_string Key.INSTALLER_VERSION_SYSPARAM iv w) := by
  have h1 : sysparam_get_string
      (sysparam_set_string Key.INSTALLER_VERSION_SYSPARAM iv w).store Key.WIFI_SSID_SYSPARAM
      = none := by
    simp only [sysparam_set_string, sysparam_set]
    rw [get_string_put_of_ne _ _ _ _ (by decide)]; exact h
  unfold wifi_config_connect
  simp only [h1]

/-- C7: when the store holds no network name, whatever the stored setup-state,
`wifi_config_connect` returns 0 having only recorded the installer version (no radio
configuration, disconnect or connect call), and `wifi_config_station_connect` goes on
to `wifi_config_softap_start`, leaving the radio in access-point mode with the HTTP
task created, and does not create the connect-timeout supervisor. -/
theorem C7_no_network_name_enters_setup (iv : List Nat) (task_ok : Bool) (phy : Nat)
    (context : wifi_config_context_t) (w : World)
    (h : sysparam_get_string w.store Key.WIFI_SSID_SYSPARAM = none) :
    (wifi_config_connect iv task_ok phy w).1 = 0 ∧
      new_calls w (wifi_config_connect iv task_ok phy w).2
        = [Call.sysparam_set Key.INSTALLER_VERSION_SYSPARAM (some (Value.str iv))] ∧
      (∃ w1, (wifi_config_station_connect iv task_ok context w).2
          = wifi_config_softap_start (wifi_config_station_connect iv task_ok context w).1 w1 ∧
        ∀ c ∈ new_calls w w1,
          (∃ k v, c = Call.sysparam_set k v) ∨ c = Call.vTaskDelete context.ota_task ∨
          c = Call.esp_timer_create TimerPeriod.AUTO_REBOOT_TIMEOUT ∨
          c = Call.esp_timer_start_forced (some { period := TimerPeriod.AUTO_REBOOT_TIMEOUT })) ∧
      (wifi_config_station_connect iv task_ok context w).2.opmode = OpMode.STATIONAP_MODE ∧
      Call.xTaskCreate Task.http_task
        ∈ new_calls w (wifi_config_station_connect iv task_ok context w).2 ∧
      Call.xTaskCreate Task.wifi_config_sta_connect_timeout_task
        ∉ new_calls w (wifi_config_station_connect iv task_ok context w).2 ∧
      (wifi_config_station_connect iv task_ok context w).1.sta_connect_timeout
        = context.sta_connect_timeout := by
  have hc := wifi_config_connect_no_ssid iv task_ok phy w h
  have hc2 : ∀ p, wifi_config_connect iv task_ok p w
      = (0, sysparam_set_string Key.INSTALLER_VERSION_SYSPARAM iv w) :=
    fun p => wifi_config_connect_no_ssid iv task_ok p w h
  refine ⟨by rw [hc], ?_, ?_, ?_, ?_, ?_, ?_⟩
  · rw [hc]; simp [new_calls, sysparam_set_string, sysparam_set]
  · unfold wifi_config_station_connect
    simp only [hc2, zero_ne_one, false_and, if_false]
    split_ifs
    · refine ⟨_, rfl, ?_⟩
      intro c hcm
      simp [new_calls, sysparam_set_string, sysparam_set_int8, sysparam_set, World.log] at hcm
      rcases hcm with rfl | rfl | rfl | rfl | rfl <;> simp
    · refine ⟨_, rfl, ?_⟩
      intro c hcm
      simp [new_calls, sysparam_set_string, sysparam_set_int8, sysparam_set, World.log] at hcm
      rcases hcm with rfl | rfl | rfl <;> simp
  · unfold wifi_config_station_connect
    simp only [hc2, zero_ne_one, false_and, if_false]
    split_ifs <;> rfl
  · unfold wifi_config_station_connect
    simp only [hc2, zero_ne_one, false_and, if_false]
    split_ifs <;>
      simp [new_calls, softap_start_calls, sysparam_set_string, sysparam_set_int8,
        sysparam_set, World.log]
  · unfold wifi_config_station_connect
    simp only [hc2, zero_ne_one, false_and, if_false]
    split_ifs <;>
      simp [new_calls, softap_start_calls, sysparam_set_string, sysparam_set_int8,
        sysparam_set, World.log]
  · unfold wifi_config_station_connect
    simp only [hc2, zero_ne_one, false_and, if_false]
    split_ifs <;> rfl

/-- Witness for C7: an empty store. -/
theorem C7_no_network_name_enters_setup_witness :
    sysparam_get_string (world_of store_empty).store Key.WIFI_SSID_SYSPARAM = none ∧
      (wifi_config_connect [49] true 0 (world_of store_empty)).1 = 0 ∧
      (wifi_config_station_connect [49] true (wifi_config_init name_home (some Task.ota_task))
        (world_of store_empty)).2.opmode = OpMode.STATIONAP_MODE :=
  ⟨rfl,
    (C7_no_network_name_enters_setup [49] true 0
      (wifi_config_init name_home (some Task.ota_task)) (world_of store_empty) rfl).1,
    (C7_no_network_name_enters_setup [49] true 0
      (wifi_config_init name_home (some Task.ota_task)) (world_of store_empty) rfl).2.2.2.1⟩

theorem strlen_le_length (s : List Nat) : strlen s ≤ s.length := by
  induction s with
  | nil => simp [strlen]
  | cons c rest ih =>
    unfold strlen
    split_ifs
    · simp
    · simp; omega

theorem strncmp_slash_eq_zero (data : List Nat) (h0 : 0 ∉ data)
    (h : strncmp data str_slash data.length = 0) : data = [] ∨ data = [47] := by
  cases data with
  | nil => left; rfl
  | cons c rest =>
    right
    simp only [List.length_cons, strncmp, peek, str_slash, List.headD_cons, List.tail_cons]
      at h
    by_cases hc : c = 47
    · subst hc
      cases rest with
      | nil => rfl
      | cons d rest2 =>
        have hd : d ≠ 0 := fun hd => h0 (by simp [hd])
        simp [strncmp, peek, hd] at h
    · simp only [ne_eq, hc, not_false_eq_true, if_true] at h
      omega

/-- C9 (evaluation at the failing input): a GET for "/" is identified as the settings
route, and answered with the settings page and no redirect; a GET for "/s" is the
settings route and a POST for "/" or "/s" the settings-update route; and no URL free
of zero bytes is ever identified as the index route. -/
theorem C9_get_root_is_settings_route (client : client_t) (context : wifi_config_context_t)
    (w : World) :
    (wifi_config_server_on_url { client with method := http_method.HTTP_GET } str_slash).endpoint
        = endpoint_t.ENDPOINT_SETTINGS ∧
      Call.client_send_settings_page (some context.wifi_networks) ∈
        new_calls w (wifi_config_server_on_message_complete true
          (wifi_config_server_on_url { client with method := http_method.HTTP_GET } str_slash)
          context w).2 ∧
      (∀ code url, Call.client_send_redirect code url ∉
        new_calls w (wifi_config_server_on_message_complete true
          (wifi_config_server_on_url { client with method := http_method.HTTP_GET } str_slash)
          context w).2) ∧
      (wifi_config_server_on_url { client with method := http_method.HTTP_GET } [47, 115]).endpoint
        = endpoint_t.ENDPOINT_SETTINGS ∧
      (wifi_config_server_on_url { client with method := http_method.HTTP_POST } str_slash).endpoint
        = endpoint_t.ENDPOINT_SETTINGS_UPDATE ∧
      (wifi_config_server_on_url { client with method := http_method.HTTP_POST } [47, 115]).endpoint
        = endpoint_t.ENDPOINT_SETTINGS_UPDATE ∧
      (∀ (c : client_t) (data : List Nat), 0 ∉ data →
        (wifi_config_server_on_url c data).endpoint ≠ endpoint_t.ENDPOINT_INDEX) := by
  have e1 : (wifi_config_server_on_url { client with method := http_method.HTTP_GET }
      str_slash).endpoint = endpoint_t.ENDPOINT_SETTINGS := by
    simp [wifi_config_server_on_url, str_slash, str_sn, strncmp, peek]
  refine ⟨e1, ?_, ?_, ?_, ?_, ?_, ?_⟩
  · unfold wifi_config_server_on_message_complete
    simp only [e1]
    split <;>
      simp [new_calls, wifi_config_server_on_settings, World.log]
  · intro code url
    unfold wifi_config_server_on_message_complete
    simp only [e1]
    split <;>
      simp [new_calls, wifi_config_server_on_settings, World.log]
  · simp [wifi_config_server_on_url, str_sn, strncmp, peek]
  · simp [wifi_config_server_on_url, str_slash, str_sn, strncmp, peek]
  · simp [wifi_config_server_on_url, str_sn, strncmp, peek]
  · intro c data h0
    unfold wifi_config_server_on_url
    simp only []
    split_ifs with h1 h2 h3 h4 h5 <;> simp
    rcases strncmp_slash_eq_zero data h0 h3 with rfl | rfl
    · exact h2 (by simp [strncmp])
    · exact h2 (by simp [strncmp, str_sn, peek])

theorem memcpy_at_length (block : List Nat) (offset : Nat) (data : List Nat)
    (h : offset + data.length ≤ block.length) :
    (memcpy_at block offset data).length = block.length := by
  simp [memcpy_at]
  omega

theorem on_body_ok_iff (client : client_t) (block data : List Nat)
    (hb : client.body = some block) :
    (client.body_length + data.length < block.length →
      wifi_config_server_on_body client data = Except.ok
        { client with
          body := some ((memcpy_at block client.body_length data).set
            (client.body_length + data.length) 0)
          body_length := client.body_length + data.length }) ∧
    (block.length ≤ client.body_length + data.length →
      ∃ i, block.length ≤ i ∧
        wifi_config_server_on_body client data
          = Except.error (Fault.out_of_bounds block.length i)) := by
  constructor
  · intro h
    unfold wifi_config_server_on_body
    have h1 : ¬ client.body_length + data.length > block.length := by omega
    have h2 : client.body_length + data.length
        < (memcpy_at block client.body_length data).length := by
      rw [memcpy_at_length _ _ _ (by omega)]; exact h
    simp only [hb, h1, if_false, h2, if_true]
  · intro h
    unfold wifi_config_server_on_body
    simp only [hb]
    by_cases h1 : client.body_length + data.length > block.length
    · refine ⟨client.body_length + data.length - 1, by omega, ?_⟩
      simp only [h1, if_true]
    · have h2 : ¬ client.body_length + data.length < block.length := by omega
      refine ⟨client.body_length + data.length, h, ?_⟩
      simp only [h1, if_false, h2, memcpy_at_length _ _ _ (Nat.le_of_not_lt h1)]

theorem on_body_chunks_overflow (chunks : List (List Nat)) :
    ∀ (client : client_t) (block : List Nat), client.body = some block →
      client.body_length < block.length →
      block.length ≤ client.body_length + (chunks.map List.length).sum →
      ∃ i, block.length ≤ i ∧
        on_body_chunks client chunks = Except.error (Fault.out_of_bounds block.length i) := by
  induction chunks with
  | nil => intro client block _ h1 h2; simp at h2; omega
  | cons data rest ih =>
    intro client block hb h1 h2
    obtain ⟨hok, herr⟩ := on_body_ok_iff client block data hb
    by_cases hfit : client.body_length + data.length < block.length
    · have hstep := hok hfit
      unfold on_body_chunks
      rw [hstep]
      simp only []
      have hlen : ((memcpy_at block client.body_length data).set
          (client.body_length + data.length) 0).length = block.length := by
        rw [List.length_set, memcpy_at_length _ _ _ (by omega)]
      have := ih { client with
          body := some ((memcpy_at block client.body_length data).set
            (client.body_length + data.length) 0)
          body_length := client.body_length + data.length } _ rfl
        (by rw [hlen]; exact hfit)
        (by
          rw [hlen]
          simp only [List.map_cons, List.sum_cons] at h2
          show block.length ≤ client.body_length + data.length + (rest.map List.length).sum
          omega)
      rw [hlen] at this
      exact this
    · obtain ⟨i, hi, he⟩ := herr (by omega)
      refine ⟨i, hi, ?_⟩
      unfold on_body_chunks
      rw [he]

/-- C10 (evaluation at the failing input): `wifi_config_server_on_body` has no capacity
check. On a fresh session whose body block has `size` bytes, every sequence of chunks
whose total length reaches `size`, the length `size` itself included, ends in a write at
an index at or past the end of the block; nothing is dropped. -/
theorem C10_body_at_capacity_writes_past_end (MAX_BODY_LEN : Nat) (malloc_ok : Nat → Bool)
    (fuel size : Nat) (chunks : List (List Nat))
    (hm : body_malloc MAX_BODY_LEN malloc_ok fuel = some size) (hs : 0 < size)
    (hc : size ≤ (chunks.map List.length).sum) :
    ∃ client, client_new MAX_BODY_LEN malloc_ok fuel = some client ∧
      ∃ i, size ≤ i ∧ on_body_chunks client chunks = Except.error (Fault.out_of_bounds size i) := by
  refine ⟨{ fd := 0, method := http_method.HTTP_DELETE,
            endpoint := endpoint_t.ENDPOINT_UNKNOWN,
            body := some (List.replicate size 0), body_length := 0 },
    by simp only [client_new, hm], ?_⟩
  have := on_body_chunks_overflow chunks
    { fd := 0, method := http_method.HTTP_DELETE, endpoint := endpoint_t.ENDPOINT_UNKNOWN,
      body := some (List.replicate size 0), body_length := 0 }
    (List.replicate size 0) rfl (by simpa using hs) (by simpa using hc)
  simpa using this

/-- Witness for C10: capacity 4, a body of exactly 4 bytes in two chunks. -/
theorem C10_body_at_capacity_writes_past_end_witness :
    body_malloc 4 (fun _ => true) 1 = some 4 ∧
      ∃ client, client_new 4 (fun _ => true) 1 = some client ∧
        ∃ i, 4 ≤ i ∧
          on_body_chunks client [[110, 61], [49, 50]] = Except.error (Fault.out_of_bounds 4 i) :=
  ⟨rfl, C10_body_at_capacity_writes_past_end 4 (fun _ => true) 1 4 [[110, 61], [49, 50]]
    rfl (by decide) (by decide)⟩

/-! ## Settings commit -/

@[simp] theorem sysparam_set_store (key : Key) (value : Option Value) (w : World) (k : Key) :
    (sysparam_set key value w).store k = if k = key then value else w.store k := rfl

theorem wifi_config_reset_store (w : World) : (wifi_config_reset w).store = w.store := rfl

theorem settings_update_reboot_store (env : update_env) (w : World) :
    (settings_update_reboot env w).store = w.store := by
  unfold settings_update_reboot
  simp only []
  split_ifs <;> rfl

theorem settings_update_flash_mode_store (env : update_env) (form : List form_param_t)
    (w : World) : (settings_update_flash_mode env form w).store = w.store := by
  unfold settings_update_flash_mode
  repeat' split
  all_goals first
    | rfl
    | (simp only []; split_ifs <;> rfl)

theorem settings_update_wifi_mode_store (form : List form_param_t) (w : World) (k : Key)
    (h : k ≠ Key.WIFI_MODE_SYSPARAM) :
    (settings_update_wifi_mode form w).store k = w.store k := by
  unfold settings_update_wifi_mode
  repeat' split
  all_goals simp [sysparam_set_int8, h]

theorem settings_update_repo_store (form : List form_param_t) (w : World) (k : Key)
    (h1 : k ≠ Key.WIFI_SSID_SYSPARAM) (h2 : k ≠ Key.WIFI_PASSWORD_SYSPARAM)
    (h3 : k ≠ Key.WIFI_BSSID_SYSPARAM) (h4 : k ≠ Key.WIFI_MODE_SYSPARAM)
    (h5 : k ≠ Key.WIFI_LAST_WORKING_PHY_SYSPARAM) (h6 : k ≠ Key.CUSTOM_REPO_SYSPARAM)
    (h7 : k ≠ Key.PORT_NUMBER_SYSPARAM) (h8 : k ≠ Key.PORT_SECURE_SYSPARAM) :
    (settings_update_repo form w).store k = w.store k := by
  unfold settings_update_repo
  simp only []
  repeat' split
  all_goals simp [sysparam_set_data, sysparam_set_string, sysparam_set_int32, sysparam_set_int8,
    h1, h2, h3, h4, h5, h6, h7, h8]

theorem settings_update_wifi_ok (form : List form_param_t) (w : World)
    (ssid_param password_param : form_param_t) (name : List Nat)
    (hsid : form_params_find form str_sid = some ssid_param)
    (hname : ssid_param.value = some name)
    (hpsw : form_params_find form str_psw = some password_param) :
    ∃ w1, settings_update_wifi form w = Except.ok w1 ∧
      w1.store Key.WIFI_SSID_SYSPARAM = some (Value.str name) ∧
      w1.store Key.WIFI_PASSWORD_SYSPARAM = some (Value.str (password_param.value.getD [])) ∧
      ∀ k, k ≠ Key.WIFI_SSID_SYSPARAM → k ≠ Key.WIFI_PASSWORD_SYSPARAM →
        k ≠ Key.WIFI_BSSID_SYSPARAM → w1.store k = w.store k := by
  unfold settings_update_wifi
  simp only [hsid, hname, hpsw]
  cases hv : password_param.value with
  | none =>
    refine ⟨_, rfl, ?_, ?_, ?_⟩
    · repeat' split
      all_goals simp [sysparam_set_string, sysparam_set_data]
    · simp [sysparam_set_string]
    · intro k h1 h2 h3
      repeat' split
      all_goals simp [sysparam_set_string, sysparam_set_data, h1, h2, h3]
  | some v =>
    refine ⟨_, rfl, ?_, ?_, ?_⟩
    · repeat' split
      all_goals simp [sysparam_set_string, sysparam_set_data]
    · simp [sysparam_set_string]
    · intro k h1 h2 h3
      repeat' split
      all_goals simp [sysparam_set_string, sysparam_set_data, h1, h2, h3]

theorem log_extends_refl (w : World) : log_extends w w := ⟨[], (List.append_nil _).symm⟩

theorem log_extends_trans {w w1 w2 : World} (h1 : log_extends w w1) (h2 : log_extends w1 w2) :
    log_extends w w2 := by
  obtain ⟨l1, e1⟩ := h1
  obtain ⟨l2, e2⟩ := h2
  exact ⟨l1 ++ l2, by rw [e2, e1, List.append_assoc]⟩

theorem log_extends_log {w w1 : World} (h : log_extends w w1) (c : Call) :
    log_extends w (w1.log c) :=
  log_extends_trans h ⟨[c], rfl⟩

theorem log_extends_sysparam_set {w w1 : World} (h : log_extends w w1) (k : Key)
    (v : Option Value) : log_extends w (sysparam_set k v w1) :=
  log_extends_trans h ⟨[Call.sysparam_set k v], rfl⟩

theorem mem_new_calls_of_extends {w w1 w2 : World} (h1 : log_extends w w1)
    (h2 : log_extends w1 w2) (c : Call) (hc : c ∈ new_calls w w1) : c ∈ new_calls w w2 := by
  obtain ⟨l1, e1⟩ := h1
  obtain ⟨l2, e2⟩ := h2
  rw [new_calls_append w w1 l1 e1] at hc
  rw [new_calls_append w w2 (l1 ++ l2) (by rw [e2, e1, List.append_assoc])]
  exact List.mem_append_left _ hc

theorem mem_new_calls_sysparam_set {w w1 : World} (h : log_extends w w1) (k : Key)
    (v : Option Value) : Call.sysparam_set k v ∈ new_calls w (sysparam_set k v w1) := by
  obtain ⟨l1, e1⟩ := h
  rw [new_calls_append w _ (l1 ++ [Call.sysparam_set k v])
    (by simp [sysparam_set, e1])]
  simp

theorem remove_saved_states_extends (ids : List Nat) :
    ∀ w : World, log_extends w (remove_saved_states ids w) := by
  induction ids with
  | nil => intro w; exact log_extends_refl w
  | cons id rest ih =>
    intro w
    exact log_extends_trans (log_extends_sysparam_set (log_extends_refl w) _ _) (ih _)

theorem settings_update_script_extends (env : update_env) (form : List form_param_t)
    (w : World) : log_extends w (settings_update_script env form w) := by
  unfold settings_update_script
  simp only []
  repeat' split
  all_goals exact log_extends_sysparam_set (remove_saved_states_extends _ w) _ _

theorem settings_update_repo_extends (form : List form_param_t) (w : World) :
    log_extends w (settings_update_repo form w) := by
  unfold settings_update_repo
  simp only [sysparam_set_data, sysparam_set_string, sysparam_set_int32, sysparam_set_int8]
  repeat' split
  all_goals
    repeat' apply log_extends_sysparam_set
    exact log_extends_refl w

theorem settings_update_flash_mode_extends (env : update_env) (form : List form_param_t)
    (w : World) : log_extends w (settings_update_flash_mode env form w) := by
  unfold settings_update_flash_mode
  repeat' split
  all_goals first
    | exact log_extends_refl w
    | (simp only []
       split_ifs
       all_goals first
         | exact log_extends_refl w
         | exact log_extends_log (log_extends_log (log_extends_refl w) _) _)

theorem settings_update_wifi_mode_extends (form : List form_param_t) (w : World) :
    log_extends w (settings_update_wifi_mode form w) := by
  unfold settings_update_wifi_mode
  repeat' split
  all_goals first
    | exact log_extends_refl w
    | exact log_extends_sysparam_set (log_extends_refl w) _ _

theorem wifi_config_reset_extends (w : World) : log_extends w (wifi_config_reset w) :=
  log_extends_log (log_extends_log (log_extends_log (log_extends_log
    (log_extends_refl w) _) _) _) _

theorem settings_update_reboot_extends (env : update_env) (w : World) :
    log_extends w (settings_update_reboot env w) := by
  unfold settings_update_reboot
  simp only []
  split_ifs
  · exact log_extends_log (log_extends_refl w) _
  · exact log_extends_log (log_extends_log (log_extends_refl w) _) _

theorem settings_update_reboot_last (env : update_env) (w : World) :
    (settings_update_reboot env w).calls.getLast? = some Call.sdk_system_restart := by
  unfold settings_update_reboot
  simp [World.log]

theorem settings_update_wifi_calls (form : List form_param_t) (w : World)
    (ssid_param password_param : form_param_t) (name : List Nat)
    (hsid : form_params_find form str_sid = some ssid_param)
    (hname : ssid_param.value = some name)
    (hpsw : form_params_find form str_psw = some password_param) :
    ∃ w1, settings_update_wifi form w = Except.ok w1 ∧ log_extends w w1 ∧
      Call.sysparam_set Key.WIFI_SSID_SYSPARAM (some (Value.str name)) ∈ new_calls w w1 ∧
      Call.sysparam_set Key.WIFI_PASSWORD_SYSPARAM
        (some (Value.str (password_param.value.getD []))) ∈ new_calls w w1 := by
  unfold settings_update_wifi
  simp only [hsid, hname, hpsw]
  have h1 : log_extends w (sysparam_set_string Key.WIFI_SSID_SYSPARAM name w) :=
    log_extends_sysparam_set (log_extends_refl w) _ _
  have m1 : Call.sysparam_set Key.WIFI_SSID_SYSPARAM (some (Value.str name)) ∈
      new_calls w (sysparam_set_string Key.WIFI_SSID_SYSPARAM name w) :=
    mem_new_calls_sysparam_set (log_extends_refl w) _ _
  generalize sysparam_set_string Key.WIFI_SSID_SYSPARAM name w = wa at h1 m1
  have key : ∀ wb, log_extends wa wb → ∀ pw : List Nat,
      log_extends w (sysparam_set_string Key.WIFI_PASSWORD_SYSPARAM pw wb) ∧
      Call.sysparam_set Key.WIFI_SSID_SYSPARAM (some (Value.str name)) ∈
        new_calls w (sysparam_set_string Key.WIFI_PASSWORD_SYSPARAM pw wb) ∧
      Call.sysparam_set Key.WIFI_PASSWORD_SYSPARAM (some (Value.str pw)) ∈
        new_calls w (sysparam_set_string Key.WIFI_PASSWORD_SYSPARAM pw wb) := by
    intro wb hb pw
    have hwb := log_extends_trans h1 hb
    exact ⟨log_extends_sysparam_set hwb _ _,
      mem_new_calls_of_extends h1
        (log_extends_sysparam_set hb _ _) _ m1,
      mem_new_calls_sysparam_set hwb _ _⟩
  have hb : ∀ v, log_extends wa (sysparam_set_data Key.WIFI_BSSID_SYSPARAM v wa) :=
    fun v => log_extends_sysparam_set (log_extends_refl wa) _ _
  cases hv : password_param.value with
  | none =>
    refine ⟨_, rfl, ?_⟩
    simp only [Option.getD_none]
    repeat' split
    all_goals exact key _ (hb _) []
  | some v =>
    refine ⟨_, rfl, ?_⟩
    simp only [Option.getD_some]
    repeat' split
    all_goals exact key _ (hb _) v

theorem mem_new_calls_shift {w w1 w2 : World} (h1 : log_extends w w1)
    (h2 : log_extends w1 w2) (c : Call) (hc : c ∈ new_calls w1 w2) : c ∈ new_calls w w2 := by
  obtain ⟨l1, e1⟩ := h1
  obtain ⟨l2, e2⟩ := h2
  rw [new_calls_append w1 w2 l2 e2] at hc
  rw [new_calls_append w w2 (l1 ++ l2) (by rw [e2, e1, List.append_assoc])]
  exact List.mem_append_right _ hc

/-- C11: for a form with a network-name field that has a value and a passphrase field
(whose value may be empty), and without the reset flag, the commit step ends normally;
it has written the setup-state 0, that network name and the submitted passphrase (the
empty string when the field is empty), these are what the store holds at the end, and
the last call is the restart. -/
theorem C11_commit_stores_name_passphrase_and_setup_state (env : update_env)
    (form : List form_param_t) (w : World) (ssid_param password_param : form_param_t)
    (name : List Nat)
    (hrsy : form_params_find form str_rsy = none)
    (hsid : form_params_find form str_sid = some ssid_param)
    (hname : ssid_param.value = some name)
    (hpsw : form_params_find form str_psw = some password_param) :
    ∃ w1, wifi_config_server_on_settings_update_task env form w = Except.ok w1 ∧
      sysparam_get_string w1.store Key.WIFI_SSID_SYSPARAM = some name ∧
      sysparam_get_string w1.store Key.WIFI_PASSWORD_SYSPARAM
        = some (password_param.value.getD []) ∧
      sysparam_get_int8 w1.store Key.HAA_SETUP_MODE_SYSPARAM 3 = 0 ∧
      Call.sysparam_set Key.WIFI_SSID_SYSPARAM (some (Value.str name)) ∈ new_calls w w1 ∧
      Call.sysparam_set Key.WIFI_PASSWORD_SYSPARAM
        (some (Value.str (password_param.value.getD []))) ∈ new_calls w w1 ∧
      Call.sysparam_set Key.HAA_SETUP_MODE_SYSPARAM (some (Value.int 0)) ∈ new_calls w w1 ∧
      w1.calls.getLast? = some Call.sdk_system_restart := by
  cases form with
  | nil => simp [form_params_find] at hsid
  | cons p ps =>
    unfold wifi_config_server_on_settings_update_task
    simp only [hrsy]
    have h0 : log_extends w (((w.log Call.sdk_wifi_station_disconnect).log
        Call.wifi_config_context_free).log Call.free_body) :=
      log_extends_log (log_extends_log (log_extends_log (log_extends_refl w) _) _) _
    generalize ((w.log Call.sdk_wifi_station_disconnect).log
        Call.wifi_config_context_free).log Call.free_body = w0 at h0
    have hA : log_extends w0 (if env.HAABOOT = true
        then settings_update_script env (p :: ps) w0 else w0) := by
      split_ifs
      · exact settings_update_script_extends _ _ _
      · exact log_extends_refl _
    generalize (if env.HAABOOT = true
        then settings_update_script env (p :: ps) w0 else w0) = wA at hA
    have hwA := log_extends_trans h0 hA
    have hB := log_extends_sysparam_set hwA Key.HAA_SETUP_MODE_SYSPARAM (some (Value.int 0))
    have mB := mem_new_calls_sysparam_set hwA Key.HAA_SETUP_MODE_SYSPARAM (some (Value.int 0))
    have sB : (sysparam_set_int8 Key.HAA_SETUP_MODE_SYSPARAM 0 wA).store
        Key.HAA_SETUP_MODE_SYSPARAM = some (Value.int 0) := by
      simp [sysparam_set_int8]
    change log_extends w (sysparam_set_int8 Key.HAA_SETUP_MODE_SYSPARAM 0 wA) at hB
    change _ ∈ new_calls w (sysparam_set_int8 Key.HAA_SETUP_MODE_SYSPARAM 0 wA) at mB
    generalize sysparam_set_int8 Key.HAA_SETUP_MODE_SYSPARAM 0 wA = wB at hB mB sB
    have hC := settings_update_repo_extends (p :: ps) wB
    have sC := settings_update_repo_store (p :: ps) wB Key.HAA_SETUP_MODE_SYSPARAM
      (by decide) (by decide) (by decide) (by decide) (by decide) (by decide) (by decide)
      (by decide)
    generalize settings_update_repo (p :: ps) wB = wC at hC sC
    obtain ⟨wD, eD, s1, s2, s3⟩ :=
      settings_update_wifi_ok (p :: ps) wC ssid_param password_param name hsid hname hpsw
    obtain ⟨wD1, eD1, hD, m1, m2⟩ :=
      settings_update_wifi_calls (p :: ps) wC ssid_param password_param name hsid hname hpsw
    have : wD1 = wD := by
      rw [eD] at eD1; cases eD1; rfl
    subst this
    simp only [eD]
    have hwC := log_extends_trans hB hC
    have hwD := log_extends_trans hwC hD
    have hE := settings_update_flash_mode_extends env (p :: ps) wD1
    have sE := settings_update_flash_mode_store env (p :: ps) wD1
    generalize settings_update_flash_mode env (p :: ps) wD1 = wE at hE sE
    have hF : log_extends wE (if env.HAABOOT = true
        then settings_update_wifi_mode (p :: ps) wE else wE) := by
      split_ifs
      · exact settings_update_wifi_mode_extends _ _
      · exact log_extends_refl _
    have sF : ∀ k, k ≠ Key.WIFI_MODE_SYSPARAM → (if env.HAABOOT = true
        then settings_update_wifi_mode (p :: ps) wE else wE).store k = wE.store k := by
      intro k hk
      split_ifs
      · exact settings_update_wifi_mode_store _ _ k hk
      · rfl
    generalize (if env.HAABOOT = true
        then settings_update_wifi_mode (p :: ps) wE else wE) = wF at hF sF
    have hG := wifi_config_reset_extends wF
    have hH := settings_update_reboot_extends env (wifi_config_reset wF)
    have hrest : log_extends wD1 (settings_update_reboot env (wifi_config_reset wF)) :=
      log_extends_trans (log_extends_trans (log_extends_trans hE hF) hG) hH
    have hstore : ∀ k, k ≠ Key.WIFI_MODE_SYSPARAM →
        (settings_update_reboot env (wifi_config_reset wF)).store k = wD1.store k := by
      intro k hk
      rw [settings_update_reboot_store, wifi_config_reset_store, sF k hk, sE]
    refine ⟨_, rfl, ?_, ?_, ?_, ?_, ?_, ?_, settings_update_reboot_last _ _⟩
    · simp [sysparam_get_string, hstore, s1]
    · simp [sysparam_get_string, hstore, s2]
    · simp [sysparam_get_int8, hstore, s3, sC, sB]
    · exact mem_new_calls_of_extends hwD hrest _ (mem_new_calls_shift hwC hD _ m1)
    · exact mem_new_calls_of_extends hwD hrest _ (mem_new_calls_shift hwC hD _ m2)
    · exact mem_new_calls_of_extends hB (log_extends_trans (log_extends_trans hC hD) hrest) _ mB

/-- Witness for C11: the body "sid=Cafe&psw=" on an empty store. -/
theorem C11_commit_stores_name_passphrase_and_setup_state_witness :
    form_params_find form_cafe str_rsy = none ∧
      ∃ w1, wifi_config_server_on_settings_update_task env_installer form_cafe
          (world_of store_empty) = Except.ok w1 ∧
        sysparam_get_string w1.store Key.WIFI_SSID_SYSPARAM = some name_cafe ∧
        sysparam_get_string w1.store Key.WIFI_PASSWORD_SYSPARAM = some [] ∧
        sysparam_get_int8 w1.store Key.HAA_SETUP_MODE_SYSPARAM 3 = 0 ∧
        w1.calls.getLast? = some Call.sdk_system_restart := by
  refine ⟨by decide, ?_⟩
  obtain ⟨w1, h1, h2, h3, h4, _, _, _, h8⟩ :=
    C11_commit_stores_name_passphrase_and_setup_state env_installer form_cafe
      (world_of store_empty) { name := str_sid, value := some name_cafe }
      { name := str_psw, value := none } name_cafe (by decide) (by decide) rfl (by decide)
  exact ⟨w1, h1, h2, h3, h4, h8⟩

/-- C12 (evaluation at the failing input): for a form without the reset flag whose
network-name field has a value and which has no passphrase field, the commit step reads
`password_param->value` through a NULL pointer; it faults after having stored the name and
does not reach the restart. -/
theorem C12_missing_passphrase_field_faults (env : update_env) (form : List form_param_t)
    (w : World) (ssid_param : form_param_t) (name : List Nat)
    (hrsy : form_params_find form str_rsy = none)
    (hsid : form_params_find form str_sid = some ssid_param)
    (hname : ssid_param.value = some name)
    (hpsw : form_params_find form str_psw = none) :
    wifi_config_server_on_settings_update_task env form w = Except.error Fault.null_pointer := by
  cases form with
  | nil => simp [form_params_find] at hsid
  | cons p ps =>
    unfold wifi_config_server_on_settings_update_task
    simp only [hrsy]
    have : ∀ w0, settings_update_wifi (p :: ps) w0 = Except.error Fault.null_pointer := by
      intro w0
      unfold settings_update_wifi
      simp only [hsid, hname, hpsw]
    simp only [this]

/-- Witness for C12: the body "sid=Cafe" on an empty store. -/
theorem C12_missing_passphrase_field_faults_witness :
    form_params_find form_cafe_no_psw str_sid = some { name := str_sid, value := some name_cafe } ∧
      form_params_find form_cafe_no_psw str_psw = none ∧
      wifi_config_server_on_settings_update_task env_installer form_cafe_no_psw
        (world_of store_empty) = Except.error Fault.null_pointer :=
  ⟨by decide, by decide,
    C12_missing_passphrase_field_faults env_installer form_cafe_no_psw (world_of store_empty)
      { name := str_sid, value := some name_cafe } name_cafe (by decide) (by decide) rfl
      (by decide)⟩

theorem settings_update_reset_pairing (w : World) :
    (settings_update_reset w).store Key.HOMEKIT_PAIRING_COUNT_SYSPARAM =
      if sysparam_get_int8 w.store Key.HOMEKIT_PAIRING_COUNT_SYSPARAM (-1) > -1
      then some (Value.int (sysparam_get_int8 w.store Key.HOMEKIT_PAIRING_COUNT_SYSPARAM (-1)))
      else none := by
  unfold settings_update_reset
  simp only []
  repeat' split
  all_goals simp [sysparam_set_int8, sysparam_set_int32, sysparam_set_string,
    setup_mode_reset_sysparam]

/-- C19 (as stated, refuted): a store whose pairing counter is -1 has no pairing counter
after a commit step with the reset flag. -/
theorem C19_counterexample_negative_pairing_counter_dropped :
    (world_of (store_pairing (-1))).store Key.HOMEKIT_PAIRING_COUNT_SYSPARAM
        = some (Value.int (-1)) ∧
      (form_params_find form_reset str_rsy).isSome = true ∧
      ∃ w1, wifi_config_server_on_settings_update_task env_installer form_reset
          (world_of (store_pairing (-1))) = Except.ok w1 ∧
        w1.store Key.HOMEKIT_PAIRING_COUNT_SYSPARAM = none := by
  refine ⟨by decide, by decide, _, rfl, ?_⟩
  rw [settings_update_reboot_store, settings_update_reset_pairing]
  decide

/-- C19 (amended): when the form carries the reset flag, the commit step ends normally
with the restart as its last call, and the pairing counter stored afterwards is: absent
when it was absent before; the value stored before when that was a non-negative 8-bit
value; absent when the value stored before was a negative 8-bit value, which is treated
as absent and not restored. -/
theorem C19_reset_keeps_pairing_counter (env : update_env) (form : List form_param_t)
    (w : World) (hrsy : (form_params_find form str_rsy).isSome = true) :
    ∃ w1, wifi_config_server_on_settings_update_task env form w = Except.ok w1 ∧
      w1.calls.getLast? = some Call.sdk_system_restart ∧
      (w.store Key.HOMEKIT_PAIRING_COUNT_SYSPARAM = none →
        w1.store Key.HOMEKIT_PAIRING_COUNT_SYSPARAM = none) ∧
      (∀ v : Int, w.store Key.HOMEKIT_PAIRING_COUNT_SYSPARAM = some (Value.int v) →
        0 ≤ v → v ≤ 127 →
        w1.store Key.HOMEKIT_PAIRING_COUNT_SYSPARAM = some (Value.int v)) ∧
      (∀ v : Int, w.store Key.HOMEKIT_PAIRING_COUNT_SYSPARAM = some (Value.int v) →
        -128 ≤ v → v < 0 →
        w1.store Key.HOMEKIT_PAIRING_COUNT_SYSPARAM = none) := by
  cases form with
  | nil => simp [form_params_find] at hrsy
  | cons p ps =>
    unfold wifi_config_server_on_settings_update_task
    cases hf : form_params_find (p :: ps) str_rsy with
    | none => rw [hf] at hrsy; simp at hrsy
    | some r =>
      refine ⟨_, rfl, settings_update_reboot_last _ _, ?_, ?_, ?_⟩
      · intro h
        rw [settings_update_reboot_store, settings_update_reset_pairing]
        simp [sysparam_get_int8, h]
      · intro v h h1 _
        rw [settings_update_reboot_store, settings_update_reset_pairing]
        have : v > -1 := by omega
        simp [sysparam_get_int8, h, this]
      · intro v h _ h2
        rw [settings_update_reboot_store, settings_update_reset_pairing]
        have : ¬ (v > -1) := by omega
        simp only [log_store, sysparam_get_int8, h, this, if_false]

/-- Witness for C19 (amended): the body "rsy=1" on a store with pairing counter 3, which
is kept. -/
theorem C19_reset_keeps_pairing_counter_witness :
    (form_params_find form_reset str_rsy).isSome = true ∧
      ∃ w1, wifi_config_server_on_settings_update_task env_installer form_reset
          (world_of (store_pairing 3)) = Except.ok w1 ∧
        w1.calls.getLast? = some Call.sdk_system_restart ∧
        w1.store Key.HOMEKIT_PAIRING_COUNT_SYSPARAM = some (Value.int 3) := by
  refine ⟨by decide, ?_⟩
  obtain ⟨w1, h1, h2, _, h4, _⟩ :=
    C19_reset_keeps_pairing_counter env_installer form_reset (world_of (store_pairing 3))
      (by decide)
  exact ⟨w1, h1, h2, h4 3 (by decide) (by decide) (by decide)⟩

/-! ## Setup mode: auto-reboot timer -/

/-- C13 (as stated, refuted): on an empty store (setup-state absent, read as 3)
`wifi_config_station_connect` starts the access point and the HTTP task without creating
or starting any timer, and the context keeps a null timer handle. -/
theorem C13_counterexample_no_timer_when_never_configured :
    Call.xTaskCreate Task.http_task ∈
        (wifi_config_station_connect [49] true context_init (world_of store_empty)).2.calls ∧
      (∀ p, Call.esp_timer_create p ∉
        (wifi_config_station_connect [49] true context_init (world_of store_empty)).2.calls) ∧
      (∀ t, Call.esp_timer_start_forced t ∉
        (wifi_config_station_connect [49] true context_init (world_of store_empty)).2.calls) ∧
      (wifi_config_station_connect [49] true context_init
        (world_of store_empty)).1.auto_reboot_timer = none := by
  have hc : ∀ p, wifi_config_connect [49] true p (world_of store_empty)
      = (0, sysparam_set_string Key.INSTALLER_VERSION_SYSPARAM [49] (world_of store_empty)) :=
    fun p => wifi_config_connect_no_ssid [49] true p (world_of store_empty) rfl
  have hs : sysparam_get_int8 (world_of store_empty).store Key.HAA_SETUP_MODE_SYSPARAM 3 = 3 :=
    rfl
  unfold wifi_config_station_connect
  simp only [hc, hs]
  refine ⟨?_, ?_, ?_, ?_⟩
  · simp [softap_start_calls]
  · intro p
    simp [softap_start_calls, sysparam_set_int8, sysparam_set_string, sysparam_set, World.log,
      world_of]
  · intro t
    simp [softap_start_calls, sysparam_set_int8, sysparam_set_string, sysparam_set, World.log,
      world_of]
  · simp [context_init, wifi_config_init]

/-- C14 (as stated, refuted): a GET for "/x" is the unknown route, and completing it
sends the redirect without any call that changes the period of the auto-reboot timer. -/
theorem C14_counterexample_unknown_route_leaves_timer :
    (wifi_config_server_on_url (client_of http_method.HTTP_GET) url_x).endpoint
        = endpoint_t.ENDPOINT_UNKNOWN ∧
      Call.client_send_redirect 301 str_sn ∈
        new_calls (world_of store_empty)
          (wifi_config_server_on_message_complete true
            (wifi_config_server_on_url (client_of http_method.HTTP_GET) url_x)
            context_with_timer (world_of store_empty)).2 ∧
      ∀ t p, Call.esp_timer_change_period_forced t p ∉
        new_calls (world_of store_empty)
          (wifi_config_server_on_message_complete true
            (wifi_config_server_on_url (client_of http_method.HTTP_GET) url_x)
            context_with_timer (world_of store_empty)).2 := by
  refine ⟨by decide, by decide, ?_⟩
  intro t p
  simp [wifi_config_server_on_message_complete, wifi_config_server_on_url, client_of, url_x,
    str_sn, str_slash, strncmp, peek, new_calls, World.log, world_of]

/-- C14 (amended): completing a request on the settings route or on the settings-update
route resets the auto-reboot timer of the context to the long timeout; completing one on
the index route or on the unknown route sends the redirect to "/sn" and makes no call
on the timer. -/
theorem C14_timer_reset_on_settings_routes_only (mutex_taken : Bool) (client : client_t)
    (context : wifi_config_context_t) (w : World) :
    ((client.endpoint = endpoint_t.ENDPOINT_SETTINGS ∨
        client.endpoint = endpoint_t.ENDPOINT_SETTINGS_UPDATE) →
      Call.esp_timer_change_period_forced context.auto_reboot_timer
          TimerPeriod.AUTO_REBOOT_LONG_TIMEOUT ∈
        new_calls w (wifi_config_server_on_message_complete mutex_taken client context w).2) ∧
    ((client.endpoint = endpoint_t.ENDPOINT_INDEX ∨
        client.endpoint = endpoint_t.ENDPOINT_UNKNOWN) →
      Call.client_send_redirect 301 str_sn ∈
          new_calls w (wifi_config_server_on_message_complete mutex_taken client context w).2 ∧
        ∀ t p, Call.esp_timer_change_period_forced t p ∉
          new_calls w (wifi_config_server_on_message_complete mutex_taken client context w).2) := by
  constructor
  · rintro (h | h)
    · unfold wifi_config_server_on_message_complete
      simp only [h]
      split <;> simp [new_calls, wifi_config_server_on_settings, World.log]
    · unfold wifi_config_server_on_message_complete
      simp only [h]
      split_ifs <;> simp [new_calls, World.log]
  · rintro (h | h)
    · unfold wifi_config_server_on_message_complete
      simp only [h]
      split <;> simp [new_calls, World.log]
    · unfold wifi_config_server_on_message_complete
      simp only [h]
      split <;> simp [new_calls, World.log]

/-! ## Supervisor: persisted mode and link-layer announcements -/

/-- C15 (as stated, refuted): with the mode 11B in effect when the IP is obtained, the
supervisor persists 3, and passing 3 to `wifi_config_toggle_phy_mode` selects 11N. -/
theorem C15_counterexample_11b_persisted_as_11n :
    world_11b.phy_mode = PhyMode.PHY_MODE_11B ∧
      (sta_connect_timeout_poll [49] true true context_init world_11b).1 = poll_branch.got_ip ∧
      sysparam_get_int8 (sta_connect_timeout_poll [49] true true context_init world_11b).2.2.store
        Key.WIFI_LAST_WORKING_PHY_SYSPARAM 0 = 3 ∧
      (wifi_config_toggle_phy_mode
        (to_uint8 (sysparam_get_int8
          (sta_connect_timeout_poll [49] true true context_init world_11b).2.2.store
          Key.WIFI_LAST_WORKING_PHY_SYSPARAM 0))
        (sta_connect_timeout_poll [49] true true context_init world_11b).2.2).phy_mode
        = PhyMode.PHY_MODE_11N := by
  refine ⟨rfl, rfl, by decide, by decide⟩

/-- C15 (amended): with the mode 11G or 11N in effect when the IP is obtained, the
supervisor persists 2 for 11G and 3 for 11N, and passing the persisted value to
`wifi_config_toggle_phy_mode` selects that same mode again, whatever mode the radio is
in at that time. -/
theorem C15_persisted_mode_selects_working_mode (iv : List Nat) (task_ok : Bool)
    (context : wifi_config_context_t) (w : World)
    (h : w.phy_mode = PhyMode.PHY_MODE_11G ∨ w.phy_mode = PhyMode.PHY_MODE_11N) :
    (sta_connect_timeout_poll iv task_ok true context w).1 = poll_branch.got_ip ∧
      sysparam_get_int8 (sta_connect_timeout_poll iv task_ok true context w).2.2.store
        Key.WIFI_LAST_WORKING_PHY_SYSPARAM 0
        = (if w.phy_mode = PhyMode.PHY_MODE_11G then 2 else 3) ∧
      ∀ w1 : World,
        (wifi_config_toggle_phy_mode
          (to_uint8 (sysparam_get_int8
            (sta_connect_timeout_poll iv task_ok true context w).2.2.store
            Key.WIFI_LAST_WORKING_PHY_SYSPARAM 0)) w1).phy_mode = w.phy_mode := by
  have hst : sysparam_get_int8 (sta_connect_timeout_poll iv task_ok true context w).2.2.store
      Key.WIFI_LAST_WORKING_PHY_SYSPARAM 0
      = (if w.phy_mode = PhyMode.PHY_MODE_11G then 2 else 3) := by
    simp [sta_connect_timeout_poll, sysparam_set_int8, sysparam_get_int8, World.log]
  refine ⟨by simp [sta_connect_timeout_poll], hst, ?_⟩
  intro w1
  rw [hst]
  rcases h with h | h
  · rw [h]; rfl
  · rw [h]; rfl

/-- Witness for C15 (amended): the radio in the mode 11N. -/
theorem C15_persisted_mode_selects_working_mode_witness :
    (world_of store_home_only).phy_mode = PhyMode.PHY_MODE_11N ∧
      ∀ w1 : World,
        (wifi_config_toggle_phy_mode
          (to_uint8 (sysparam_get_int8
            (sta_connect_timeout_poll [49] true true context_init
              (world_of store_home_only)).2.2.store
            Key.WIFI_LAST_WORKING_PHY_SYSPARAM 0)) w1).phy_mode
          = (world_of store_home_only).phy_mode :=
  ⟨rfl,
    (C15_persisted_mode_selects_working_mode [49] true context_init (world_of store_home_only)
      (Or.inr rfl)).2.2⟩

set_option maxRecDepth 100000 in
theorem branch_at_160 :
    ((List.range' 1 241).map branch_at)[159]? = some poll_branch.forced_reconnect := by
  decide

/-! ## Smart-Connect handoff -/

/-- C17 (as stated, refuted): in the handoff to a selected access point
`wifi_smart_connect_task` sets the auto-connect flag of the radio to true and never to
false. -/
theorem C17_counterexample_auto_connect_set_true :
    Call.sdk_wifi_station_set_auto_connect true ∈
        (wifi_smart_connect_task bssid_a (world_of store_home_only)).calls ∧
      Call.sdk_wifi_station_set_auto_connect false ∉
        (wifi_smart_connect_task bssid_a (world_of store_home_only)).calls ∧
      (wifi_smart_connect_task bssid_a (world_of store_home_only)).calls.getLast?
        = some Call.sdk_wifi_station_connect := by
  decide

/-- C17 (amended): with a network name stored, `wifi_smart_connect_task` writes the
selected BSSID, disconnects, configures the station with the stored name and passphrase
pinned to the selected BSSID (`bssid_set` = 1 with those six bytes), sets the
auto-connect flag to true, selects the physical-layer mode and only then connects. -/
theorem C17_handoff_pins_bssid_then_connects (best_bssid : Bssid) (w : World)
    (name : List Nat)
    (hs : sysparam_get_string w.store Key.WIFI_SSID_SYSPARAM = some name) :
    ∃ phy_calls : List Call,
      new_calls w (wifi_smart_connect_task best_bssid w) =
        [Call.sysparam_set Key.WIFI_BSSID_SYSPARAM (some (Value.data best_bssid.bytes)),
          Call.sdk_wifi_station_disconnect,
          Call.sdk_wifi_station_set_config
            { ssid := sta_config_ssid name
              password := sta_config_password
                (sysparam_get_string w.store Key.WIFI_PASSWORD_SYSPARAM)
              bssid_set := 1
              bssid := best_bssid.bytes },
          Call.sdk_wifi_station_set_auto_connect true] ++ phy_calls ++
        [Call.sdk_wifi_station_connect] ∧
      ∀ c ∈ phy_calls, ∃ m, c = Call.sdk_wifi_set_phy_mode m := by
  have hs1 : sysparam_get_string (w.store.put Key.WIFI_BSSID_SYSPARAM
      (some (Value.data best_bssid.bytes))) Key.WIFI_SSID_SYSPARAM = some name := by
    rw [get_string_put_of_ne _ _ _ _ (by decide)]; exact hs
  have hp1 : sysparam_get_string (w.store.put Key.WIFI_BSSID_SYSPARAM
      (some (Value.data best_bssid.bytes))) Key.WIFI_PASSWORD_SYSPARAM
      = sysparam_get_string w.store Key.WIFI_PASSWORD_SYSPARAM :=
    get_string_put_of_ne _ _ _ _ (by decide)
  unfold wifi_smart_connect_task
  simp only [sysparam_set_data, sysparam_set, Option.map_some', World.log, hs1, hp1]
  obtain ⟨l, hl, hl2⟩ := toggle_phy_mode_calls
    (to_uint8 (sysparam_get_int8 (w.store.put Key.WIFI_BSSID_SYSPARAM
      (some (Value.data best_bssid.bytes))) Key.WIFI_LAST_WORKING_PHY_SYSPARAM 3))
    { store := w.store.put Key.WIFI_BSSID_SYSPARAM (some (Value.data best_bssid.bytes)),
      opmode := w.opmode, phy_mode := w.phy_mode, got_ip := w.got_ip,
      netif_up := w.netif_up, softap_macaddr := w.softap_macaddr,
      calls := w.calls ++ [Call.sysparam_set Key.WIFI_BSSID_SYSPARAM
        (some (Value.data best_bssid.bytes))] ++ [Call.sdk_wifi_station_disconnect] ++
        [Call.sdk_wifi_station_set_config
          { ssid := sta_config_ssid name,
            password := sta_config_password
              (sysparam_get_string w.store Key.WIFI_PASSWORD_SYSPARAM),
            bssid_set := 1, bssid := best_bssid.bytes }] ++
        [Call.sdk_wifi_station_set_auto_connect true] }
  refine ⟨l, ?_, hl2⟩
  apply new_calls_append
  rw [hl]
  simp

/-- Witness for C17 (amended): the store that holds the name "Home". -/
theorem C17_handoff_pins_bssid_then_connects_witness :
    sysparam_get_string (world_of store_home_only).store Key.WIFI_SSID_SYSPARAM
        = some name_home ∧
      ∃ phy_calls : List Call,
        new_calls (world_of store_home_only)
            (wifi_smart_connect_task bssid_a (world_of store_home_only)) =
          [Call.sysparam_set Key.WIFI_BSSID_SYSPARAM (some (Value.data bssid_a.bytes)),
            Call.sdk_wifi_station_disconnect,
            Call.sdk_wifi_station_set_config
              { ssid := sta_config_ssid name_home
                password := sta_config_password
                  (sysparam_get_string (world_of store_home_only).store
                    Key.WIFI_PASSWORD_SYSPARAM)
                bssid_set := 1
                bssid := bssid_a.bytes },
            Call.sdk_wifi_station_set_auto_connect true] ++ phy_calls ++
          [Call.sdk_wifi_station_connect] ∧
        ∀ c ∈ phy_calls, ∃ m, c = Call.sdk_wifi_set_phy_mode m :=
  ⟨by decide,
    C17_handoff_pins_bssid_then_connects bssid_a (world_of store_home_only) name_home
      (by decide)⟩

/-! ## Access-point name -/

theorem strlen_take (l : List Nat) : ∀ n, strlen (l.take n) = min n (strlen l) := by
  induction l with
  | nil => intro n; simp [strlen]
  | cons c rest ih =>
    intro n
    cases n with
    | zero => simp [strlen]
    | succ n =>
      simp only [List.take_succ_cons, strlen]
      split_ifs
      · simp
      · rw [ih]; omega

set_option maxRecDepth 100000 in
theorem fmt_02X_length : ∀ b, b < 256 → (fmt_02X b).length = 2 := by
  decide

theorem softap_ssid_text_length (pfx : List Nat) (xHandle : Option Task) (mac : Bssid)
    (h3 : mac.b3 < 256) (h4 : mac.b4 < 256) (h5 : mac.b5 < 256) :
    (softap_ssid_text (wifi_config_context_t.ssid_prefix (wifi_config_init pfx xHandle))
      mac).length = min 26 (strlen pfx) + 7 := by
  have hl := strlen_le_length ((pfx.take (strlen pfx)).take 26)
  have hs : strlen ((pfx.take (strlen pfx)).take 26) = min 26 (strlen pfx) := by
    rw [strlen_take, strlen_take]; omega
  simp only [softap_ssid_text, wifi_config_init, List.length_append, List.length_take,
    fmt_02X_length _ h3, fmt_02X_length _ h4, fmt_02X_length _ h5, List.length_singleton, hs]
  simp only [List.length_take] at hl
  omega

/-- C18 (evaluation at the failing input): for a name passed to `wifi_config_init` of 25
bytes or more and any hardware address, the text "name-XXXXXX" has the retained name
(at most 26 bytes) plus 7 bytes, `ssid_len` records that full length, and the SSID field
holds only the first 31 bytes of it; for a name of 26 bytes or more `ssid_len` is 33,
which exceeds the 32-byte field. -/
theorem C18_long_name_overruns_ssid_field (pfx : List Nat) (xHandle : Option Task) (w : World)
    (hp : 25 ≤ strlen pfx) (h3 : w.softap_macaddr.b3 < 256) (h4 : w.softap_macaddr.b4 < 256)
    (h5 : w.softap_macaddr.b5 < 256) :
    ∃ config, Call.sdk_wifi_softap_set_config config ∈
        new_calls w (wifi_config_softap_start (wifi_config_init pfx xHandle) w) ∧
      config.ssid = (softap_ssid_text
        (wifi_config_context_t.ssid_prefix (wifi_config_init pfx xHandle))
        w.softap_macaddr).take 31 ∧
      config.ssid.length = 31 ∧
      config.ssid_len = min 26 (strlen pfx) + 7 ∧
      config.ssid.length < config.ssid_len ∧
      (26 ≤ strlen pfx → config.ssid_len = 33) := by
  have hlen := softap_ssid_text_length pfx xHandle w.softap_macaddr h3 h4 h5
  refine ⟨{ ssid := (softap_ssid_text
                (wifi_config_context_t.ssid_prefix (wifi_config_init pfx xHandle))
                w.softap_macaddr).take 31
            ssid_len := (softap_ssid_text
                (wifi_config_context_t.ssid_prefix (wifi_config_init pfx xHandle))
                w.softap_macaddr).length % 256
            ssid_hidden := 0
            channel := 6
            authmode := AUTH_OPEN
            max_connection := 2
            beacon_interval := 100 }, ?_, rfl, ?_, ?_, ?_, ?_⟩
  · rw [new_calls_append w _ _ (softap_start_calls _ w)]
    simp
  · simp only [List.length_take, hlen]; omega
  · simp only [hlen]; omega
  · simp only [List.length_take, hlen]; omega
  · intro h26
    simp only [hlen]; omega

/-- Witness for C18: a name of 26 bytes. -/
theorem C18_long_name_overruns_ssid_field_witness :
    strlen pfx_26 = 26 ∧
      ∃ config, Call.sdk_wifi_softap_set_config config ∈
          new_calls (world_of store_empty)
            (wifi_config_softap_start (wifi_config_init pfx_26 (some Task.ota_task))
              (world_of store_empty)) ∧
        config.ssid.length = 31 ∧ config.ssid_len = 33 := by
  refine ⟨by decide, ?_⟩
  obtain ⟨config, h1, _, h3, _, _, h6⟩ :=
    C18_long_name_overruns_ssid_field pfx_26 (some Task.ota_task) (world_of store_empty)
      (by decide) (by decide) (by decide) (by decide)
  exact ⟨config, h1, h3, h6 (by decide)⟩

/-! ## Discovered-network entries -/

theorem strlen_append_of_no_zero (a b : List Nat) (h : 0 ∉ a) :
    strlen (a ++ b) = a.length + strlen b := by
  induction a with
  | nil => simp
  | cons c rest ih =>
    have hc : c ≠ 0 := fun hc => h (by simp [hc])
    have hr : 0 ∉ rest := fun hr => h (by simp [hr])
    have e1 : strlen (c :: (rest ++ b)) = strlen (rest ++ b) + 1 := by simp [strlen, hc]
    rw [List.cons_append, e1, ih hr, List.length_cons]
    omega

theorem itoa_weak_signal (r : Int) (h1 : -128 ≤ r) (h2 : r ≤ -100) :
    (itoa r).length = 4 ∧ 0 ∉ itoa r := by
  interval_cases r <;> decide

set_option maxRecDepth 100000 in
theorem itoa_high_channel :
    ∀ c : Nat, c < 256 → 100 ≤ c → (itoa (c : Int)).length = 3 ∧ 0 ∉ itoa (c : Int) := by
  decide

/-- C20 (evaluation at the failing input): for a scan result whose signal is between -128
and -100, the text `itoa` writes into `rssi[4]` takes 5 bytes with its terminator, one
more than the field: the field is left with four digits and no terminator, so read as
a string it runs on into the channel text. Likewise a channel between 100 and 255 takes
4 bytes in `channel[3]`. -/
theorem C20_weak_signal_text_overruns_rssi_field (bss : sdk_bss_info)
    (h1 : -128 ≤ bss.rssi) (h2 : bss.rssi ≤ -100) :
    (itoa bss.rssi ++ [0]).length = 5 ∧
      (new_net bss).rssi = itoa bss.rssi ∧
      (new_net bss).rssi.length = 4 ∧
      0 ∉ (new_net bss).rssi ∧
      strlen ((new_net bss).rssi ++ (new_net bss).channel)
        = 4 + strlen (new_net bss).channel ∧
      (100 ≤ bss.channel → bss.channel < 256 →
        (itoa bss.channel ++ [0]).length = 4 ∧ 0 ∉ (new_net bss).channel) := by
  obtain ⟨hlen, hz⟩ := itoa_weak_signal bss.rssi h1 h2
  have hf : (new_net bss).rssi = itoa bss.rssi := by
    simp only [new_net, field]
    rw [List.take_append_of_le_length (by omega), List.take_of_length_le (by omega)]
  refine ⟨by simp [hlen], hf, by rw [hf, hlen], by rw [hf]; exact hz, ?_, ?_⟩
  · rw [strlen_append_of_no_zero _ _ (by rw [hf]; exact hz), hf, hlen]
  · intro hc1 hc2
    obtain ⟨hl, hz2⟩ := itoa_high_channel bss.channel hc2 hc1
    refine ⟨by simp [hl], ?_⟩
    have : (new_net bss).channel = itoa bss.channel := by
      simp only [new_net, field]
      rw [List.take_append_of_le_length (by omega), List.take_of_length_le (by omega)]
    rw [this]; exact hz2

/-- Witness for C20: "Home" at signal -100 on channel 6, whose signal field then reads
as the five characters "-1006". -/
theorem C20_weak_signal_text_overruns_rssi_field_witness :
    (itoa bss_home_minus_100.rssi ++ [0]).length = 5 ∧
      (new_net bss_home_minus_100).rssi = [45, 49, 48, 48] ∧
      (new_net bss_home_minus_100).channel = [54, 0, 0] ∧
      strlen ((new_net bss_home_minus_100).rssi ++ (new_net bss_home_minus_100).channel) = 5 := by
  obtain ⟨h1, _, _, _, h5, _⟩ :=
    C20_weak_signal_text_overruns_rssi_field bss_home_minus_100 (by decide) (by decide)
  exact ⟨h1, by decide, by decide, by rw [h5]; decide⟩

/-! ## Alternation of station mode and setup mode -/

theorem toggle_phy_mode_extends (phy : Nat) (w : World) :
    log_extends w (wifi_config_toggle_phy_mode phy w) := by
  obtain ⟨l, hl, _⟩ := toggle_phy_mode_calls phy w
  exact ⟨l, hl⟩

theorem wifi_config_smart_connect_extends (task_ok : Bool) (w : World) :
    log_extends w (wifi_config_smart_connect task_ok w) := by
  unfold wifi_config_smart_connect
  simp only []
  split_ifs
  all_goals first
    | exact log_extends_refl w
    | exact log_extends_log (log_extends_refl w) _

theorem wifi_config_smart_connect_store (task_ok : Bool) (w : World) :
    (wifi_config_smart_connect task_ok w).store = w.store := by
  unfold wifi_config_smart_connect
  simp only []
  split_ifs <;> rfl

theorem wifi_config_connect_with_ssid (iv : List Nat) (task_ok : Bool) (phy : Nat) (w : World)
    (name : List Nat)
    (hn : sysparam_get_string w.store Key.WIFI_SSID_SYSPARAM = some name) :
    (wifi_config_connect iv task_ok phy w).1 = 1 ∧
      (wifi_config_connect iv task_ok phy w).2.opmode = OpMode.STATION_MODE ∧
      (wifi_config_connect iv task_ok phy w).2.store Key.WIFI_SSID_SYSPARAM
        = w.store Key.WIFI_SSID_SYSPARAM ∧
      (wifi_config_connect iv task_ok phy w).2.store Key.HAA_SETUP_MODE_SYSPARAM
        = w.store Key.HAA_SETUP_MODE_SYSPARAM ∧
      log_extends w (wifi_config_connect iv task_ok phy w).2 := by
  have hn1 : sysparam_get_string
      (sysparam_set_string Key.INSTALLER_VERSION_SYSPARAM iv w).store Key.WIFI_SSID_SYSPARAM
      = some name := by
    simp only [sysparam_set_string, sysparam_set]
    rw [get_string_put_of_ne _ _ _ _ (by decide)]; exact hn
  have h0 : log_extends w (sysparam_set_string Key.INSTALLER_VERSION_SYSPARAM iv w) :=
    log_extends_sysparam_set (log_extends_refl w) _ _
  have s1 : (sysparam_set_string Key.INSTALLER_VERSION_SYSPARAM iv w).store
      Key.WIFI_SSID_SYSPARAM = w.store Key.WIFI_SSID_SYSPARAM := by
    simp [sysparam_set_string]
  have s2 : (sysparam_set_string Key.INSTALLER_VERSION_SYSPARAM iv w).store
      Key.HAA_SETUP_MODE_SYSPARAM = w.store Key.HAA_SETUP_MODE_SYSPARAM := by
    simp [sysparam_set_string]
  unfold wifi_config_connect
  simp only [hn1]
  generalize sysparam_set_string Key.INSTALLER_VERSION_SYSPARAM iv w = wa at h0 s1 s2
  have hr : log_extends w ((wifi_config_reset wa).log Call.sdk_wifi_station_disconnect) :=
    log_extends_log (log_extends_trans h0 (wifi_config_reset_extends wa)) _
  have sr : ((wifi_config_reset wa).log Call.sdk_wifi_station_disconnect).store = wa.store :=
    rfl
  generalize (wifi_config_reset wa).log Call.sdk_wifi_station_disconnect = wb at hr sr
  split_ifs with hm h4
  · refine ⟨rfl, ?_, ?_, ?_, ?_⟩
    · simp [toggle_phy_mode_opmode, sdk_wifi_set_opmode]
    · simp [toggle_phy_mode_store, sdk_wifi_set_opmode, sr, s1]
    · simp [toggle_phy_mode_store, sdk_wifi_set_opmode, sr, s2]
    · refine log_extends_log (log_extends_trans ?_ (toggle_phy_mode_extends _ _)) _
      exact log_extends_log (log_extends_log
        (log_extends_trans hr ⟨[Call.sdk_wifi_set_opmode OpMode.STATION_MODE], rfl⟩) _) _
  · refine ⟨rfl, ?_, ?_, ?_, ?_⟩
    · simp [toggle_phy_mode_opmode, sdk_wifi_set_opmode]
    · simp [toggle_phy_mode_store, sdk_wifi_set_opmode, sysparam_set_data, sr, s1]
    · simp [toggle_phy_mode_store, sdk_wifi_set_opmode, sysparam_set_data, sr, s2]
    · refine log_extends_log (log_extends_trans ?_ (toggle_phy_mode_extends _ _)) _
      exact log_extends_log (log_extends_log
        (log_extends_trans (log_extends_sysparam_set hr _ _)
          ⟨[Call.sdk_wifi_set_opmode OpMode.STATION_MODE], rfl⟩) _) _
  · refine ⟨rfl, ?_, ?_, ?_, ?_⟩
    · simp [toggle_phy_mode_opmode, sdk_wifi_set_opmode, wifi_config_smart_connect_opmode]
    · simp [toggle_phy_mode_store, sdk_wifi_set_opmode, sysparam_set_data, sr, s1,
        wifi_config_smart_connect_store]
    · simp [toggle_phy_mode_store, sdk_wifi_set_opmode, sysparam_set_data, sr, s2,
        wifi_config_smart_connect_store]
    · refine log_extends_trans (log_extends_trans ?_ (toggle_phy_mode_extends _ _))
        (wifi_config_smart_connect_extends _ _)
      exact log_extends_log (log_extends_log
        (log_extends_trans (log_extends_sysparam_set hr _ _)
          ⟨[Call.sdk_wifi_set_opmode OpMode.STATION_MODE], rfl⟩) _) _

theorem station_connect_station_run (iv : List Nat) (task_ok : Bool)
    (context : wifi_config_context_t) (w : World) (name : List Nat)
    (hn : sysparam_get_string w.store Key.WIFI_SSID_SYSPARAM = some name)
    (h0 : sysparam_get_int8 w.store Key.HAA_SETUP_MODE_SYSPARAM 3 = 0) :
    (wifi_config_station_connect iv task_ok context w).1.sta_connect_timeout
        = some Task.wifi_config_sta_connect_timeout_task ∧
      Call.xTaskCreate Task.wifi_config_sta_connect_timeout_task
        ∈ new_calls w (wifi_config_station_connect iv task_ok context w).2 ∧
      (wifi_config_station_connect iv task_ok context w).2.opmode = OpMode.STATION_MODE ∧
      sysparam_get_int8 (wifi_config_station_connect iv task_ok context w).2.store
        Key.HAA_SETUP_MODE_SYSPARAM 3 = 1 ∧
      sysparam_get_string (wifi_config_station_connect iv task_ok context w).2.store
        Key.WIFI_SSID_SYSPARAM = some name := by
  obtain ⟨c1, c2, c3, _, c5⟩ := wifi_config_connect_with_ssid iv task_ok
    (to_uint8 (sysparam_get_int8 w.store Key.WIFI_LAST_WORKING_PHY_SYSPARAM 0)) w name hn
  unfold wifi_config_station_connect
  simp only [c1, h0, and_self, if_true]
  generalize (wifi_config_connect iv task_ok
    (to_uint8 (sysparam_get_int8 w.store Key.WIFI_LAST_WORKING_PHY_SYSPARAM 0)) w).2 = wc
    at c2 c3 c5
  refine ⟨trivial, ?_, ?_, ?_, ?_⟩
  · obtain ⟨l, hl⟩ := c5
    rw [new_calls_append w _ (l ++ [Call.sysparam_set Key.HAA_SETUP_MODE_SYSPARAM
      (some (Value.int 1)), Call.xTaskCreate Task.wifi_config_sta_connect_timeout_task])
      (by simp [sysparam_set_int8, sysparam_set, World.log, hl])]
    simp
  · simpa [sysparam_set_int8, sysparam_set] using c2
  · simp [sysparam_get_int8, sysparam_set_int8]
  · simp only [sysparam_get_string, log_store, sysparam_set_int8, sysparam_set_store]
    rw [if_neg (by decide), c3]
    simpa [sysparam_get_string] using hn

theorem mem_new_calls_log {w w1 : World} (h : log_extends w w1) (c : Call) :
    c ∈ new_calls w (w1.log c) := by
  obtain ⟨l1, e1⟩ := h
  rw [new_calls_append w _ (l1 ++ [c]) (by simp [World.log, e1])]
  simp

theorem softap_start_extends (context : wifi_config_context_t) (w : World) :
    log_extends w (wifi_config_softap_start context w) :=
  ⟨_, softap_start_calls context w⟩

theorem softap_start_creates_http_task (context : wifi_config_context_t) (w : World) :
    Call.xTaskCreate Task.http_task ∈ new_calls w (wifi_config_softap_start context w) := by
  rw [new_calls_append w _ _ (softap_start_calls context w)]
  simp

theorem station_connect_setup_run (iv : List Nat) (task_ok : Bool)
    (context : wifi_config_context_t) (w : World) (name : List Nat)
    (hn : sysparam_get_string w.store Key.WIFI_SSID_SYSPARAM = some name)
    (h1 : sysparam_get_int8 w.store Key.HAA_SETUP_MODE_SYSPARAM 3 = 1) :
    (wifi_config_station_connect iv task_ok context w).1.auto_reboot_timer
        = some { period := TimerPeriod.AUTO_REBOOT_TIMEOUT } ∧
      Call.esp_timer_start_forced (some { period := TimerPeriod.AUTO_REBOOT_TIMEOUT })
        ∈ new_calls w (wifi_config_station_connect iv task_ok context w).2 ∧
      Call.xTaskCreate Task.http_task
        ∈ new_calls w (wifi_config_station_connect iv task_ok context w).2 ∧
      (wifi_config_station_connect iv task_ok context w).2.opmode = OpMode.STATIONAP_MODE ∧
      sysparam_get_int8 (wifi_config_station_connect iv task_ok context w).2.store
        Key.HAA_SETUP_MODE_SYSPARAM 3 = 0 ∧
      sysparam_get_string (wifi_config_station_connect iv task_ok context w).2.store
        Key.WIFI_SSID_SYSPARAM = some name := by
  obtain ⟨_, _, c3, _, c5⟩ := wifi_config_connect_with_ssid iv task_ok
    (to_uint8 (sysparam_get_int8 w.store Key.WIFI_LAST_WORKING_PHY_SYSPARAM 0)) w name hn
  unfold wifi_config_station_connect
  simp only [h1, one_ne_zero, and_false, if_false, if_true]
  generalize (wifi_config_connect iv task_ok
    (to_uint8 (sysparam_get_int8 w.store Key.WIFI_LAST_WORKING_PHY_SYSPARAM 0)) w).2 = wc
    at c3 c5
  have e1 : log_extends w ((sysparam_set_int8 Key.HAA_SETUP_MODE_SYSPARAM 0
      (wc.log (Call.vTaskDelete context.ota_task))).log
      (Call.esp_timer_create TimerPeriod.AUTO_REBOOT_TIMEOUT)) :=
    log_extends_log (log_extends_sysparam_set (log_extends_log c5 _) _ _) _
  have e2 := log_extends_log e1
    (Call.esp_timer_start_forced (some { period := TimerPeriod.AUTO_REBOOT_TIMEOUT }))
  refine ⟨trivial, ?_, ?_, rfl, ?_, ?_⟩
  · exact mem_new_calls_of_extends e2 (softap_start_extends _ _) _ (mem_new_calls_log e1 _)
  · exact mem_new_calls_shift e2 (softap_start_extends _ _) _
      (softap_start_creates_http_task _ _)
  · simp [sysparam_get_int8, sysparam_set_int8, wifi_config_softap_start, sdk_wifi_set_opmode]
  · have : (wifi_config_softap_start
        { context with auto_reboot_timer := some { period := TimerPeriod.AUTO_REBOOT_TIMEOUT } }
        (((sysparam_set_int8 Key.HAA_SETUP_MODE_SYSPARAM 0
          (wc.log (Call.vTaskDelete context.ota_task))).log
          (Call.esp_timer_create TimerPeriod.AUTO_REBOOT_TIMEOUT)).log
          (Call.esp_timer_start_forced
            (some { period := TimerPeriod.AUTO_REBOOT_TIMEOUT })))).store
        Key.WIFI_SSID_SYSPARAM = wc.store Key.WIFI_SSID_SYSPARAM := by
      simp [wifi_config_softap_start, sdk_wifi_set_opmode, sysparam_set_int8]
    simp only [sysparam_get_string] at hn ⊢
    rw [this, c3]
    exact hn

/-- C21: with a network name stored and a stored setup-state of 0, three successive
runs of `wifi_config_station_connect`, each starting from a store that agrees with the
one the previous run left on the network name and the setup-state, alternate: the first
takes the station path (supervisor created, radio in station mode, setup-state left at
1), the second enters access-point setup with the auto-reboot timer created and started
(setup-state left at 0), the third takes the station path again. -/
theorem C21_station_and_setup_runs_alternate (iv : List Nat) (task_ok : Bool)
    (c1 c2 c3 : wifi_config_context_t) (w1 w2 w3 : World) (name : List Nat)
    (hn : sysparam_get_string w1.store Key.WIFI_SSID_SYSPARAM = some name)
    (h0 : sysparam_get_int8 w1.store Key.HAA_SETUP_MODE_SYSPARAM 3 = 0)
    (hn2 : sysparam_get_string w2.store Key.WIFI_SSID_SYSPARAM =
      sysparam_get_string (wifi_config_station_connect iv task_ok c1 w1).2.store
        Key.WIFI_SSID_SYSPARAM)
    (hs2 : sysparam_get_int8 w2.store Key.HAA_SETUP_MODE_SYSPARAM 3 =
      sysparam_get_int8 (wifi_config_station_connect iv task_ok c1 w1).2.store
        Key.HAA_SETUP_MODE_SYSPARAM 3)
    (hn3 : sysparam_get_string w3.store Key.WIFI_SSID_SYSPARAM =
      sysparam_get_string (wifi_config_station_connect iv task_ok c2 w2).2.store
        Key.WIFI_SSID_SYSPARAM)
    (hs3 : sysparam_get_int8 w3.store Key.HAA_SETUP_MODE_SYSPARAM 3 =
      sysparam_get_int8 (wifi_config_station_connect iv task_ok c2 w2).2.store
        Key.HAA_SETUP_MODE_SYSPARAM 3) :
    ((wifi_config_station_connect iv task_ok c1 w1).1.sta_connect_timeout
        = some Task.wifi_config_sta_connect_timeout_task ∧
      Call.xTaskCreate Task.wifi_config_sta_connect_timeout_task
        ∈ new_calls w1 (wifi_config_station_connect iv task_ok c1 w1).2 ∧
      (wifi_config_station_connect iv task_ok c1 w1).2.opmode = OpMode.STATION_MODE ∧
      sysparam_get_int8 (wifi_config_station_connect iv task_ok c1 w1).2.store
        Key.HAA_SETUP_MODE_SYSPARAM 3 = 1) ∧
    ((wifi_config_station_connect iv task_ok c2 w2).1.auto_reboot_timer
        = some { period := TimerPeriod.AUTO_REBOOT_TIMEOUT } ∧
      Call.esp_timer_start_forced (some { period := TimerPeriod.AUTO_REBOOT_TIMEOUT })
        ∈ new_calls w2 (wifi_config_station_connect iv task_ok c2 w2).2 ∧
      Call.xTaskCreate Task.http_task
        ∈ new_calls w2 (wifi_config_station_connect iv task_ok c2 w2).2 ∧
      (wifi_config_station_connect iv task_ok c2 w2).2.opmode = OpMode.STATIONAP_MODE ∧
      sysparam_get_int8 (wifi_config_station_connect iv task_ok c2 w2).2.store
        Key.HAA_SETUP_MODE_SYSPARAM 3 = 0) ∧
    ((wifi_config_station_connect iv task_ok c3 w3).1.sta_connect_timeout
        = some Task.wifi_config_sta_connect_timeout_task ∧
      Call.xTaskCreate Task.wifi_config_sta_connect_timeout_task
        ∈ new_calls w3 (wifi_config_station_connect iv task_ok c3 w3).2 ∧
      (wifi_config_station_connect iv task_ok c3 w3).2.opmode = OpMode.STATION_MODE ∧
      sysparam_get_int8 (wifi_config_station_connect iv task_ok c3 w3).2.store
        Key.HAA_SETUP_MODE_SYSPARAM 3 = 1) := by
  obtain ⟨a1, a2, a3, a4, a5⟩ := station_connect_station_run iv task_ok c1 w1 name hn h0
  obtain ⟨b1, b2, b3, b4, b5, b6⟩ := station_connect_setup_run iv task_ok c2 w2 name
    (hn2.trans a5) (hs2.trans a4)
  obtain ⟨d1, d2, d3, d4, _⟩ := station_connect_station_run iv task_ok c3 w3 name
    (hn3.trans b6) (hs3.trans b5)
  exact ⟨⟨a1, a2, a3, a4⟩, ⟨b1, b2, b3, b4, b5⟩, ⟨d1, d2, d3, d4⟩⟩

/-- Witness for C21: the store with "Home", "secret123" and setup-state 0; each run starts
from the world the previous run left. -/
theorem C21_station_and_setup_runs_alternate_witness :
    sysparam_get_int8 (world_of (store_home 0)).store Key.HAA_SETUP_MODE_SYSPARAM 3 = 0 ∧
      (wifi_config_station_connect [49] true context_init
        (world_of (store_home 0))).2.opmode = OpMode.STATION_MODE ∧
      (wifi_config_station_connect [49] true context_init
        (wifi_config_station_connect [49] true context_init
          (world_of (store_home 0))).2).2.opmode = OpMode.STATIONAP_MODE ∧
      (wifi_config_station_connect [49] true context_init
        (wifi_config_station_connect [49] true context_init
          (wifi_config_station_connect [49] true context_init
            (world_of (store_home 0))).2).2).2.opmode = OpMode.STATION_MODE := by
  have h := C21_station_and_setup_runs_alternate [49] true context_init context_init
    context_init (world_of (store_home 0))
    (wifi_config_station_connect [49] true context_init (world_of (store_home 0))).2
    (wifi_config_station_connect [49] true context_init
      (wifi_config_station_connect [49] true context_init (world_of (store_home 0))).2).2
    name_home (by decide) (by decide) rfl rfl rfl rfl
  exact ⟨by decide, h.1.2.2.1, h.2.1.2.2.2.1, h.2.2.2.2.1⟩

/-! ## Smart-Connect selection: the selected access point -/

theorem sc_step_mono (wifi_ssid : List Nat) (margin : Int) (h0 : 0 ≤ margin) (st : sc_state)
    (x : sdk_bss_info) : st.best_rssi ≤ (sc_step wifi_ssid margin st x).best_rssi := by
  unfold sc_step
  split_ifs with h1 h2
  · show st.best_rssi ≤ x.rssi
    omega
  · exact le_refl _
  · exact le_refl _

theorem sc_step_bound (wifi_ssid : List Nat) (margin : Int) (h0 : 0 ≤ margin) (st : sc_state)
    (x : sdk_bss_info) (hm : strcmp wifi_ssid x.ssid = 0) :
    x.rssi ≤ (sc_step wifi_ssid margin st x).best_rssi + margin := by
  unfold sc_step
  simp only [hm, if_true]
  split_ifs with h2
  · show x.rssi ≤ x.rssi + margin
    omega
  · omega

theorem sc_loop_upper (wifi_ssid : List Nat) (margin : Int) (h0 : 0 ≤ margin)
    (l : List sdk_bss_info) :
    ∀ x ∈ l, strcmp wifi_ssid x.ssid = 0 →
      x.rssi ≤ (sc_loop wifi_ssid margin l sc_init).best_rssi + margin := by
  induction l using List.reverseRecOn with
  | nil => simp
  | append_singleton pre y ih =>
    intro x hx hm
    rw [sc_loop_append]
    have hmono := sc_step_mono wifi_ssid margin h0 (sc_loop wifi_ssid margin pre sc_init) y
    rcases List.mem_append.1 hx with h | h
    · have := ih x h hm
      omega
    · have : x = y := by simpa using h
      subst this
      exact sc_step_bound wifi_ssid margin h0 _ x hm

theorem sc_finish_selected (st : sc_state) (task_ok : Bool) (w : World) (b : Bssid)
    (h : (sc_finish st task_ok w).1 = sc_exit.same_bssid b ∨
      (sc_finish st task_ok w).1 = sc_exit.task_created b) :
    st.found = true ∧ st.best_bssid = some b := by
  unfold sc_finish at h
  by_cases h1 : st.best_rssi = INT8_MIN
  · simp [h1] at h
  · rcases st with ⟨r, bb, f⟩
    simp only [h1, if_false] at h
    cases f
    · simp at h
    · cases bb with
      | none => simp at h
      | some b1 =>
        refine ⟨rfl, ?_⟩
        simp only at h
        split_ifs at h <;> simp at h <;> simp [h]

/-- C22: for a non-negative margin, when `wifi_scan_sc_done` selects an access point
(it leaves through the same-BSSID path or creates the smart-connect task for it), the
selected BSSID is that of a scan result whose name matches the configured name and whose
signal is the final best; no matching result has a signal more than the margin above it;
and the best signal never decreases along the walk. -/
theorem C22_selected_is_matching_and_within_margin_of_all (margin : Int) (h0 : 0 ≤ margin)
    (arg : scan_list) (status : sdk_scan_status_t) (task_ok : Bool) (w : World)
    (wifi_ssid : List Nat) (b : Bssid)
    (hs : sysparam_get_string w.store Key.WIFI_SSID_SYSPARAM = some wifi_ssid)
    (hsel : (wifi_scan_sc_done margin arg status task_ok w).1 = sc_exit.same_bssid b ∨
      (wifi_scan_sc_done margin arg status task_ok w).1 = sc_exit.task_created b) :
    (∃ bss ∈ arg.next, bss.bssid = b ∧ strcmp wifi_ssid bss.ssid = 0 ∧
        bss.rssi = (sc_loop wifi_ssid margin arg.next sc_init).best_rssi ∧
        ∀ x ∈ arg.next, strcmp wifi_ssid x.ssid = 0 → x.rssi ≤ bss.rssi + margin) ∧
      (∀ (pre : List sdk_bss_info) (x : sdk_bss_info),
        (sc_loop wifi_ssid margin pre sc_init).best_rssi
          ≤ (sc_loop wifi_ssid margin (pre ++ [x]) sc_init).best_rssi) := by
  constructor
  · obtain ⟨w0, pre, hst, _, _, heq⟩ := wifi_scan_sc_done_eq margin arg status task_ok w
    rw [heq, hst, hs] at hsel
    obtain ⟨hf, hb⟩ := sc_finish_selected _ task_ok w0 b hsel
    rcases sc_loop_inv wifi_ssid margin h0 arg.next with ⟨hnf, _⟩ | ⟨_, _, bss, hmem, hm, hbb, hr⟩
    · rw [hf] at hnf; cases hnf
    · rw [hb] at hbb
      refine ⟨bss, hmem, (Option.some.inj hbb).symm, hm, hr.symm, ?_⟩
      intro x hx hxm
      rw [← hr]
      exact sc_loop_upper wifi_ssid margin h0 arg.next x hx hxm
  · intro pre x
    rw [sc_loop_append]
    exact sc_step_mono wifi_ssid margin h0 _ x

/-- Witness for C22: margin 1, results "Home" at -128 and "Home" at -60; the second is
selected. -/
theorem C22_selected_is_matching_and_within_margin_of_all_witness :
    (wifi_scan_sc_done 1 { head := bss_head, next := [bss_home_weakest, bss_home] }
        sdk_scan_status_t.SCAN_OK true (world_of store_home_only)).1
        = sc_exit.task_created bssid_b ∧
      ∃ bss ∈ [bss_home_weakest, bss_home], bss.bssid = bssid_b ∧
        strcmp name_home bss.ssid = 0 ∧
        bss.rssi = (sc_loop name_home 1 [bss_home_weakest, bss_home] sc_init).best_rssi ∧
        ∀ x ∈ [bss_home_weakest, bss_home], strcmp name_home x.ssid = 0 →
          x.rssi ≤ bss.rssi + 1 :=
  ⟨by decide,
    (C22_selected_is_matching_and_within_margin_of_all 1 (by decide)
      { head := bss_head, next := [bss_home_weakest, bss_home] } sdk_scan_status_t.SCAN_OK
      true (world_of store_home_only) name_home bssid_b (by decide) (Or.inr (by decide))).1⟩

/-! ## PWM duty slots -/

theorem set_duty_channel_gpio (ch : adv_pwm_channel_t) (duty : Nat) :
    (adv_pwm_set_duty_channel ch duty).gpio = ch.gpio := by
  unfold adv_pwm_set_duty_channel
  simp only []
  split_ifs <;> rfl

theorem find_by_gpio_set_duty (l : List adv_pwm_channel_t) (gpio duty : Nat)
    (ch : adv_pwm_channel_t) (h : find_by_gpio l gpio = some ch) :
    find_by_gpio (channels_set_duty l gpio duty) gpio
      = some (adv_pwm_set_duty_channel ch duty) := by
  induction l with
  | nil => simp [find_by_gpio] at h
  | cons c rest ih =>
    unfold find_by_gpio at h
    unfold channels_set_duty
    by_cases hg : c.gpio ≠ gpio
    · rw [if_pos hg] at h
      rw [if_pos hg]
      unfold find_by_gpio
      rw [if_pos hg]
      exact ih h
    · rw [if_neg hg] at h
      rw [if_neg hg]
      cases h
      unfold find_by_gpio
      rw [set_duty_channel_gpio, if_neg hg]

theorem effective_duty_eq (ch : adv_pwm_channel_t) (duty e : Nat) (hd : duty < 65536)
    (he : e = if ch.leading = true then 65535 - duty else duty) :
    (if ch.leading = true then to_uint16 ((UINT16_MAX : Int) - duty) else duty) = e := by
  subst he
  split_ifs
  · unfold to_uint16 UINT16_MAX; omega
  · rfl

theorem set_duty_channel_large_dithering (ch : adv_pwm_channel_t) (duty e : Nat)
    (hd : duty < 65536) (he : e = if ch.leading = true then 65535 - duty else duty)
    (h0 : 0 < e) (h1 : e ≤ 32767) (h2 : 65535 ≤ e + ch.dithering) :
    (adv_pwm_set_duty_channel ch duty).duty =
      [65535, e + (65535 - e) / 2, e, to_uint16 ((e : Int) - ((65535 - e) / 2 : Nat)),
        2 * e + 1, to_uint16 ((e : Int) - ((65535 - e) / 2 : Nat)), e,
        e + (65535 - e) / 2] := by
  have hduty := effective_duty_eq ch duty e hd he
  unfold adv_pwm_set_duty_channel
  simp only [hduty]
  have c1 : ¬ (ch.dithering = 0 ∨ e = 0 ∨ e = UINT16_MAX) := by
    unfold UINT16_MAX; omega
  have c2 : (e : Int) ≥ (UINT16_MAX : Int) - ch.dithering := by
    unfold UINT16_MAX; omega
  have c3 : to_uint16 ((UINT16_MAX : Int) - e) = 65535 - e := by
    unfold to_uint16 UINT16_MAX; omega
  simp only [c1, if_false, c2, if_true, c3]
  have d0 : to_uint16 ((e : Int) + ((65535 - e : Nat) : Int)) = 65535 := by
    unfold to_uint16; omega
  have d1 : to_uint16 ((e : Int) + (((65535 - e) / 2 : Nat) : Int)) = e + (65535 - e) / 2 := by
    unfold to_uint16; omega
  have d4 : to_uint16 ((e : Int) - ((65535 - e : Nat) : Int)) = 2 * e + 1 := by
    unfold to_uint16; omega
  simp only [d0, d1, d4]

/-- C23 (evaluation at the failing input): when the effective duty `e` (the requested
duty, or 65535 minus it on a leading channel) is between 1 and 32767 and the dithering of
the channel is at least 65535 - `e`, `adv_pwm_set_duty` clamps the dithering to
65535 - `e`, which is more than `e`: slot 0 is 65535 and slot 4, whose value `e` minus the
dithering is negative, wraps around to 2 `e` + 1, so the eight slots sum to more than eight
times the effective duty. -/
theorem C23_large_dithering_wraps_low_slot (config : adv_pwm_config_t) (gpio duty e : Nat)
    (ch : adv_pwm_channel_t)
    (hf : adv_pwm_channel_find_by_gpio (some config) gpio = some ch)
    (hd : duty < 65536) (he : e = if ch.leading = true then 65535 - duty else duty)
    (h0 : 0 < e) (h1 : e ≤ 32767) (h2 : 65535 ≤ e + ch.dithering) :
    ∃ ch1, adv_pwm_channel_find_by_gpio (adv_pwm_set_duty (some config) gpio duty) gpio
        = some ch1 ∧
      ch1.duty.length = 8 ∧
      ch1.duty[0]? = some 65535 ∧
      ch1.duty[2]? = some e ∧
      ch1.duty[4]? = some (2 * e + 1) ∧
      (e : Int) - (65535 - e : Nat) < 0 ∧
      8 * e + 65536 ≤ ch1.duty.sum := by
  refine ⟨adv_pwm_set_duty_channel ch duty, ?_, ?_⟩
  · simp only [adv_pwm_channel_find_by_gpio, adv_pwm_set_duty] at hf ⊢
    exact find_by_gpio_set_duty _ gpio duty ch hf
  · rw [set_duty_channel_large_dithering ch duty e hd he h0 h1 h2]
    refine ⟨rfl, rfl, rfl, rfl, by omega, ?_⟩
    simp only [List.sum_cons, List.sum_nil]
    have : (to_uint16 ((e : Int) - ((65535 - e) / 2 : Nat)) : Int)
        ≥ (e : Int) - ((65535 - e) / 2 : Nat) := by
      unfold to_uint16; omega
    omega

/-- Witness for C23: a channel with dithering 40000 set to the duty 30000; slot 4 becomes
60001. -/
theorem C23_large_dithering_wraps_low_slot_witness :
    adv_pwm_channel_find_by_gpio (some (config_pin5 40000)) 5 = some (channel_pin5 40000) ∧
      ∃ ch1, adv_pwm_channel_find_by_gpio
          (adv_pwm_set_duty (some (config_pin5 40000)) 5 30000) 5 = some ch1 ∧
        ch1.duty[4]? = some 60001 ∧ 8 * 30000 + 65536 ≤ ch1.duty.sum := by
  refine ⟨by decide, ?_⟩
  obtain ⟨ch1, h1, _, _, _, h5, _, h7⟩ :=
    C23_large_dithering_wraps_low_slot (config_pin5 40000) 5 30000 30000 (channel_pin5 40000)
      (by decide) (by decide) (by decide) (by decide) (by decide) (by decide)
  exact ⟨ch1, h1, h5, h7⟩

theorem set_duty_channel_small_dithering (ch : adv_pwm_channel_t) (duty e : Nat)
    (hd : duty < 65536) (he : e = if ch.leading = true then 65535 - duty else duty)
    (hdi : ch.dithering ≤ 32767) :
    ∃ d : Nat, d ≤ e ∧ e + d ≤ 65535 ∧ d ≤ ch.dithering ∧
      ch.dithering * e < 2147483648 ∧
      (adv_pwm_set_duty_channel ch duty).duty =
        [e + d, e + d / 2, e, e - d / 2, e - d, e - d / 2, e, e + d / 2] := by
  have hduty := effective_duty_eq ch duty e hd he
  have he1 : e ≤ 65535 := by subst he; split_ifs <;> omega
  have hprod : ch.dithering * e < 2147483648 :=
    lt_of_le_of_lt (Nat.mul_le_mul hdi he1) (by decide)
  have slots : ∀ d : Nat, d ≤ e → e + d ≤ 65535 →
      [to_uint16 ((e : Int) + (d : Nat)), to_uint16 ((e : Int) + ((d / 2 : Nat) : Int)), e,
        to_uint16 ((e : Int) - ((d / 2 : Nat) : Int)), to_uint16 ((e : Int) - (d : Nat)),
        to_uint16 ((e : Int) - ((d / 2 : Nat) : Int)), e,
        to_uint16 ((e : Int) + ((d / 2 : Nat) : Int))]
      = [e + d, e + d / 2, e, e - d / 2, e - d, e - d / 2, e, e + d / 2] := by
    intro d h1 h2
    have d0 : to_uint16 ((e : Int) + (d : Nat)) = e + d := by unfold to_uint16; omega
    have d1 : to_uint16 ((e : Int) + ((d / 2 : Nat) : Int)) = e + d / 2 := by
      unfold to_uint16; omega
    have d3 : to_uint16 ((e : Int) - ((d / 2 : Nat) : Int)) = e - d / 2 := by
      unfold to_uint16; omega
    have d4 : to_uint16 ((e : Int) - (d : Nat)) = e - d := by unfold to_uint16; omega
    rw [d0, d1, d3, d4]
  unfold adv_pwm_set_duty_channel
  simp only [hduty]
  by_cases c1 : ch.dithering = 0 ∨ e = 0 ∨ e = UINT16_MAX
  · refine ⟨0, by omega, by omega, by omega, hprod, ?_⟩
    rw [if_pos c1]
    simp [List.replicate]
  · rw [if_neg c1]
    have c1a : ch.dithering ≠ 0 ∧ e ≠ 0 ∧ e ≠ 65535 := by
      unfold UINT16_MAX at c1; omega
    by_cases c2 : (e : Int) ≥ (UINT16_MAX : Int) - ch.dithering
    · have c3 : to_uint16 ((UINT16_MAX : Int) - e) = 65535 - e := by
        unfold to_uint16 UINT16_MAX; omega
      have hb : ch.dithering + e ≥ 65535 := by unfold UINT16_MAX at c2; omega
      refine ⟨65535 - e, by omega, by omega, by omega, hprod, ?_⟩
      simp only [if_pos c2, c3]
      exact slots (65535 - e) (by omega) (by omega)
    · have hb : ch.dithering + e < 65535 := by unfold UINT16_MAX at c2; omega
      by_cases c4 : e ≤ ch.dithering
      · refine ⟨0, by omega, by omega, by omega, hprod, ?_⟩
        simp only [if_neg c2, if_pos c4]
        exact slots 0 (by omega) (by omega)
      · have hq : ch.dithering * e / 65535 ≤ ch.dithering :=
          Nat.div_le_of_le_mul (by rw [Nat.mul_comm 65535]; exact Nat.mul_le_mul_left _ he1)
        have h32 : to_int32 ((ch.dithering : Int) * (e : Int)) = ((ch.dithering * e : Nat) : Int) := by
          unfold to_int32
          have : (0 : Int) ≤ ((ch.dithering * e : Nat) : Int) := Int.ofNat_nonneg _
          have h2 : ((ch.dithering * e : Nat) : Int) < 2147483648 := by exact_mod_cast hprod
          push_cast at this h2 ⊢
          omega
        have hdiv : to_uint16 (Int.tdiv (to_int32 ((ch.dithering : Int) * (e : Int)))
            (UINT16_MAX : Int)) = ch.dithering * e / 65535 := by
          rw [h32]
          have : Int.tdiv ((ch.dithering * e : Nat) : Int) ((UINT16_MAX : Nat) : Int)
              = ((ch.dithering * e / 65535 : Nat) : Int) := by
            unfold UINT16_MAX
            exact (Int.ofNat_tdiv _ _).symm
          rw [this]
          unfold to_uint16
          omega
        refine ⟨ch.dithering * e / 65535, by omega, by omega, hq, hprod, ?_⟩
        simp only [if_neg c2, if_neg c4, hdiv]
        exact slots _ (by omega) (by omega)

/-- For a dithering of at most 32767 the eight slots sum to eight times the effective
duty. -/
theorem set_duty_channel_small_dithering_sum (ch : adv_pwm_channel_t) (duty e : Nat)
    (hd : duty < 65536) (he : e = if ch.leading = true then 65535 - duty else duty)
    (hdi : ch.dithering ≤ 32767) :
    (adv_pwm_set_duty_channel ch duty).duty.sum = 8 * e := by
  obtain ⟨d, h1, _, _, _, hl⟩ := set_duty_channel_small_dithering ch duty e hd he hdi
  rw [hl]
  simp only [List.sum_cons, List.sum_nil]
  omega

/-! ## Calls made by `wifi_config_connect` -/

theorem log_within_refl (p : Call → Bool) (w : World) : log_within p w w :=
  ⟨[], (List.append_nil _).symm, by simp⟩

theorem log_within_trans {p : Call → Bool} {w w1 w2 : World} (h1 : log_within p w w1)
    (h2 : log_within p w1 w2) : log_within p w w2 := by
  obtain ⟨l1, e1, p1⟩ := h1
  obtain ⟨l2, e2, p2⟩ := h2
  refine ⟨l1 ++ l2, by rw [e2, e1, List.append_assoc], ?_⟩
  intro c hc
  rcases List.mem_append.1 hc with h | h
  · exact p1 c h
  · exact p2 c h

theorem log_within_log {p : Call → Bool} {w w1 : World} (h : log_within p w w1) (c : Call)
    (hc : p c = true) : log_within p w (w1.log c) :=
  log_within_trans h ⟨[c], rfl, by simpa using hc⟩

theorem log_within_sysparam_set {p : Call → Bool} {w w1 : World} (h : log_within p w w1)
    (k : Key) (v : Option Value) (hc : p (Call.sysparam_set k v) = true) :
    log_within p w (sysparam_set k v w1) :=
  log_within_trans h ⟨[Call.sysparam_set k v], rfl, by simpa using hc⟩

theorem log_within_mono {p q : Call → Bool} {w w1 : World} (h : log_within p w w1)
    (hpq : ∀ c, p c = true → q c = true) : log_within q w w1 := by
  obtain ⟨l, e, hl⟩ := h
  exact ⟨l, e, fun c hc => hpq c (hl c hc)⟩

theorem log_within_extends {p : Call → Bool} {w w1 : World} (h : log_within p w w1) :
    log_extends w w1 := by
  obtain ⟨l, e, _⟩ := h
  exact ⟨l, e⟩

theorem not_mem_new_calls_of_within {p : Call → Bool} {w w1 : World} (h : log_within p w w1)
    (c : Call) (hc : p c = false) : c ∉ new_calls w w1 := by
  obtain ⟨l, e, hl⟩ := h
  rw [new_calls_append w w1 l e]
  intro hm
  have := hl c hm
  rw [hc] at this
  cases this

theorem toggle_phy_mode_within (phy : Nat) (w : World) :
    log_within is_connect_call w (wifi_config_toggle_phy_mode phy w) := by
  obtain ⟨l, hl, hp⟩ := toggle_phy_mode_calls phy w
  refine ⟨l, hl, ?_⟩
  intro c hc
  obtain ⟨m, rfl⟩ := hp c hc
  rfl

theorem wifi_config_smart_connect_within (task_ok : Bool) (w : World) :
    log_within is_connect_call w (wifi_config_smart_connect task_ok w) := by
  unfold wifi_config_smart_connect
  simp only []
  split_ifs
  all_goals first
    | exact log_within_refl _ w
    | exact log_within_log (log_within_refl _ w) _ rfl

theorem wifi_config_reset_within (w : World) :
    log_within is_connect_call w (wifi_config_reset w) := by
  unfold wifi_config_reset
  exact log_within_log (log_within_log (log_within_log (log_within_log
    (log_within_refl _ w) _ rfl) _ rfl) _ rfl) _ rfl

/-- Every run of `wifi_config_connect` first records the installer version, and all its
calls are store writes, station and radio-mode calls or the creation of the scan task. -/
theorem wifi_config_connect_within (iv : List Nat) (task_ok : Bool) (phy : Nat) (w : World) :
    log_within is_connect_call
        (sysparam_set_string Key.INSTALLER_VERSION_SYSPARAM iv w)
        (wifi_config_connect iv task_ok phy w).2 := by
  unfold wifi_config_connect
  simp only []
  generalize sysparam_set_string Key.INSTALLER_VERSION_SYSPARAM iv w = wa
  split
  · exact log_within_refl _ wa
  · have hr : log_within is_connect_call wa
        ((wifi_config_reset wa).log Call.sdk_wifi_station_disconnect) :=
      log_within_log (wifi_config_reset_within wa) _ rfl
    generalize (wifi_config_reset wa).log Call.sdk_wifi_station_disconnect = wb at hr
    have hop : ∀ wx : World, log_within is_connect_call wx
        (sdk_wifi_set_opmode OpMode.STATION_MODE wx) :=
      fun wx => ⟨[Call.sdk_wifi_set_opmode OpMode.STATION_MODE], rfl, by simp [is_connect_call]⟩
    split_ifs with hm h4
    · exact log_within_log (log_within_trans (log_within_log (log_within_log
        (log_within_trans hr (hop _)) _ (by rfl)) _ (by rfl)) (toggle_phy_mode_within _ _)) _ (by rfl)
    · exact log_within_log (log_within_trans (log_within_log (log_within_log
        (log_within_trans (log_within_sysparam_set hr _ _ (by rfl)) (hop _)) _ (by rfl)) _ (by rfl))
        (toggle_phy_mode_within _ _)) _ (by rfl)
    · exact log_within_trans (log_within_trans (log_within_log (log_within_log
        (log_within_trans (log_within_sysparam_set hr _ _ (by rfl)) (hop _)) _ (by rfl)) _ (by rfl))
        (toggle_phy_mode_within _ _)) (wifi_config_smart_connect_within _ _)

theorem wifi_config_connect_calls (iv : List Nat) (task_ok : Bool) (phy : Nat) (w : World) :
    ∃ l, (wifi_config_connect iv task_ok phy w).2.calls
        = w.calls ++ Call.sysparam_set Key.INSTALLER_VERSION_SYSPARAM (some (Value.str iv)) :: l ∧
      ∀ c ∈ l, is_connect_call c = true := by
  obtain ⟨l, e, hl⟩ := wifi_config_connect_within iv task_ok phy w
  refine ⟨l, ?_, hl⟩
  rw [e]
  simp [sysparam_set_string, sysparam_set]

theorem wifi_config_connect_within_all (iv : List Nat) (task_ok : Bool) (phy : Nat)
    (w : World) : log_within is_connect_call w (wifi_config_connect iv task_ok phy w).2 := by
  obtain ⟨l, e, hl⟩ := wifi_config_connect_calls iv task_ok phy w
  refine ⟨_, e, ?_⟩
  intro c hc
  rcases List.mem_cons.1 hc with rfl | h
  · rfl
  · exact hl c h

/-! ## Setup mode: when the auto-reboot timer is armed -/

/-- C13 (amended): whenever `wifi_config_station_connect` enters access-point setup, it
runs `wifi_config_softap_start` last; with a stored setup-state of 1 the calls just
before it are the creation and the start of the auto-reboot timer, which the context
then holds; with any other setup-state the run contains no timer creation and no timer
start, and the context, its timer handle included, is left as it was. -/
theorem C13_timer_armed_iff_setup_state_is_1 (iv : List Nat) (task_ok : Bool)
    (context : wifi_config_context_t) (w : World)
    (hap : ¬ ((wifi_config_connect iv task_ok
        (to_uint8 (sysparam_get_int8 w.store Key.WIFI_LAST_WORKING_PHY_SYSPARAM 0)) w).1 = 1 ∧
      sysparam_get_int8 w.store Key.HAA_SETUP_MODE_SYSPARAM 3 = 0)) :
    ∃ w1, (wifi_config_station_connect iv task_ok context w).2 =
        wifi_config_softap_start (wifi_config_station_connect iv task_ok context w).1 w1 ∧
      (sysparam_get_int8 w.store Key.HAA_SETUP_MODE_SYSPARAM 3 = 1 →
        (wifi_config_station_connect iv task_ok context w).1
          = { context with
              auto_reboot_timer := some { period := TimerPeriod.AUTO_REBOOT_TIMEOUT } } ∧
        w1.calls =
          (wifi_config_connect iv task_ok
            (to_uint8 (sysparam_get_int8 w.store Key.WIFI_LAST_WORKING_PHY_SYSPARAM 0)) w).2.calls
          ++ [Call.vTaskDelete context.ota_task,
              Call.sysparam_set Key.HAA_SETUP_MODE_SYSPARAM (some (Value.int 0)),
              Call.esp_timer_create TimerPeriod.AUTO_REBOOT_TIMEOUT,
              Call.esp_timer_start_forced
                (some { period := TimerPeriod.AUTO_REBOOT_TIMEOUT })]) ∧
      (sysparam_get_int8 w.store Key.HAA_SETUP_MODE_SYSPARAM 3 ≠ 1 →
        (wifi_config_station_connect iv task_ok context w).1 = context ∧
        w1.calls =
          (wifi_config_connect iv task_ok
            (to_uint8 (sysparam_get_int8 w.store Key.WIFI_LAST_WORKING_PHY_SYSPARAM 0)) w).2.calls
          ++ [Call.vTaskDelete context.ota_task,
              Call.sysparam_set Key.HAA_SETUP_MODE_SYSPARAM (some (Value.int 0))] ∧
        (∀ p, Call.esp_timer_create p ∉
          new_calls w (wifi_config_station_connect iv task_ok context w).2) ∧
        (∀ t, Call.esp_timer_start_forced t ∉
          new_calls w (wifi_config_station_connect iv task_ok context w).2)) := by
  have hw := wifi_config_connect_within_all iv task_ok
    (to_uint8 (sysparam_get_int8 w.store Key.WIFI_LAST_WORKING_PHY_SYSPARAM 0)) w
  by_cases h1 : sysparam_get_int8 w.store Key.HAA_SETUP_MODE_SYSPARAM 3 = 1
  · have e1 : wifi_config_station_connect iv task_ok context w =
        ({ context with
            auto_reboot_timer := some { period := TimerPeriod.AUTO_REBOOT_TIMEOUT } },
          wifi_config_softap_start
            { context with
              auto_reboot_timer := some { period := TimerPeriod.AUTO_REBOOT_TIMEOUT } }
            (((sysparam_set_int8 Key.HAA_SETUP_MODE_SYSPARAM 0
              ((wifi_config_connect iv task_ok
                (to_uint8 (sysparam_get_int8 w.store Key.WIFI_LAST_WORKING_PHY_SYSPARAM 0))
                w).2.log (Call.vTaskDelete context.ota_task))).log
              (Call.esp_timer_create TimerPeriod.AUTO_REBOOT_TIMEOUT)).log
              (Call.esp_timer_start_forced
                (some { period := TimerPeriod.AUTO_REBOOT_TIMEOUT })))) := by
      unfold wifi_config_station_connect
      simp only []
      rw [if_neg hap]
      simp only [h1, if_true]
    rw [e1]
    refine ⟨_, rfl, fun _ => ⟨rfl, ?_⟩, fun h => absurd h1 h⟩
    simp [sysparam_set_int8, sysparam_set, World.log]
  · have e2 : wifi_config_station_connect iv task_ok context w =
        (context,
          wifi_config_softap_start context
            (sysparam_set_int8 Key.HAA_SETUP_MODE_SYSPARAM 0
              ((wifi_config_connect iv task_ok
                (to_uint8 (sysparam_get_int8 w.store Key.WIFI_LAST_WORKING_PHY_SYSPARAM 0))
                w).2.log (Call.vTaskDelete context.ota_task)))) := by
      unfold wifi_config_station_connect
      simp only []
      rw [if_neg hap]
      simp only [h1, if_false]
    rw [e2]
    generalize (wifi_config_connect iv task_ok
      (to_uint8 (sysparam_get_int8 w.store Key.WIFI_LAST_WORKING_PHY_SYSPARAM 0)) w).2 = wc
      at hw
    obtain ⟨l, e, hl⟩ := hw
    refine ⟨_, rfl, fun h => absurd h h1, fun _ => ⟨rfl, ?_, ?_, ?_⟩⟩
    · simp [sysparam_set_int8, sysparam_set, World.log]
    · intro p
      simp only [new_calls, softap_start_calls, sysparam_set_int8, sysparam_set, World.log, e,
        List.append_assoc, List.drop_left]
      intro hm
      rcases List.mem_append.1 hm with h | h
      · have := hl _ h
        simp [is_connect_call] at this
      · simp at h
    · intro t
      simp only [new_calls, softap_start_calls, sysparam_set_int8, sysparam_set, World.log, e,
        List.append_assoc, List.drop_left]
      intro hm
      rcases List.mem_append.1 hm with h | h
      · have := hl _ h
        simp [is_connect_call] at this
      · simp at h

/-- Witness for C13 (amended): name and passphrase stored, setup-state 1: the run enters
access-point setup and the context holds the timer. -/
theorem C13_timer_armed_iff_setup_state_is_1_witness :
    ¬ ((wifi_config_connect [49] true
          (to_uint8 (sysparam_get_int8 (world_of (store_home 1)).store
            Key.WIFI_LAST_WORKING_PHY_SYSPARAM 0)) (world_of (store_home 1))).1 = 1 ∧
        sysparam_get_int8 (world_of (store_home 1)).store Key.HAA_SETUP_MODE_SYSPARAM 3 = 0) ∧
      (wifi_config_station_connect [49] true context_init
        (world_of (store_home 1))).1.auto_reboot_timer
        = some { period := TimerPeriod.AUTO_REBOOT_TIMEOUT } := by
  have hs : sysparam_get_int8 (world_of (store_home 1)).store Key.HAA_SETUP_MODE_SYSPARAM 3
      = 1 := by decide
  have hap : ¬ ((wifi_config_connect [49] true
        (to_uint8 (sysparam_get_int8 (world_of (store_home 1)).store
          Key.WIFI_LAST_WORKING_PHY_SYSPARAM 0)) (world_of (store_home 1))).1 = 1 ∧
      sysparam_get_int8 (world_of (store_home 1)).store Key.HAA_SETUP_MODE_SYSPARAM 3 = 0) := by
    rw [hs]
    rintro ⟨_, h⟩
    cases h
  obtain ⟨w1, _, h1, _⟩ :=
    C13_timer_armed_iff_setup_state_is_1 [49] true context_init (world_of (store_home 1)) hap
  exact ⟨hap, by rw [(h1 hs).1]⟩

/-! ## Supervisor: the calls of each poll -/

theorem world_after_zero (iv : List Nat) (task_ok : Bool) (status : Nat → Bool)
    (context : wifi_config_context_t) (w : World) :
    world_after iv task_ok status context w 0 = w := rfl

/-- While no pass has ended the loop, one more pass of the supervisor is one more run of
its loop body on the state that the earlier passes left. -/
theorem sta_connect_timeout_task_succ (iv : List Nat) (task_ok : Bool) (status : Nat → Bool)
    (fuel : Nat) :
    ∀ (k : Nat) (context : wifi_config_context_t) (w : World),
      (∀ b ∈ (wifi_config_sta_connect_timeout_task iv task_ok status fuel k context w).1,
        b ≠ poll_branch.got_ip ∧ b ≠ poll_branch.reboot) →
      wifi_config_sta_connect_timeout_task iv task_ok status (fuel + 1) k context w =
        ((wifi_config_sta_connect_timeout_task iv task_ok status fuel k context w).1 ++
          [(sta_connect_timeout_poll iv task_ok (status (k + fuel))
            (wifi_config_sta_connect_timeout_task iv task_ok status fuel k context w).2.1
            (wifi_config_sta_connect_timeout_task iv task_ok status fuel k context w).2.2).1],
          (sta_connect_timeout_poll iv task_ok (status (k + fuel))
            (wifi_config_sta_connect_timeout_task iv task_ok status fuel k context w).2.1
            (wifi_config_sta_connect_timeout_task iv task_ok status fuel k context w).2.2).2.1,
          (sta_connect_timeout_poll iv task_ok (status (k + fuel))
            (wifi_config_sta_connect_timeout_task iv task_ok status fuel k context w).2.1
            (wifi_config_sta_connect_timeout_task iv task_ok status fuel k context w).2.2).2.2) := by
  induction fuel with
  | zero =>
    intro k context w _
    simp only [wifi_config_sta_connect_timeout_task, Nat.add_zero, List.nil_append]
    split_ifs <;> rfl
  | succ fuel ih =>
    intro k context w hall
    have hunf : wifi_config_sta_connect_timeout_task iv task_ok status (fuel + 1) k context w =
        if (sta_connect_timeout_poll iv task_ok (status k) context w).1 = poll_branch.got_ip ∨
            (sta_connect_timeout_poll iv task_ok (status k) context w).1 = poll_branch.reboot
        then ([(sta_connect_timeout_poll iv task_ok (status k) context w).1],
          (sta_connect_timeout_poll iv task_ok (status k) context w).2.1,
          (sta_connect_timeout_poll iv task_ok (status k) context w).2.2)
        else
          ((sta_connect_timeout_poll iv task_ok (status k) context w).1 ::
            (wifi_config_sta_connect_timeout_task iv task_ok status fuel (k + 1)
              (sta_connect_timeout_poll iv task_ok (status k) context w).2.1
              (sta_connect_timeout_poll iv task_ok (status k) context w).2.2).1,
            (wifi_config_sta_connect_timeout_task iv task_ok status fuel (k + 1)
              (sta_connect_timeout_poll iv task_ok (status k) context w).2.1
              (sta_connect_timeout_poll iv task_ok (status k) context w).2.2).2.1,
            (wifi_config_sta_connect_timeout_task iv task_ok status fuel (k + 1)
              (sta_connect_timeout_poll iv task_ok (status k) context w).2.1
              (sta_connect_timeout_poll iv task_ok (status k) context w).2.2).2.2) := by
      rw [wifi_config_sta_connect_timeout_task]
    have hunf2 : wifi_config_sta_connect_timeout_task iv task_ok status (fuel + 1 + 1) k
        context w =
        if (sta_connect_timeout_poll iv task_ok (status k) context w).1 = poll_branch.got_ip ∨
            (sta_connect_timeout_poll iv task_ok (status k) context w).1 = poll_branch.reboot
        then ([(sta_connect_timeout_poll iv task_ok (status k) context w).1],
          (sta_connect_timeout_poll iv task_ok (status k) context w).2.1,
          (sta_connect_timeout_poll iv task_ok (status k) context w).2.2)
        else
          ((sta_connect_timeout_poll iv task_ok (status k) context w).1 ::
            (wifi_config_sta_connect_timeout_task iv task_ok status (fuel + 1) (k + 1)
              (sta_connect_timeout_poll iv task_ok (status k) context w).2.1
              (sta_connect_timeout_poll iv task_ok (status k) context w).2.2).1,
            (wifi_config_sta_connect_timeout_task iv task_ok status (fuel + 1) (k + 1)
              (sta_connect_timeout_poll iv task_ok (status k) context w).2.1
              (sta_connect_timeout_poll iv task_ok (status k) context w).2.2).2.1,
            (wifi_config_sta_connect_timeout_task iv task_ok status (fuel + 1) (k + 1)
              (sta_connect_timeout_poll iv task_ok (status k) context w).2.1
              (sta_connect_timeout_poll iv task_ok (status k) context w).2.2).2.2) := by
      rw [wifi_config_sta_connect_timeout_task]
    generalize sta_connect_timeout_poll iv task_ok (status k) context w = r at hunf hunf2
    by_cases hterm : r.1 = poll_branch.got_ip ∨ r.1 = poll_branch.reboot
    · exfalso
      rw [hunf, if_pos hterm] at hall
      have := hall r.1 (by simp)
      rcases hterm with h | h
      · exact this.1 h
      · exact this.2 h
    · rw [hunf, if_neg hterm] at hall
      have hrest := ih (k + 1) r.2.1 r.2.2 (fun b hb => hall b (by simp [hb]))
      have hk : k + 1 + fuel = k + (fuel + 1) := by omega
      rw [hunf2, if_neg hterm, hunf, if_neg hterm, hrest, hk]
      rfl

/-- One unconnected pass in station mode: the counter goes up by one and the world is
changed by the one call that the counter selects. -/
theorem sta_connect_timeout_poll_world (iv : List Nat) (task_ok : Bool)
    (context : wifi_config_context_t) (w : World) (h : w.opmode = OpMode.STATION_MODE)
    (hc : context.check_counter ≤ 240) :
    sta_connect_timeout_poll iv task_ok false context w =
      (branch_at (context.check_counter + 1),
        { context with check_counter := context.check_counter + 1 },
        if (context.check_counter + 1) % 32 = 0 then (wifi_config_connect iv task_ok 4 w).2
        else if (context.check_counter + 1) % 5 = 0 then wifi_config_resend_arp w
        else if context.check_counter + 1 > 240 then auto_reboot_run w
        else w) := by
  have hm : (context.check_counter + 1) % 256 = context.check_counter + 1 := by omega
  unfold sta_connect_timeout_poll branch_at
  simp only [Bool.false_eq_true, if_false, h, if_true, hm]
  split_ifs <;> rfl

theorem branch_at_not_terminal (m : Nat) (h : m ≤ 240) :
    branch_at m ≠ poll_branch.got_ip ∧ branch_at m ≠ poll_branch.reboot := by
  unfold branch_at
  split_ifs <;> simp
  omega

/-- The state of the supervisor after `n` unconnected passes in station mode, for `n` up
to 240: every pass ran, the counter is `n`, the radio is still in station mode. -/
theorem supervisor_run_state (iv : List Nat) (task_ok : Bool) (status : Nat → Bool)
    (context : wifi_config_context_t) (w : World) (hs : ∀ k, status k = false)
    (hop : w.opmode = OpMode.STATION_MODE) (hc : context.check_counter = 0) :
    ∀ n, n ≤ 240 →
      (wifi_config_sta_connect_timeout_task iv task_ok status n 0 context w).1
          = (List.range' 1 n).map branch_at ∧
        (wifi_config_sta_connect_timeout_task iv task_ok status n 0 context w).2.1
          = { context with check_counter := n } ∧
        (world_after iv task_ok status context w n).opmode = OpMode.STATION_MODE ∧
        wifi_config_sta_connect_timeout_task iv task_ok status (n + 1) 0 context w =
          ((List.range' 1 (n + 1)).map branch_at,
            { context with check_counter := n + 1 },
            if (n + 1) % 32 = 0 then
              (wifi_config_connect iv task_ok 4 (world_after iv task_ok status context w n)).2
            else if (n + 1) % 5 = 0 then
              wifi_config_resend_arp (world_after iv task_ok status context w n)
            else if n + 1 > 240 then auto_reboot_run (world_after iv task_ok status context w n)
            else world_after iv task_ok status context w n) := by
  have hstep : ∀ n, n ≤ 240 →
      (wifi_config_sta_connect_timeout_task iv task_ok status n 0 context w).1
          = (List.range' 1 n).map branch_at →
      (wifi_config_sta_connect_timeout_task iv task_ok status n 0 context w).2.1
          = { context with check_counter := n } →
      (world_after iv task_ok status context w n).opmode = OpMode.STATION_MODE →
      wifi_config_sta_connect_timeout_task iv task_ok status (n + 1) 0 context w =
          ((List.range' 1 (n + 1)).map branch_at,
            { context with check_counter := n + 1 },
            if (n + 1) % 32 = 0 then
              (wifi_config_connect iv task_ok 4 (world_after iv task_ok status context w n)).2
            else if (n + 1) % 5 = 0 then
              wifi_config_resend_arp (world_after iv task_ok status context w n)
            else if n + 1 > 240 then auto_reboot_run (world_after iv task_ok status context w n)
            else world_after iv task_ok status context w n) := by
    intro n hn h1 h2 h3
    have hall : ∀ b ∈ (wifi_config_sta_connect_timeout_task iv task_ok status n 0 context w).1,
        b ≠ poll_branch.got_ip ∧ b ≠ poll_branch.reboot := by
      intro b hb
      rw [h1] at hb
      obtain ⟨m, hm, rfl⟩ := List.mem_map.1 hb
      rw [List.mem_range'_1] at hm
      exact branch_at_not_terminal m (by omega)
    rw [sta_connect_timeout_task_succ iv task_ok status n 0 context w hall, hs, h1, h2]
    have hcc : ({ context with check_counter := n } : wifi_config_context_t).check_counter ≤ 240 :=
      hn
    have h3a : (wifi_config_sta_connect_timeout_task iv task_ok status n 0 context w).2.2.opmode
        = OpMode.STATION_MODE := h3
    rw [sta_connect_timeout_poll_world iv task_ok _ _ h3a hcc]
    simp only [world_after]
    rw [List.range'_1_concat, List.map_append, Nat.add_comm 1 n]
    rfl
  intro n
  induction n with
  | zero =>
    intro hn
    have h1 : (wifi_config_sta_connect_timeout_task iv task_ok status 0 0 context w).1
        = (List.range' 1 0).map branch_at := rfl
    have h2 : (wifi_config_sta_connect_timeout_task iv task_ok status 0 0 context w).2.1
        = { context with check_counter := 0 } := by
      show context = { context with check_counter := 0 }
      obtain ⟨a, b, c, d, e, f, g⟩ := context
      dsimp only at hc
      subst hc
      rfl
    exact ⟨h1, h2, hop, hstep 0 hn h1 h2 hop⟩
  | succ n ih =>
    intro hn
    obtain ⟨h1, h2, h3, h4⟩ := ih (by omega)
    have hnt : ¬ (n + 1 > 240) := by omega
    have g1 : (wifi_config_sta_connect_timeout_task iv task_ok status (n + 1) 0 context w).1
        = (List.range' 1 (n + 1)).map branch_at := by rw [h4]
    have g2 : (wifi_config_sta_connect_timeout_task iv task_ok status (n + 1) 0 context w).2.1
        = { context with check_counter := n + 1 } := by rw [h4]
    have g3 : (world_after iv task_ok status context w (n + 1)).opmode
        = OpMode.STATION_MODE := by
      unfold world_after at h3 ⊢
      rw [h4]
      simp only []
      split_ifs
      · exact wifi_config_connect_opmode iv task_ok 4 _ h3
      · unfold wifi_config_resend_arp
        split_ifs
        · exact h3
        · exact h3
      · exact h3
    exact ⟨g1, g2, g3, hstep (n + 1) hn g1 g2 g3⟩

/-- The world after pass `n + 1` of an unconnected run in station mode, from the world
after pass `n`. -/
theorem world_after_succ (iv : List Nat) (task_ok : Bool) (status : Nat → Bool)
    (context : wifi_config_context_t) (w : World) (hs : ∀ k, status k = false)
    (hop : w.opmode = OpMode.STATION_MODE) (hc : context.check_counter = 0) (n : Nat)
    (hn : n ≤ 240) :
    world_after iv task_ok status context w (n + 1) =
      if (n + 1) % 32 = 0 then
        (wifi_config_connect iv task_ok 4 (world_after iv task_ok status context w n)).2
      else if (n + 1) % 5 = 0 then
        wifi_config_resend_arp (world_after iv task_ok status context w n)
      else if n + 1 > 240 then auto_reboot_run (world_after iv task_ok status context w n)
      else world_after iv task_ok status context w n := by
  have h := (supervisor_run_state iv task_ok status context w hs hop hc n hn).2.2.2
  conv_lhs => unfold world_after
  rw [h]

/-- Once a pass has ended the loop, allowing more passes changes nothing. -/
theorem sta_connect_timeout_task_ended (iv : List Nat) (task_ok : Bool) (status : Nat → Bool)
    (extra : Nat) (fuel : Nat) :
    ∀ (k : Nat) (context : wifi_config_context_t) (w : World),
      (∃ b ∈ (wifi_config_sta_connect_timeout_task iv task_ok status fuel k context w).1,
        b = poll_branch.got_ip ∨ b = poll_branch.reboot) →
      wifi_config_sta_connect_timeout_task iv task_ok status (fuel + extra) k context w =
        wifi_config_sta_connect_timeout_task iv task_ok status fuel k context w := by
  induction fuel with
  | zero =>
    intro k context w h
    obtain ⟨b, hb, _⟩ := h
    simp [wifi_config_sta_connect_timeout_task] at hb
  | succ fuel ih =>
    intro k context w h
    have he : fuel + 1 + extra = fuel + extra + 1 := by omega
    rw [he]
    rw [wifi_config_sta_connect_timeout_task, wifi_config_sta_connect_timeout_task] at *
    simp only [] at h ⊢
    generalize sta_connect_timeout_poll iv task_ok (status k) context w = r at h ⊢
    by_cases hterm : r.1 = poll_branch.got_ip ∨ r.1 = poll_branch.reboot
    · rw [if_pos hterm, if_pos hterm]
    · rw [if_neg hterm] at h
      rw [if_neg hterm, if_neg hterm]
      obtain ⟨b, hb, hbt⟩ := h
      have hb2 : b ∈ (wifi_config_sta_connect_timeout_task iv task_ok status fuel (k + 1)
          r.2.1 r.2.2).1 := by
        rcases List.mem_cons.1 hb with h1 | h1
        · subst h1; exact absurd hbt hterm
        · exact h1
      rw [ih (k + 1) r.2.1 r.2.2 ⟨b, hb2, hbt⟩]

/-- Up to pass 240 of an unconnected run in station mode every call is one of
`wifi_config_connect` or a link-layer announcement. -/
theorem supervisor_calls_within (iv : List Nat) (task_ok : Bool) (status : Nat → Bool)
    (context : wifi_config_context_t) (w : World) (hs : ∀ k, status k = false)
    (hop : w.opmode = OpMode.STATION_MODE) (hc : context.check_counter = 0) :
    ∀ n, n ≤ 240 →
      log_within (fun c => is_connect_call c || decide (c = Call.etharp_gratuitous)) w
        (world_after iv task_ok status context w n) := by
  intro n
  induction n with
  | zero => intro _; exact log_within_refl _ w
  | succ n ih =>
    intro hn
    have h := ih (by omega)
    rw [world_after_succ iv task_ok status context w hs hop hc n (by omega)]
    split_ifs
    · exact log_within_trans h (log_within_mono (wifi_config_connect_within_all iv task_ok 4 _)
        (fun c hc => by simp [hc]))
    · unfold wifi_config_resend_arp
      split_ifs
      · exact log_within_log h _ (by simp [is_connect_call])
      · exact h
    · omega
    · exact h

/-- Up to pass 31 of an unconnected run in station mode every call is a link-layer
announcement. -/
theorem supervisor_calls_before_32 (iv : List Nat) (task_ok : Bool) (status : Nat → Bool)
    (context : wifi_config_context_t) (w : World) (hs : ∀ k, status k = false)
    (hop : w.opmode = OpMode.STATION_MODE) (hc : context.check_counter = 0) :
    ∀ n, n ≤ 31 →
      log_within (fun c => decide (c = Call.etharp_gratuitous)) w
        (world_after iv task_ok status context w n) := by
  intro n
  induction n with
  | zero => intro _; exact log_within_refl _ w
  | succ n ih =>
    intro hn
    have h := ih (by omega)
    rw [world_after_succ iv task_ok status context w hs hop hc n (by omega)]
    split_ifs
    · omega
    · unfold wifi_config_resend_arp
      split_ifs
      · exact log_within_log h _ (by simp)
      · exact h
    · omega
    · exact h

/-- C6: from a poll counter of 0, in station mode and with no IP ever obtained, the
supervisor takes the forced-reconnect branch for the first time on the 32nd poll and
the reboot branch for the first time on poll 241, where its loop ends. In calls: the
first 31 polls make link-layer announcements only; poll 32 is a run of
`wifi_config_connect(4)`, which begins by recording the installer version; no poll up to
the 240th restarts the device; poll 241 adds exactly the restart of `auto_reboot_run`,
and the run ends there however many more polls are allowed. -/
theorem C6_forced_reconnect_at_32_reboot_at_241 (iv : List Nat) (task_ok : Bool)
    (status : Nat → Bool) (context : wifi_config_context_t) (w : World) (fuel : Nat)
    (hs : ∀ k, status k = false) (hop : w.opmode = OpMode.STATION_MODE)
    (hc : context.check_counter = 0) (hf : 241 ≤ fuel) :
    ((wifi_config_sta_connect_timeout_task iv task_ok status fuel 0 context w).1.length = 241 ∧
      (wifi_config_sta_connect_timeout_task iv task_ok status fuel 0 context w).1[31]?
        = some poll_branch.forced_reconnect ∧
      (∀ i, i < 31 →
        (wifi_config_sta_connect_timeout_task iv task_ok status fuel 0 context w).1[i]?
          ≠ some poll_branch.forced_reconnect) ∧
      (wifi_config_sta_connect_timeout_task iv task_ok status fuel 0 context w).1[240]?
        = some poll_branch.reboot ∧
      (∀ i, i < 240 →
        (wifi_config_sta_connect_timeout_task iv task_ok status fuel 0 context w).1[i]?
          ≠ some poll_branch.reboot)) ∧
    (∀ n, n ≤ 31 → ∀ c ∈ new_calls w (world_after iv task_ok status context w n),
      c = Call.etharp_gratuitous) ∧
    world_after iv task_ok status context w 32
      = (wifi_config_connect iv task_ok 4 (world_after iv task_ok status context w 31)).2 ∧
    (∃ l, (world_after iv task_ok status context w 32).calls
      = (world_after iv task_ok status context w 31).calls ++
        Call.sysparam_set Key.INSTALLER_VERSION_SYSPARAM (some (Value.str iv)) :: l) ∧
    (∀ n, n ≤ 240 →
      (wifi_config_sta_connect_timeout_task iv task_ok status n 0 context w).1.length = n ∧
      Call.sdk_system_restart ∉ new_calls w (world_after iv task_ok status context w n)) ∧
    (world_after iv task_ok status context w 241).calls
      = (world_after iv task_ok status context w 240).calls ++ [Call.sdk_system_restart] ∧
    (wifi_config_sta_connect_timeout_task iv task_ok status fuel 0 context w).2.2
      = world_after iv task_ok status context w 241 := by
  have htr := sta_connect_timeout_trace iv task_ok status hs fuel 0 context w hop
    (by rw [hc]; decide)
  have hmin : min fuel (241 - context.check_counter) = 241 := by rw [hc]; omega
  rw [hmin, hc] at htr
  have h32 := world_after_succ iv task_ok status context w hs hop hc 31 (by decide)
  have h241 := world_after_succ iv task_ok status context w hs hop hc 240 (by decide)
  simp only [Nat.reduceAdd, Nat.reduceMod, if_true] at h32
  have e1 : ¬ (241 % 32 = 0) := by decide
  have e2 : ¬ (241 % 5 = 0) := by decide
  have e3 : 241 > 240 := by decide
  simp only [Nat.reduceAdd] at h241
  rw [if_neg e1, if_neg e2, if_pos e3] at h241
  refine ⟨?_, ?_, h32, ?_, ?_, ?_, ?_⟩
  · rw [htr]
    exact branch_at_trace_facts
  · intro n hn c hcm
    obtain ⟨l, e, hl⟩ := supervisor_calls_before_32 iv task_ok status context w hs hop hc n hn
    rw [new_calls_append w _ l e] at hcm
    simpa using hl c hcm
  · rw [h32]
    exact (wifi_config_connect_calls iv task_ok 4 _).imp (fun l h => h.1)
  · intro n hn
    refine ⟨?_, ?_⟩
    · rw [(supervisor_run_state iv task_ok status context w hs hop hc n hn).1]
      simp
    · exact not_mem_new_calls_of_within
        (supervisor_calls_within iv task_ok status context w hs hop hc n hn) _ (by rfl)
  · rw [h241]
    rfl
  · have h241t : (wifi_config_sta_connect_timeout_task iv task_ok status 241 0 context w).1
        = (List.range' 1 241).map branch_at := by
      have := sta_connect_timeout_trace iv task_ok status hs 241 0 context w hop
        (by rw [hc]; decide)
      rw [hc] at this
      exact this
    have hend := sta_connect_timeout_task_ended iv task_ok status (fuel - 241) 241 0 context w
      ⟨poll_branch.reboot, by
        rw [h241t]
        exact List.getElem?_mem branch_at_trace_facts.2.2.2.1, Or.inr rfl⟩
    have hfe : 241 + (fuel - 241) = fuel := by omega
    rw [hfe] at hend
    rw [hend]
    rfl

/-- Witness for C6: 300 polls allowed, the context as `wifi_config_init` leaves it: the
restart is the call of poll 241 and the run ends there. -/
theorem C6_forced_reconnect_at_32_reboot_at_241_witness :
    (world_after [] true (fun _ => false) (wifi_config_init name_home (some Task.ota_task))
        (world_of store_home_only) 241).calls
      = (world_after [] true (fun _ => false) (wifi_config_init name_home (some Task.ota_task))
        (world_of store_home_only) 240).calls ++ [Call.sdk_system_restart] ∧
    (wifi_config_sta_connect_timeout_task [] true (fun _ => false) 300 0
        (wifi_config_init name_home (some Task.ota_task)) (world_of store_home_only)).2.2
      = world_after [] true (fun _ => false) (wifi_config_init name_home (some Task.ota_task))
        (world_of store_home_only) 241 :=
  (C6_forced_reconnect_at_32_reboot_at_241 [] true (fun _ => false)
    (wifi_config_init name_home (some Task.ota_task)) (world_of store_home_only) 300
    (fun _ => rfl) rfl rfl (by decide)).2.2.2.2.2

/-- C16 (as stated, refuted): poll 160, a multiple of 5 between 1 and 240, takes the
forced-reconnect branch and not the branch that calls `wifi_config_resend_arp`: with the
station interface up, the poll is a run of `wifi_config_connect(4)` and makes no
link-layer announcement. -/
theorem C16_counterexample_poll_160_reconnects :
    160 % 5 = 0 ∧
      (wifi_config_sta_connect_timeout_task [49] true (fun _ => false) 300 0 context_init
        (world_of store_home_only)).1[159]? = some poll_branch.forced_reconnect ∧
      (world_of store_home_only).netif_up = true ∧
      world_after [49] true (fun _ => false) context_init (world_of store_home_only) 160
        = (wifi_config_connect [49] true 4
            (world_after [49] true (fun _ => false) context_init
              (world_of store_home_only) 159)).2 ∧
      Call.etharp_gratuitous ∉
        new_calls
          (world_after [49] true (fun _ => false) context_init (world_of store_home_only) 159)
          (world_after [49] true (fun _ => false) context_init (world_of store_home_only) 160) := by
  have htr := sta_connect_timeout_trace [49] true (fun _ => false) (fun _ => rfl) 300 0
    context_init (world_of store_home_only) rfl (by decide)
  have hc : context_init.check_counter = 0 := rfl
  rw [hc] at htr
  have h160 := world_after_succ [49] true (fun _ => false) context_init
    (world_of store_home_only) (fun _ => rfl) rfl rfl 159 (by decide)
  simp only [Nat.reduceAdd, Nat.reduceMod, if_true] at h160
  refine ⟨rfl, ?_, rfl, h160, ?_⟩
  · rw [htr]
    exact branch_at_160
  · rw [h160]
    exact not_mem_new_calls_of_within (wifi_config_connect_within_all [49] true 4 _) _
      (by rfl)

/-- C16 (amended): from a poll counter of 0, in station mode and with no IP obtained, on
every poll number `n` from 1 to 240: when `n` is a multiple of 5 and not of 32 the poll
is a run of `wifi_config_resend_arp`, which makes one link-layer announcement when the
station interface is up and nothing otherwise; when `n` is a multiple of 32 the poll is
a run of `wifi_config_connect(4)` instead and makes no announcement; on every other
poll number nothing is called. -/
theorem C16_resend_arp_on_multiples_of_5_not_32 (iv : List Nat) (task_ok : Bool)
    (status : Nat → Bool) (context : wifi_config_context_t) (w : World) (fuel n : Nat)
    (hs : ∀ k, status k = false) (hop : w.opmode = OpMode.STATION_MODE)
    (hc : context.check_counter = 0) (hf : 241 ≤ fuel)
    (h1 : 1 ≤ n) (h2 : n ≤ 240) :
    (n % 5 = 0 → n % 32 ≠ 0 →
      (wifi_config_sta_connect_timeout_task iv task_ok status fuel 0 context w).1[n - 1]?
        = some poll_branch.resend_arp ∧
      world_after iv task_ok status context w n
        = wifi_config_resend_arp (world_after iv task_ok status context w (n - 1)) ∧
      ((world_after iv task_ok status context w (n - 1)).netif_up = true →
        new_calls (world_after iv task_ok status context w (n - 1))
          (world_after iv task_ok status context w n) = [Call.etharp_gratuitous]) ∧
      ((world_after iv task_ok status context w (n - 1)).netif_up = false →
        world_after iv task_ok status context w n
          = world_after iv task_ok status context w (n - 1))) ∧
    (n % 32 = 0 →
      (wifi_config_sta_connect_timeout_task iv task_ok status fuel 0 context w).1[n - 1]?
        = some poll_branch.forced_reconnect ∧
      world_after iv task_ok status context w n
        = (wifi_config_connect iv task_ok 4
            (world_after iv task_ok status context w (n - 1))).2 ∧
      Call.etharp_gratuitous ∉
        new_calls (world_after iv task_ok status context w (n - 1))
          (world_after iv task_ok status context w n)) ∧
    (n % 5 ≠ 0 → n % 32 ≠ 0 →
      world_after iv task_ok status context w n
        = world_after iv task_ok status context w (n - 1)) := by
  have htr := sta_connect_timeout_trace iv task_ok status hs fuel 0 context w hop
    (by rw [hc]; decide)
  have hmin : min fuel (241 - context.check_counter) = 241 := by rw [hc]; omega
  rw [hmin, hc] at htr
  have hlab : (wifi_config_sta_connect_timeout_task iv task_ok status fuel 0 context w).1[n - 1]?
      = some (branch_at n) := by
    rw [htr, List.getElem?_map, List.getElem?_range' _ _ (by omega)]
    have hn : 0 + 1 + 1 * (n - 1) = n := by omega
    simp only [Option.map_some', hn]
  have hw := world_after_succ iv task_ok status context w hs hop hc (n - 1) (by omega)
  have hn1 : n - 1 + 1 = n := by omega
  rw [hn1] at hw
  have hgt : ¬ (n > 240) := by omega
  refine ⟨?_, ?_, ?_⟩
  · intro h5 h32
    rw [if_neg h32, if_pos h5] at hw
    refine ⟨?_, hw, ?_, ?_⟩
    · rw [hlab]; simp [branch_at, h5, h32]
    · intro hup
      rw [hw]
      simp [wifi_config_resend_arp, hup, new_calls, World.log]
    · intro hdown
      rw [hw]
      simp [wifi_config_resend_arp, hdown]
  · intro h32
    rw [if_pos h32] at hw
    refine ⟨?_, hw, ?_⟩
    · rw [hlab]; simp [branch_at, h32]
    · rw [hw]
      exact not_mem_new_calls_of_within (wifi_config_connect_within_all iv task_ok 4 _) _
        (by rfl)
  · intro h5 h32
    rw [if_neg h32, if_neg h5, if_neg hgt] at hw
    exact hw

/-- Witness for C16 (amended): poll 5 with the station interface up makes exactly one
link-layer announcement. -/
theorem C16_resend_arp_on_multiples_of_5_not_32_witness :
    new_calls (world_after [49] true (fun _ => false) context_init (world_of store_home_only) 4)
        (world_after [49] true (fun _ => false) context_init (world_of store_home_only) 5)
      = [Call.etharp_gratuitous] :=
  ((C16_resend_arp_on_multiples_of_5_not_32 [49] true (fun _ => false) context_init
    (world_of store_home_only) 300 5 (fun _ => rfl) rfl rfl (by decide) (by decide)
    (by decide)).1 (by decide) (by decide)).2.2.1 (by decide)
end HAA
